import Mathlib

/-!
# abrt MiddleWare: crash ingestion and report pipeline

A shallow embedding of `src/Daemon/MiddleWare.cpp`.  The collaborators of the
middleware (plugin manager, analyzer / action / reporter plugins, database
plugin, `CDebugDump`, `CRPM`, libc helpers) are not part of the translation
unit; they are taken as a record of transition functions over an arbitrary
collaborator state.  Every call the middleware makes on a collaborator is
appended, with its outcome, to a trace, so that statements such as "no Insert
was performed" are statements about the trace.

`std::string` is embedded as `String`, one `Char` per C++ `char`.
-/

namespace Abrt

/-! ## std::string helpers used by the package-name derivation -/

/-- The value `std::string::npos`, that is `size_t(-1)` for a 64-bit `size_t`. -/
def npos : Nat := 2 ^ 64 - 1

/-- Subtraction on `size_t`: wraps around modulo `2 ^ 64`. -/
def size_sub (a b : Nat) : Nat := (a + 2 ^ 64 - b % 2 ^ 64) % 2 ^ 64

/-- The backwards scan of `std::string::rfind` for a one-character needle:
test position `i`, then `i - 1`, ... down to `0`; `npos` when nothing matches. -/
def rfind_from (s : List Char) (c : Char) : Nat → Nat
  | 0 => if s[0]? = some c then 0 else npos
  | i + 1 => if s[i + 1]? = some c then i + 1 else rfind_from s c i

/-- `s.rfind(needle, pos)` for the one-character needle `c`: the greatest index
`<= pos` holding `c`, or `npos`.  An empty string has no match. -/
def rfind (s : String) (c : Char) (pos : Nat) : Nat :=
  if s.data.length = 0 then npos
  else rfind_from s.data c (min (s.data.length - 1) pos)

/-- `s.substr(pos, n)` for `pos <= s.size()`: at most `n` characters from `pos`. -/
def substr (s : String) (pos n : Nat) : String :=
  String.mk ((s.data.drop pos).take n)

/-- The package-name derivation, written identically in
`SavePackageDescriptionToDebugDump` (`package.substr(0, package.rfind("-",
package.rfind("-") - 1))`) and in `Report` (same expression on `packageNVR`). -/
def packageName (package : String) : String :=
  substr package 0 (rfind package '-' (size_sub (rfind package '-' npos) 1))

/-! ## Types of the middleware interface -/

/-- The result enumeration `mw_result_t` threaded through both pipelines. -/
inductive mw_result_t
  | MW_ERROR
  | MW_OK
  | MW_BLACKLISTED
  | MW_CORRUPTED
  | MW_PACKAGE_ERROR
  | MW_GPG_ERROR
  | MW_REPORTED
  | MW_OCCURED
  | MW_IN_DB
  | MW_IN_DB_ERROR
  | MW_PLUGIN_ERROR
  | MW_FILE_ERROR
  deriving DecidableEq, Repr

/-- Modelled from the spec: the failure kinds of `ABRTException.h` (not in the
translation unit), "I/O-open, I/O-load, I/O-save, plugin-resolution, generic". -/
inductive abrt_exception_t
  | EXCEP_DD_OPEN
  | EXCEP_DD_LOAD
  | EXCEP_DD_SAVE
  | EXCEP_PLUGIN
  | EXCEP_ERROR
  deriving DecidableEq, Repr

/-- A typed failure `CABRTException`: its `type()` and its `what()`. -/
structure CABRTException where
  type : abrt_exception_t
  what : String
  deriving DecidableEq, Repr

/-- The plugin kinds reported by `CPluginManager::GetPluginType`. -/
inductive plugin_type_t
  | ANALYZER
  | ACTION
  | REPORTER
  | DATABASE
  deriving DecidableEq, Repr

/-- A database row `database_row_t`; every column is a string. -/
structure database_row_t where
  m_sUUID : String
  m_sUID : String
  m_sDebugDumpDir : String
  m_sCount : String
  m_sReported : String
  m_sMessage : String
  m_sTime : String
  deriving DecidableEq, Repr

/-- Modelled from the spec: the content kind of a crash-report field
(`CD_SYS`, `CD_BIN`, `CD_TXT`, `CD_ATT` of `CrashTypes.h`). -/
inductive content_kind_t
  | CD_SYS
  | CD_BIN
  | CD_TXT
  | CD_ATT
  deriving DecidableEq, Repr

/-- Modelled from the spec: the editability of a crash-report field. -/
inductive editable_t
  | CD_ISEDITABLE
  | CD_ISNOTEDITABLE
  deriving DecidableEq, Repr

/-- Modelled from the spec: the value of a crash-report field, the triple
indexed by `CD_TYPE`, `CD_EDITABLE`, `CD_CONTENT`. -/
structure crash_data_t where
  CD_TYPE : content_kind_t
  CD_EDITABLE : editable_t
  CD_CONTENT : String
  deriving DecidableEq, Repr

/-- A `std::map` from strings, kept as an association list with unique keys
(iteration order is not modelled). -/
abbrev map_t (V : Type) := List (String × V)

/-- The lookup `m.find(key)`: `none` stands for `m.end()`. -/
def map_find {V : Type} : map_t V → String → Option V
  | [], _ => none
  | (k, v) :: m, key => if k = key then some v else map_find m key

/-- The assignment `m[key] = v`. -/
def map_set {V : Type} : map_t V → String → V → map_t V
  | [], key, v => [(key, v)]
  | (k, w) :: m, key, v => if k = key then (k, v) :: m else (k, w) :: map_set m key v

/-- The statement `m[key].push_back(x)` on a map of vectors. -/
def map_push_back {V : Type} : map_t (List V) → String → V → map_t (List V)
  | [], key, x => [(key, [x])]
  | (k, w) :: m, key, x =>
    if k = key then (k, w ++ [x]) :: m else (k, w) :: map_push_back m key x

abbrev map_crash_report_t := map_t crash_data_t
abbrev map_crash_info_t := map_t String
abbrev map_plugin_settings_t := map_t String
abbrev report_status_t := map_t (List String)
abbrev vector_pair_string_string_t := List (String × String)

/-- Modelled from the spec: `add_crash_data_to_crash_report` of `CrashTypes.h`
binds the field name to the (kind, editability, content) triple. -/
def add_crash_data_to_crash_report (pCrashReport : map_crash_report_t) (pItem : String)
    (pType : content_kind_t) (pEditable : editable_t) (pContent : String) :
    map_crash_report_t :=
  map_set pCrashReport pItem ⟨pType, pEditable, pContent⟩

/-- Modelled from the spec: `add_crash_data_to_crash_info` of `CrashTypes.h`
binds the key to the value. -/
def add_crash_data_to_crash_info (pCrashInfo : map_crash_info_t) (pItem pContent : String) :
    map_crash_info_t :=
  map_set pCrashInfo pItem pContent

/-- Modelled from the spec: the artifact file names of `DebugDump.h`. -/
def FILENAME_ARCHITECTURE : String := "architecture"
/-- Modelled from the spec: the artifact file names of `DebugDump.h`. -/
def FILENAME_KERNEL : String := "kernel"
/-- Modelled from the spec: the artifact file names of `DebugDump.h`. -/
def FILENAME_PACKAGE : String := "package"
/-- Modelled from the spec: the artifact file names of `DebugDump.h`. -/
def FILENAME_COMPONENT : String := "component"
/-- Modelled from the spec: the artifact file names of `DebugDump.h`. -/
def FILENAME_RELEASE : String := "release"
/-- Modelled from the spec: the artifact file names of `DebugDump.h`. -/
def FILENAME_EXECUTABLE : String := "executable"
/-- Modelled from the spec: the artifact file names of `DebugDump.h`. -/
def FILENAME_UID : String := "uid"
/-- Modelled from the spec: the artifact file names of `DebugDump.h`. -/
def FILENAME_ANALYZER : String := "analyzer"
/-- Modelled from the spec: the artifact file names of `DebugDump.h`. -/
def FILENAME_TIME : String := "time"
/-- Modelled from the spec: the artifact file names of `DebugDump.h`. -/
def FILENAME_DESCRIPTION : String := "description"

/-- The process-wide configuration read by the pipelines: the file-static
variables of `MiddleWare.cpp`, the `g_settings_*` globals, and the constants of
headers that are not part of the translation unit (taken as parameters). -/
structure Config where
  s_setBlackList : List String
  s_mapAnalyzerActionsAndReporters : map_t vector_pair_string_string_t
  s_vectorActionsAndReporters : vector_pair_string_string_t
  g_settings_sDatabase : String
  g_settings_bOpenGPGCheck : Bool
  CD_ATT_SIZE : Nat
  PLUGINS_CONF_EXTENSION : String
  CD_UUID : String
  CD_UID : String
  CD_MWANALYZER : String
  CD_MWUID : String
  CD_MWUUID : String
  CD_MWDDD : String
  CD_COMMENT : String
  CD_REPRODUCE : String
  CD_EXECUTABLE : String
  CD_PACKAGE : String
  CD_DESCRIPTION : String
  CD_COUNT : String
  CD_TIME : String
  CD_REPORTED : String
  CD_MESSAGE : String

/-- One file of an artifact directory as `GetNextFile` hands it out:
`(fileName, content, isTextFile)`. -/
abbrev dd_file_t := String × String × Bool

/-- The collaborators, as transition functions over their own state `σ`.
A plugin handle is identified with the plugin name it was resolved from, and
a `CDebugDump` object with the directory it was opened on.  Calls that can
raise a `CABRTException` return an `Except`. -/
structure Collaborators (σ : Type) where
  GetDatabase : String → σ → Except CABRTException Unit × σ
  GetAnalyzer : String → σ → Except CABRTException Unit × σ
  GetAction : String → σ → Except CABRTException Unit × σ
  GetReporter : String → σ → Except CABRTException Unit × σ
  GetPluginType : String → σ → Except CABRTException plugin_type_t × σ
  Analyzer_GetLocalUUID : String → String → σ → Except CABRTException String × σ
  Analyzer_GetGlobalUUID : String → String → σ → Except CABRTException String × σ
  Analyzer_CreateReport : String → String → σ → Except CABRTException Unit × σ
  Action_Run : String → String → String → σ → Except CABRTException Unit × σ
  Reporter_Report :
    String → map_crash_report_t → String → σ → Except CABRTException String × σ
  Reporter_GetSettings : String → σ → map_plugin_settings_t
  Reporter_SetSettings : String → map_plugin_settings_t → σ → σ
  Connect : σ → Except CABRTException Unit × σ
  DisConnect : σ → Except CABRTException Unit × σ
  Insert : String → String → String → String → σ → Except CABRTException Unit × σ
  GetUUIDData : String → String → σ → Except CABRTException database_row_t × σ
  GetUIDData : String → σ → Except CABRTException (List database_row_t) × σ
  SetReported : String → String → String → σ → Except CABRTException Unit × σ
  dd_Open : String → σ → Except CABRTException Unit × σ
  dd_Close : String → σ → σ
  dd_Exist : String → String → σ → Bool
  dd_LoadText : String → String → σ → Except CABRTException String × σ
  dd_SaveText : String → String → String → σ → Except CABRTException Unit × σ
  /-- `InitGetNextFile` followed by `GetNextFile` until it returns false: the files
  handed out, and the failure that ended the enumeration if one was raised. -/
  dd_GetNextFile : String → σ → (List dd_file_t × Option CABRTException) × σ
  GetPackage : String → σ → String
  GetDescription : String → σ → String
  GetComponent : String → σ → String
  CheckFingerprint : String → σ → Bool
  CheckHash : String → String → σ → Bool
  get_home_dir : Int → σ → String
  LoadPluginSettings : String → σ → Option map_plugin_settings_t

/-- One entry of the trace: a call made on a collaborator, with its arguments
and its outcome. -/
inductive Event
  | GetDatabase (name : String) (r : Except CABRTException Unit)
  | GetAnalyzer (name : String) (r : Except CABRTException Unit)
  | GetAction (name : String) (r : Except CABRTException Unit)
  | GetReporter (name : String) (r : Except CABRTException Unit)
  | GetPluginType (name : String) (r : Except CABRTException plugin_type_t)
  | Analyzer_GetLocalUUID (name dir : String) (r : Except CABRTException String)
  | Analyzer_GetGlobalUUID (name dir : String) (r : Except CABRTException String)
  | Analyzer_CreateReport (name dir : String) (r : Except CABRTException Unit)
  | Action_Run (name dir args : String) (r : Except CABRTException Unit)
  | Reporter_Report (name args : String) (r : Except CABRTException String)
  | Reporter_GetSettings (name : String) (v : map_plugin_settings_t)
  | Reporter_SetSettings (name : String) (v : map_plugin_settings_t)
  | Connect (r : Except CABRTException Unit)
  | DisConnect (r : Except CABRTException Unit)
  | Insert (uuid uid dir time : String) (r : Except CABRTException Unit)
  | GetUUIDData (uuid uid : String) (r : Except CABRTException database_row_t)
  | GetUIDData (uid : String) (r : Except CABRTException (List database_row_t))
  | SetReported (uuid uid message : String) (r : Except CABRTException Unit)
  | dd_Open (dir : String) (r : Except CABRTException Unit)
  | dd_Close (dir : String)
  | dd_Exist (dir name : String) (r : Bool)
  | dd_LoadText (dir name : String) (r : Except CABRTException String)
  | dd_SaveText (dir name content : String) (r : Except CABRTException Unit)
  | dd_GetNextFile (dir : String) (r : List dd_file_t × Option CABRTException)
  | GetPackage (exe : String) (r : String)
  | GetDescription (package : String) (r : String)
  | GetComponent (exe : String) (r : String)
  | CheckFingerprint (package : String) (r : Bool)
  | CheckHash (package exe : String) (r : Bool)
  | get_home_dir (uid : Int) (r : String)
  | LoadPluginSettings (path : String) (r : Option map_plugin_settings_t)
  | comm_layer_inner_warning (msg : String)
  | comm_layer_inner_status (msg : String)
  | log (msg : String)
  | error_msg (msg : String)

deriving instance DecidableEq for Except

/-! ## The execution monad -/

/-- What a pipeline run sees and changes: the collaborators' state, the trace
of calls made so far, and the two objects the entry points receive by
reference (`map_crash_report_t& pCrashReport`, `map_crash_info_t& pCrashInfo`). -/
structure World (σ : Type) where
  ext : σ
  trace : List Event
  pCrashReport : map_crash_report_t
  pCrashInfo : map_crash_info_t

/-- How a statement can fail to complete: a `CABRTException` in flight, or
undefined behaviour of the C++ program. -/
inductive Fault
  | thrown (e : CABRTException)
  | undefined
  deriving DecidableEq, Repr

/-- A computation: it ends with a value or a fault, and with a new world.
The world is kept when a fault is raised (effects are not rolled back). -/
def M (σ : Type) (α : Type) : Type := World σ → Except Fault α × World σ

/-- Completing with a value. -/
def M.pure {σ α : Type} (a : α) : M σ α := fun w => (.ok a, w)

/-- Sequencing; a fault skips what follows. -/
def M.bind {σ α β : Type} (x : M σ α) (f : α → M σ β) : M σ β := fun w =>
  match x w with
  | (.ok a, w1) => f a w1
  | (.error e, w1) => (.error e, w1)

instance {σ : Type} : Monad (M σ) where
  pure := M.pure
  bind := M.bind

/-- The statement `throw CABRTException(type, what)`. -/
def throwAbrt {σ α : Type} (e : CABRTException) : M σ α := fun w => (.error (.thrown e), w)

/-- Undefined behaviour. -/
def undefinedBehaviour {σ α : Type} : M σ α := fun w => (.error .undefined, w)

/-- The statement `try { body } catch (CABRTException& e) { handler }`. -/
def tryCatchAbrt {σ α : Type} (body : M σ α) (handler : CABRTException → M σ α) : M σ α :=
  fun w =>
    match body w with
    | (.ok a, w1) => (.ok a, w1)
    | (.error (.thrown e), w1) => handler e w1
    | (.error .undefined, w1) => (.error .undefined, w1)

/-- Appending one entry to the trace. -/
def emit {σ : Type} (ev : Event) : M σ Unit := fun w =>
  (.ok (), { w with trace := w.trace ++ [ev] })

/-- A collaborator call that can raise a typed failure. -/
def call {σ α : Type} (f : σ → Except CABRTException α × σ)
    (ev : Except CABRTException α → Event) : M σ α := fun w =>
  match f w.ext with
  | (.ok a, x) => (.ok a, { w with ext := x, trace := w.trace ++ [ev (.ok a)] })
  | (.error e, x) =>
    (.error (.thrown e), { w with ext := x, trace := w.trace ++ [ev (.error e)] })

/-- A collaborator call that cannot fail. -/
def callTotal {σ α : Type} (f : σ → α × σ) (ev : α → Event) : M σ α := fun w =>
  (.ok (f w.ext).1, { w with ext := (f w.ext).2, trace := w.trace ++ [ev (f w.ext).1] })

/-- A collaborator call that only reads. -/
def callRead {σ α : Type} (f : σ → α) (ev : α → Event) : M σ α := fun w =>
  (.ok (f w.ext), { w with trace := w.trace ++ [ev (f w.ext)] })

/-- A collaborator call that cannot fail and returns nothing. -/
def callUpdate {σ : Type} (f : σ → σ) (ev : Event) : M σ Unit := fun w =>
  (.ok (), { w with ext := f w.ext, trace := w.trace ++ [ev] })

/-- Updating the object bound to `pCrashReport`. -/
def modifyCrashReport {σ : Type} (f : map_crash_report_t → map_crash_report_t) : M σ Unit :=
  fun w => (.ok (), { w with pCrashReport := f w.pCrashReport })

/-- Updating the object bound to `pCrashInfo`. -/
def modifyCrashInfo {σ : Type} (f : map_crash_info_t → map_crash_info_t) : M σ Unit :=
  fun w => (.ok (), { w with pCrashInfo := f w.pCrashInfo })

/-! ## libc helpers -/

/-- The digit loop of `atoi`. -/
def atoi_digits : List Char → Nat → Nat
  | [], acc => acc
  | c :: cs, acc => if c.isDigit then atoi_digits cs (acc * 10 + (c.toNat - 48)) else acc

/-- The libc predicate `isspace` in the C locale. -/
def isspace (c : Char) : Bool := c = ' ' || (9 ≤ c.toNat && c.toNat ≤ 13)

/-- The value `strtol` accumulates: leading white space, an optional sign,
decimal digits. -/
def strtol_value (s : String) : Int :=
  match s.data.dropWhile isspace with
  | '-' :: cs => - (atoi_digits cs 0 : Int)
  | '+' :: cs => (atoi_digits cs 0 : Int)
  | cs => (atoi_digits cs 0 : Int)

/-- The libc function `strtol` in base 10 for a 64-bit `long`: the value,
clamped to `LONG_MIN .. LONG_MAX`. -/
def strtol (s : String) : Int :=
  max (-(2 ^ 63)) (min (strtol_value s) (2 ^ 63 - 1))

/-- The libc function `atoi`, as glibc defines it, `(int) strtol(nptr, NULL, 10)`:
the conversion to the 32-bit `int` keeps the value modulo `2 ^ 32`. -/
def atoi (s : String) : Int :=
  (strtol s + 2 ^ 31) % 2 ^ 32 - 2 ^ 31

/-! ## MiddleWare.cpp -/

section MiddleWare

variable {σ : Type}

/-- The short-circuit `a || b` on two calls returning `bool`. -/
def orElse (a b : M σ Bool) : M σ Bool := do
  let x ← a
  if x then pure true else b

/-- The call `!dd.Exist(name)`. -/
def dd_notExist (env : Collaborators σ) (dir name : String) : M σ Bool := do
  let x ← callRead (env.dd_Exist dir name) (Event.dd_Exist dir name)
  pure (!x)

/-- The body of the `while (dd.GetNextFile(fileName, content, isTextFile))` loop of
`DebugDumpToCrashReport`, for one file. -/
def DebugDumpToCrashReport_file (cfg : Config) (pDebugDumpDir : String)
    (pCrashReport : map_crash_report_t) (f : dd_file_t) : map_crash_report_t :=
  let fileName := f.1
  let content := f.2.1
  let isTextFile := f.2.2
  if !isTextFile then
    add_crash_data_to_crash_report pCrashReport fileName .CD_BIN .CD_ISNOTEDITABLE
      (pDebugDumpDir ++ "/" ++ fileName)
  else if fileName = FILENAME_ARCHITECTURE ∨ fileName = FILENAME_KERNEL ∨
      fileName = FILENAME_PACKAGE ∨ fileName = FILENAME_COMPONENT ∨
      fileName = FILENAME_RELEASE ∨ fileName = FILENAME_EXECUTABLE then
    add_crash_data_to_crash_report pCrashReport fileName .CD_TXT .CD_ISNOTEDITABLE content
  else if fileName ≠ FILENAME_UID ∧ fileName ≠ FILENAME_ANALYZER ∧
      fileName ≠ FILENAME_TIME ∧ fileName ≠ FILENAME_DESCRIPTION then
    if content.length < cfg.CD_ATT_SIZE then
      add_crash_data_to_crash_report pCrashReport fileName .CD_TXT .CD_ISEDITABLE content
    else
      add_crash_data_to_crash_report pCrashReport fileName .CD_ATT .CD_ISEDITABLE content
  else pCrashReport

/-- `DebugDumpToCrashReport(pDebugDumpDir, pCrashReport)`. -/
def DebugDumpToCrashReport (cfg : Config) (env : Collaborators σ) (pDebugDumpDir : String) :
    M σ Unit := do
  call (env.dd_Open pDebugDumpDir) (Event.dd_Open pDebugDumpDir)
  let missing ←
    orElse (dd_notExist env pDebugDumpDir FILENAME_ARCHITECTURE)
      (orElse (dd_notExist env pDebugDumpDir FILENAME_KERNEL)
        (orElse (dd_notExist env pDebugDumpDir FILENAME_PACKAGE)
          (orElse (dd_notExist env pDebugDumpDir FILENAME_COMPONENT)
            (orElse (dd_notExist env pDebugDumpDir FILENAME_RELEASE)
              (dd_notExist env pDebugDumpDir FILENAME_EXECUTABLE)))))
  if missing then
    callUpdate (env.dd_Close pDebugDumpDir) (Event.dd_Close pDebugDumpDir)
    throwAbrt ⟨.EXCEP_ERROR,
      "DebugDumpToCrashReport(): One or more of important file(s)\x27re missing."⟩
  else
    modifyCrashReport (fun _ => [])
    let r ← callTotal (env.dd_GetNextFile pDebugDumpDir) (Event.dd_GetNextFile pDebugDumpDir)
    modifyCrashReport (fun rep => r.1.foldl (DebugDumpToCrashReport_file cfg pDebugDumpDir) rep)
    match r.2 with
    | some e => throwAbrt e
    | none => callUpdate (env.dd_Close pDebugDumpDir) (Event.dd_Close pDebugDumpDir)

/-- `GetLocalUUID(pAnalyzer, pDebugDumpDir)`. -/
def GetLocalUUID (env : Collaborators σ) (pAnalyzer pDebugDumpDir : String) : M σ String := do
  call (env.GetAnalyzer pAnalyzer) (Event.GetAnalyzer pAnalyzer)
  call (env.Analyzer_GetLocalUUID pAnalyzer pDebugDumpDir)
    (Event.Analyzer_GetLocalUUID pAnalyzer pDebugDumpDir)

/-- `GetGlobalUUID(pAnalyzer, pDebugDumpDir)`. -/
def GetGlobalUUID (env : Collaborators σ) (pAnalyzer pDebugDumpDir : String) : M σ String := do
  call (env.GetAnalyzer pAnalyzer) (Event.GetAnalyzer pAnalyzer)
  call (env.Analyzer_GetGlobalUUID pAnalyzer pDebugDumpDir)
    (Event.Analyzer_GetGlobalUUID pAnalyzer pDebugDumpDir)

/-- `CreateReport(pAnalyzer, pDebugDumpDir)`. -/
def CreateReport (env : Collaborators σ) (pAnalyzer pDebugDumpDir : String) : M σ Unit := do
  call (env.GetAnalyzer pAnalyzer) (Event.GetAnalyzer pAnalyzer)
  call (env.Analyzer_CreateReport pAnalyzer pDebugDumpDir)
    (Event.Analyzer_CreateReport pAnalyzer pDebugDumpDir)

/-- One iteration of the loop of `RunAnalyzerActions`: the `try` block and its
handler for the entry `it_a`. -/
def RunAnalyzerActions_entry (env : Collaborators σ) (pDebugDumpDir : String)
    (it_a : String × String) : M σ Unit :=
  tryCatchAbrt
    (do
      let t ← call (env.GetPluginType it_a.1) (Event.GetPluginType it_a.1)
      if t = .ACTION then
        call (env.GetAction it_a.1) (Event.GetAction it_a.1)
        call (env.Action_Run it_a.1 pDebugDumpDir it_a.2)
          (Event.Action_Run it_a.1 pDebugDumpDir it_a.2)
      else pure ())
    (fun e => do
      emit (.comm_layer_inner_warning ("RunAnalyzerActions(): " ++ e.what))
      emit (.comm_layer_inner_status
        ("Action performed by \x27" ++ it_a.1 ++ "\x27 was not successful: " ++ e.what)))

/-- The `for` loop of `RunAnalyzerActions` over the entries of one analyzer. -/
def RunAnalyzerActions_loop (env : Collaborators σ) (pDebugDumpDir : String) :
    vector_pair_string_string_t → M σ Unit
  | [] => pure ()
  | it_a :: rest => do
    RunAnalyzerActions_entry env pDebugDumpDir it_a
    RunAnalyzerActions_loop env pDebugDumpDir rest

/-- `RunAnalyzerActions(pAnalyzer, pDebugDumpDir)`. -/
def RunAnalyzerActions (cfg : Config) (env : Collaborators σ)
    (pAnalyzer pDebugDumpDir : String) : M σ Unit :=
  match map_find cfg.s_mapAnalyzerActionsAndReporters pAnalyzer with
  | some entries => RunAnalyzerActions_loop env pDebugDumpDir entries
  | none => pure ()

/-- The first statements of the `try` block of `CreateCrashReport`, up to and
including `RunAnalyzerActions`: the values of `analyzer` and `gUUID`. -/
def CreateCrashReport_analyze (cfg : Config) (env : Collaborators σ) (row : database_row_t) :
    M σ (String × String) := do
  call (env.dd_Open row.m_sDebugDumpDir) (Event.dd_Open row.m_sDebugDumpDir)
  let analyzer ← call (env.dd_LoadText row.m_sDebugDumpDir FILENAME_ANALYZER)
    (Event.dd_LoadText row.m_sDebugDumpDir FILENAME_ANALYZER)
  callUpdate (env.dd_Close row.m_sDebugDumpDir) (Event.dd_Close row.m_sDebugDumpDir)
  CreateReport env analyzer row.m_sDebugDumpDir
  let gUUID ← GetGlobalUUID env analyzer row.m_sDebugDumpDir
  RunAnalyzerActions cfg env analyzer row.m_sDebugDumpDir
  pure (analyzer, gUUID)

/-- The `try` block of `CreateCrashReport`, for the row found in the database. -/
def CreateCrashReport_try (cfg : Config) (env : Collaborators σ) (row : database_row_t)
    (pUUID pUID : String) : M σ Unit := do
  let found ← CreateCrashReport_analyze cfg env row
  DebugDumpToCrashReport cfg env row.m_sDebugDumpDir
  modifyCrashReport (fun r =>
    add_crash_data_to_crash_report r cfg.CD_UUID .CD_TXT .CD_ISNOTEDITABLE found.2)
  modifyCrashReport (fun r =>
    add_crash_data_to_crash_report r cfg.CD_MWANALYZER .CD_SYS .CD_ISNOTEDITABLE found.1)
  modifyCrashReport (fun r =>
    add_crash_data_to_crash_report r cfg.CD_MWUID .CD_SYS .CD_ISNOTEDITABLE pUID)
  modifyCrashReport (fun r =>
    add_crash_data_to_crash_report r cfg.CD_MWUUID .CD_SYS .CD_ISNOTEDITABLE pUUID)
  modifyCrashReport (fun r =>
    add_crash_data_to_crash_report r cfg.CD_COMMENT .CD_TXT .CD_ISEDITABLE "")
  modifyCrashReport (fun r =>
    add_crash_data_to_crash_report r cfg.CD_REPRODUCE .CD_TXT .CD_ISEDITABLE "1.\n2.\n3.\n")

/-- The result chosen by the `catch` handler of `CreateCrashReport`. -/
def CreateCrashReport_catch (e : CABRTException) : mw_result_t :=
  if e.type = .EXCEP_DD_OPEN then .MW_ERROR
  else if e.type = .EXCEP_DD_LOAD then .MW_FILE_ERROR
  else if e.type = .EXCEP_PLUGIN then .MW_PLUGIN_ERROR
  else .MW_CORRUPTED

/-- `CreateCrashReport(pUUID, pUID, pCrashReport)`. -/
def CreateCrashReport (cfg : Config) (env : Collaborators σ) (pUUID pUID : String) :
    M σ mw_result_t := do
  call (env.GetDatabase cfg.g_settings_sDatabase) (Event.GetDatabase cfg.g_settings_sDatabase)
  call env.Connect Event.Connect
  let row ← call (env.GetUUIDData pUUID pUID) (Event.GetUUIDData pUUID pUID)
  call env.DisConnect Event.DisConnect
  if pUUID = "" ∨ row.m_sUUID ≠ pUUID then
    emit (.comm_layer_inner_warning
      ("CreateCrashReport(): UUID \x27" ++ pUUID ++ "\x27 is not in database."))
    pure .MW_IN_DB_ERROR
  else
    tryCatchAbrt
      (do
        CreateCrashReport_try cfg env row pUUID pUID
        pure .MW_OK)
      (fun e => do
        emit (.comm_layer_inner_warning ("CreateCrashReport(): " ++ e.what))
        pure (CreateCrashReport_catch e))

/-- The block `if (pUID != "") { ... }` inside the `try` block of `Report`: it
fixes `home` and `oldSettings` and applies the per-user settings of the plugin
when their file loads; the result is `(home, oldSettings)`. -/
def Report_override (cfg : Config) (env : Collaborators σ) (pUID : String) (name : String) :
    M σ (String × map_plugin_settings_t) := do
  if pUID ≠ "" then
    let home ← callRead (env.get_home_dir (atoi pUID)) (Event.get_home_dir (atoi pUID))
    if home ≠ "" then
      let oldSettings ← callRead (env.Reporter_GetSettings name) (Event.Reporter_GetSettings name)
      let newSettings ← callRead
        (env.LoadPluginSettings (home ++ "/.abrt/" ++ name ++ "." ++ cfg.PLUGINS_CONF_EXTENSION))
        (Event.LoadPluginSettings
          (home ++ "/.abrt/" ++ name ++ "." ++ cfg.PLUGINS_CONF_EXTENSION))
      match newSettings with
      | some v =>
        callUpdate (env.Reporter_SetSettings name v) (Event.Reporter_SetSettings name v)
        pure (home, oldSettings)
      | none => pure (home, oldSettings)
    else pure (home, [])
  else pure ("", [])

/-- The part of the `try` block of `Report` that computes `res` for the entry
`it_r`: the reporter call with its per-user settings, or nothing when the
plugin is not a reporter. -/
def Report_try (cfg : Config) (env : Collaborators σ) (pCrashReport : map_crash_report_t)
    (pUID : String) (it_r : String × String) : M σ String := do
  let t ← call (env.GetPluginType it_r.1) (Event.GetPluginType it_r.1)
  if t = .REPORTER then
    call (env.GetReporter it_r.1) (Event.GetReporter it_r.1)
    let saved ← Report_override cfg env pUID it_r.1
    let res ← call (env.Reporter_Report it_r.1 pCrashReport it_r.2)
      (Event.Reporter_Report it_r.1 it_r.2)
    if saved.1 ≠ "" then
      callUpdate (env.Reporter_SetSettings it_r.1 saved.2)
        (Event.Reporter_SetSettings it_r.1 saved.2)
      pure res
    else pure res
  else pure ""

/-- The key `ret_key` under which the entry `it_r` is recorded in pass `ii`. -/
def Report_ret_key (ii : Nat) (pkgName : String) (it_r : String × String) : String :=
  if ii = 1 then it_r.1 ++ (" (" ++ pkgName ++ ")") else it_r.1

/-- One iteration of the inner loop of `Report`: the `try` block and its handler
for the entry `it_r`, acting on the variables `ret` and `message`. -/
def Report_entry (cfg : Config) (env : Collaborators σ) (pCrashReport : map_crash_report_t)
    (pUID : String) (ii : Nat) (pkgName : String) (acc : report_status_t × String)
    (it_r : String × String) : M σ (report_status_t × String) :=
  tryCatchAbrt
    (do
      let res ← Report_try cfg env pCrashReport pUID it_r
      pure (map_push_back (map_push_back acc.1 (Report_ret_key ii pkgName it_r) "1")
          (Report_ret_key ii pkgName it_r) res,
        acc.2 ++ (res ++ "\n")))
    (fun e => do
      emit (.comm_layer_inner_warning ("Report(): " ++ e.what))
      emit (.comm_layer_inner_status
        ("Reporting via \x27" ++ it_r.1 ++ "\x27 was not successful: " ++ e.what))
      pure (map_push_back (map_push_back acc.1 (Report_ret_key ii pkgName it_r) "0")
          (Report_ret_key ii pkgName it_r) e.what,
        acc.2))

/-- The inner `for` loop of `Report` over the entries registered under one key. -/
def Report_entries (cfg : Config) (env : Collaborators σ) (pCrashReport : map_crash_report_t)
    (pUID : String) (ii : Nat) (pkgName : String) :
    vector_pair_string_string_t → report_status_t × String → M σ (report_status_t × String)
  | [], acc => pure acc
  | it_r :: rest, acc => do
    let acc1 ← Report_entry cfg env pCrashReport pUID ii pkgName acc it_r
    Report_entries cfg env pCrashReport pUID ii pkgName rest acc1

/-- One pass `ii` of the outer loop of `Report`, for the dispatch key `analyzer`. -/
def Report_pass (cfg : Config) (env : Collaborators σ) (pCrashReport : map_crash_report_t)
    (pUID : String) (ii : Nat) (pkgName analyzer : String)
    (acc : report_status_t × String) : M σ (report_status_t × String) :=
  match map_find cfg.s_mapAnalyzerActionsAndReporters analyzer with
  | some entries => Report_entries cfg env pCrashReport pUID ii pkgName entries acc
  | none => pure acc

/-- `Report(pCrashReport, pUID)`.  Dereferencing `find(FILENAME_PACKAGE)` when the
report has no package field is undefined behaviour. -/
def Report (cfg : Config) (env : Collaborators σ) (pCrashReport : map_crash_report_t)
    (pUID : String) : M σ report_status_t :=
  match map_find pCrashReport cfg.CD_MWANALYZER, map_find pCrashReport cfg.CD_MWUID,
    map_find pCrashReport cfg.CD_MWUUID with
  | some a, some u, some uu =>
    match map_find pCrashReport FILENAME_PACKAGE with
    | none => undefinedBehaviour
    | some p => do
      let analyzer := a.CD_CONTENT
      let UID := u.CD_CONTENT
      let UUID := uu.CD_CONTENT
      let packageNVR := p.CD_CONTENT
      let acc0 ← Report_pass cfg env pCrashReport pUID 0 (packageName packageNVR) analyzer
        ([], "")
      let acc1 ← Report_pass cfg env pCrashReport pUID 1 (packageName packageNVR)
        (analyzer ++ (":" ++ packageName packageNVR)) acc0
      call (env.GetDatabase cfg.g_settings_sDatabase)
        (Event.GetDatabase cfg.g_settings_sDatabase)
      call env.Connect Event.Connect
      call (env.SetReported UUID UID acc1.2) (Event.SetReported UUID UID acc1.2)
      call env.DisConnect Event.DisConnect
      pure acc1.1
  | _, _, _ =>
    throwAbrt ⟨.EXCEP_ERROR, "Report(): System data are missing in crash report."⟩

/-- The linear scan of `IsDebugDumpSaved`: `found` after the loop over `rows`. -/
def IsDebugDumpSaved_scan (pDebugDumpDir : String) : List database_row_t → Bool
  | [] => false
  | row :: rest =>
    if row.m_sDebugDumpDir = pDebugDumpDir then true
    else IsDebugDumpSaved_scan pDebugDumpDir rest

/-- `IsDebugDumpSaved(pUID, pDebugDumpDir)`. -/
def IsDebugDumpSaved (cfg : Config) (env : Collaborators σ) (pUID pDebugDumpDir : String) :
    M σ Bool := do
  call (env.GetDatabase cfg.g_settings_sDatabase) (Event.GetDatabase cfg.g_settings_sDatabase)
  call env.Connect Event.Connect
  let rows ← call (env.GetUIDData pUID) (Event.GetUIDData pUID)
  call env.DisConnect Event.DisConnect
  pure (IsDebugDumpSaved_scan pDebugDumpDir rows)

/-- The first half of `SavePackageDescriptionToDebugDump`: the `if / else` that
fixes `package` and `packageName`, or leaves the function with a result. -/
def SavePackageDescriptionToDebugDump_gate (cfg : Config) (env : Collaborators σ)
    (pExecutable : String) : M σ (mw_result_t ⊕ (String × String)) := do
  if pExecutable = "kernel" then
    pure (.inr ("kernel", "kernel"))
  else
    let package ← callRead (env.GetPackage pExecutable) (Event.GetPackage pExecutable)
    let pkgName := packageName package
    if pkgName = "" ∨ pkgName ∈ cfg.s_setBlackList then
      if pkgName = "" then
        emit (.error_msg "Executable doesn\x27t belong to any package")
        pure (.inl .MW_PACKAGE_ERROR)
      else
        emit (.log "Blacklisted package")
        pure (.inl .MW_BLACKLISTED)
    else if cfg.g_settings_bOpenGPGCheck then
      let fingerprint ← callRead (env.CheckFingerprint pkgName) (Event.CheckFingerprint pkgName)
      if !fingerprint then
        emit (.error_msg "package isn\x27t signed with proper key")
        pure (.inl .MW_GPG_ERROR)
      else
        let hash ← callRead (env.CheckHash pkgName pExecutable)
          (Event.CheckHash pkgName pExecutable)
        if !hash then
          emit (.error_msg "executable has bad hash")
          pure (.inl .MW_GPG_ERROR)
        else pure (.inr (package, pkgName))
    else pure (.inr (package, pkgName))

/-- `SavePackageDescriptionToDebugDump(pExecutable, pDebugDumpDir)`. -/
def SavePackageDescriptionToDebugDump (cfg : Config) (env : Collaborators σ)
    (pExecutable pDebugDumpDir : String) : M σ mw_result_t := do
  let gate ← SavePackageDescriptionToDebugDump_gate cfg env pExecutable
  match gate with
  | .inl res => pure res
  | .inr (package, pkgName) =>
    let description ← callRead (env.GetDescription pkgName) (Event.GetDescription pkgName)
    let component ← callRead (env.GetComponent pExecutable) (Event.GetComponent pExecutable)
    tryCatchAbrt
      (do
        call (env.dd_Open pDebugDumpDir) (Event.dd_Open pDebugDumpDir)
        call (env.dd_SaveText pDebugDumpDir FILENAME_PACKAGE package)
          (Event.dd_SaveText pDebugDumpDir FILENAME_PACKAGE package)
        call (env.dd_SaveText pDebugDumpDir FILENAME_DESCRIPTION description)
          (Event.dd_SaveText pDebugDumpDir FILENAME_DESCRIPTION description)
        call (env.dd_SaveText pDebugDumpDir FILENAME_COMPONENT component)
          (Event.dd_SaveText pDebugDumpDir FILENAME_COMPONENT component)
        callUpdate (env.dd_Close pDebugDumpDir) (Event.dd_Close pDebugDumpDir)
        pure .MW_OK)
      (fun e => do
        emit (.comm_layer_inner_warning ("SavePackageDescriptionToDebugDump(): " ++ e.what))
        if e.type = .EXCEP_DD_SAVE then
          callUpdate (env.dd_Close pDebugDumpDir) (Event.dd_Close pDebugDumpDir)
          pure .MW_FILE_ERROR
        else pure .MW_ERROR)

/-- `GetCrashInfo(pUUID, pUID, pCrashInfo)`. -/
def GetCrashInfo (cfg : Config) (env : Collaborators σ) (pUUID pUID : String) :
    M σ mw_result_t := do
  modifyCrashInfo (fun _ => [])
  call (env.GetDatabase cfg.g_settings_sDatabase) (Event.GetDatabase cfg.g_settings_sDatabase)
  call env.Connect Event.Connect
  let row ← call (env.GetUUIDData pUUID pUID) (Event.GetUUIDData pUUID pUID)
  call env.DisConnect Event.DisConnect
  let loaded ← tryCatchAbrt
    (do
      call (env.dd_Open row.m_sDebugDumpDir) (Event.dd_Open row.m_sDebugDumpDir)
      let executable ← call (env.dd_LoadText row.m_sDebugDumpDir FILENAME_EXECUTABLE)
        (Event.dd_LoadText row.m_sDebugDumpDir FILENAME_EXECUTABLE)
      let package ← call (env.dd_LoadText row.m_sDebugDumpDir FILENAME_PACKAGE)
        (Event.dd_LoadText row.m_sDebugDumpDir FILENAME_PACKAGE)
      let description ← call (env.dd_LoadText row.m_sDebugDumpDir FILENAME_DESCRIPTION)
        (Event.dd_LoadText row.m_sDebugDumpDir FILENAME_DESCRIPTION)
      callUpdate (env.dd_Close row.m_sDebugDumpDir) (Event.dd_Close row.m_sDebugDumpDir)
      pure (.inr (executable, package, description) : mw_result_t ⊕ (String × String × String)))
    (fun e => do
      emit (.comm_layer_inner_warning ("GetCrashInfo(): " ++ e.what))
      if e.type = .EXCEP_DD_LOAD then
        callUpdate (env.dd_Close row.m_sDebugDumpDir) (Event.dd_Close row.m_sDebugDumpDir)
        pure (.inl .MW_FILE_ERROR)
      else pure (.inl .MW_ERROR))
  match loaded with
  | .inl res => pure res
  | .inr (executable, package, description) =>
    modifyCrashInfo (fun i => add_crash_data_to_crash_info i cfg.CD_EXECUTABLE executable)
    modifyCrashInfo (fun i => add_crash_data_to_crash_info i cfg.CD_PACKAGE package)
    modifyCrashInfo (fun i => add_crash_data_to_crash_info i cfg.CD_DESCRIPTION description)
    modifyCrashInfo (fun i => add_crash_data_to_crash_info i cfg.CD_UUID row.m_sUUID)
    modifyCrashInfo (fun i => add_crash_data_to_crash_info i cfg.CD_UID row.m_sUID)
    modifyCrashInfo (fun i => add_crash_data_to_crash_info i cfg.CD_COUNT row.m_sCount)
    modifyCrashInfo (fun i => add_crash_data_to_crash_info i cfg.CD_TIME row.m_sTime)
    modifyCrashInfo (fun i => add_crash_data_to_crash_info i cfg.CD_REPORTED row.m_sReported)
    modifyCrashInfo (fun i => add_crash_data_to_crash_info i cfg.CD_MESSAGE row.m_sMessage)
    modifyCrashInfo (fun i => add_crash_data_to_crash_info i cfg.CD_MWDDD row.m_sDebugDumpDir)
    pure .MW_OK

/-- `SaveDebugDumpToDatabase(pUUID, pUID, pTime, pDebugDumpDir, pCrashInfo)`. -/
def SaveDebugDumpToDatabase (cfg : Config) (env : Collaborators σ)
    (pUUID pUID pTime pDebugDumpDir : String) : M σ mw_result_t := do
  call (env.GetDatabase cfg.g_settings_sDatabase) (Event.GetDatabase cfg.g_settings_sDatabase)
  call env.Connect Event.Connect
  call (env.Insert pUUID pUID pDebugDumpDir pTime) (Event.Insert pUUID pUID pDebugDumpDir pTime)
  let row ← call (env.GetUUIDData pUUID pUID) (Event.GetUUIDData pUUID pUID)
  call env.DisConnect Event.DisConnect
  let res ← GetCrashInfo cfg env pUUID pUID
  if row.m_sReported = "1" then
    emit (.log "Crash is already reported")
    pure .MW_REPORTED
  else if row.m_sCount ≠ "1" then
    emit (.log "Crash is in database already")
    pure .MW_OCCURED
  else pure res

/-- The `try` block at the head of `SaveDebugDump` with its handler: the four
loaded texts `(time, UID, analyzer, executable)`, or the result returned by the
handler. -/
def SaveDebugDump_load (env : Collaborators σ) (pDebugDumpDir : String) :
    M σ (mw_result_t ⊕ (String × String × String × String)) :=
  tryCatchAbrt
    (do
      call (env.dd_Open pDebugDumpDir) (Event.dd_Open pDebugDumpDir)
      let time ← call (env.dd_LoadText pDebugDumpDir FILENAME_TIME)
        (Event.dd_LoadText pDebugDumpDir FILENAME_TIME)
      let UID ← call (env.dd_LoadText pDebugDumpDir FILENAME_UID)
        (Event.dd_LoadText pDebugDumpDir FILENAME_UID)
      let analyzer ← call (env.dd_LoadText pDebugDumpDir FILENAME_ANALYZER)
        (Event.dd_LoadText pDebugDumpDir FILENAME_ANALYZER)
      let executable ← call (env.dd_LoadText pDebugDumpDir FILENAME_EXECUTABLE)
        (Event.dd_LoadText pDebugDumpDir FILENAME_EXECUTABLE)
      callUpdate (env.dd_Close pDebugDumpDir) (Event.dd_Close pDebugDumpDir)
      pure (.inr (time, UID, analyzer, executable)))
    (fun e => do
      emit (.comm_layer_inner_warning ("SaveDebugDump(): " ++ e.what))
      if e.type = .EXCEP_DD_SAVE then
        callUpdate (env.dd_Close pDebugDumpDir) (Event.dd_Close pDebugDumpDir)
        pure (.inl .MW_FILE_ERROR)
      else pure (.inl .MW_ERROR))

/-- `SaveDebugDump(pDebugDumpDir, pCrashInfo)`. -/
def SaveDebugDump (cfg : Config) (env : Collaborators σ) (pDebugDumpDir : String) :
    M σ mw_result_t := do
  let loaded ← SaveDebugDump_load env pDebugDumpDir
  match loaded with
  | .inl res => pure res
  | .inr (time, UID, analyzer, executable) =>
    let saved ← IsDebugDumpSaved cfg env UID pDebugDumpDir
    if saved then pure .MW_IN_DB
    else
      let res ← SavePackageDescriptionToDebugDump cfg env executable pDebugDumpDir
      if res ≠ .MW_OK then pure res
      else
        let lUUID ← GetLocalUUID env analyzer pDebugDumpDir
        SaveDebugDumpToDatabase cfg env lUUID UID time pDebugDumpDir

end MiddleWare

/-- `AddBlackListedPackage(pPackage)`: `s_setBlackList.insert(pPackage)`. -/
def AddBlackListedPackage (cfg : Config) (pPackage : String) : Config :=
  { cfg with
    s_setBlackList :=
      if pPackage ∈ cfg.s_setBlackList then cfg.s_setBlackList
      else cfg.s_setBlackList ++ [pPackage] }

/-- `AddAnalyzerActionOrReporter(pAnalyzer, pAnalyzerOrReporter, pArgs)`:
`s_mapAnalyzerActionsAndReporters[pAnalyzer].push_back(make_pair(...))`. -/
def AddAnalyzerActionOrReporter (cfg : Config) (pAnalyzer pAnalyzerOrReporter pArgs : String) :
    Config :=
  { cfg with
    s_mapAnalyzerActionsAndReporters :=
      map_push_back cfg.s_mapAnalyzerActionsAndReporters pAnalyzer
        (pAnalyzerOrReporter, pArgs) }

/-! ## Reading the trace -/

/-- Whether a trace entry is a database `Insert` call. -/
def isInsert : Event → Bool
  | .Insert _ _ _ _ _ => true
  | _ => false

/-- The number of `Insert` calls recorded in a trace. -/
def insertCount (t : List Event) : Nat := t.countP isInsert

/-- A trace entry as a `SetReported` call: `(UUID, UID, message)`. -/
def setReportedCall : Event → Option (String × String × String)
  | .SetReported uuid uid message _ => some (uuid, uid, message)
  | _ => none

/-- The `SetReported` calls recorded in a trace, in call order. -/
def setReportedCalls (t : List Event) : List (String × String × String) :=
  t.filterMap setReportedCall

/-- A trace entry as a `reporter->Report` call: `(plugin name, args)`. -/
def reporterCall : Event → Option (String × String)
  | .Reporter_Report name args _ => some (name, args)
  | _ => none

/-- The `reporter->Report` calls recorded in a trace, in call order. -/
def reporterCalls (t : List Event) : List (String × String) :=
  t.filterMap reporterCall

/-- What a trace entry of the dispatch loop of `Report` settles about the entry
being processed: `(false, failure description)` when the call raised a failure,
`(true, return message)` when the reporter returned, `(true, "")` when the
plugin type was looked up and is not `REPORTER`; other calls settle nothing. -/
def entryOutcome : Event → Option (Bool × String)
  | .GetPluginType _ (.error e) => some (false, e.what)
  | .GetPluginType _ (.ok ty) => if ty = .REPORTER then none else some (true, "")
  | .GetReporter _ (.error e) => some (false, e.what)
  | .Reporter_Report _ _ (.ok res) => some (true, res)
  | .Reporter_Report _ _ (.error e) => some (false, e.what)
  | _ => none

/-- The outcomes of the dispatch entries processed in a trace, in order. -/
def reportOutcomes (t : List Event) : List (Bool × String) :=
  t.filterMap entryOutcome

/-- The concatenation of the results of the outcomes that are not failures,
each followed by a newline. -/
def joinLines : List (Bool × String) → String
  | [] => ""
  | (true, res) :: t => (res ++ "\n") ++ joinLines t
  | (false, _) :: t => joinLines t

/-- The success flag as `Report` stores it in the status mapping. -/
def flagOf (b : Bool) : String := if b then "1" else "0"

/-- Recording one outcome under a result key: the two `push_back` calls. -/
def recordStatus (ret : report_status_t) (key : String) (o : Bool × String) :
    report_status_t :=
  map_push_back (map_push_back ret key (flagOf o.1)) key o.2

/-- Recording a sequence of `(result key, outcome)` in order. -/
def statusFold (ret : report_status_t) (l : List (String × Bool × String)) : report_status_t :=
  l.foldl (fun r p => recordStatus r p.1 p.2) ret

/-- The two log lines written by the `catch` handler of `Report` for the entry
`it_r` and the failure `e`. -/
def Report_catch_events (it_r : String × String) (e : CABRTException) : List Event :=
  [Event.comm_layer_inner_warning ("Report(): " ++ e.what),
    Event.comm_layer_inner_status
      ("Reporting via \x27" ++ it_r.1 ++ "\x27 was not successful: " ++ e.what)]

/-- What a sequence of `(result key, outcome)` leaves under the key `k`: the
flag and the message of each outcome recorded under `k`, in order. -/
def recordedUnder (k : String) : List (String × Bool × String) → List String
  | [] => []
  | p :: l =>
    if p.1 = k then flagOf p.2.1 :: p.2.2 :: recordedUnder k l else recordedUnder k l

/-- The dispatch entries registered under a key (none when the key is absent). -/
def entriesOf (cfg : Config) (key : String) : vector_pair_string_string_t :=
  (map_find cfg.s_mapAnalyzerActionsAndReporters key).getD []

/-- The result keys of the dispatch entries `Report` processes for the analyzer
`A` and the package name `P`, in processing order: the entries registered under
`A`, then those registered under `A:P`. -/
def Report_keys (cfg : Config) (A P : String) : List String :=
  (entriesOf cfg A).map (Report_ret_key 0 P) ++
    (entriesOf cfg (A ++ (":" ++ P))).map (Report_ret_key 1 P)

/-! ## A reference environment

Modelled from the spec: a small executable instance of the collaborators,
following the contracts of the external interfaces (artifact store, crash
database, plugin registry, package inspector).  It is used to run the
pipelines on concrete inputs. -/

/-- Modelled from the spec: the state of the reference collaborators. -/
structure Sim where
  /-- Artifact store: directory path to its files. -/
  dumps : map_t (List dd_file_t)
  /-- Crash database rows. -/
  rows : List database_row_t
  /-- What each reporter plugin does when asked to report. -/
  reporterOutcome : map_t (Except CABRTException String)
  /-- Action plugins whose `Run` fails. -/
  failingActions : List String
  /-- Current settings of each reporter plugin. -/
  settings : map_t map_plugin_settings_t
  /-- Home directory of each user id. -/
  homes : List (Int × String)
  /-- Per-user plugin settings files, by path. -/
  settingsFiles : map_t map_plugin_settings_t
  /-- Package inspector: executable path to package NVR. -/
  packages : map_t String
  /-- Packages not signed with a trusted key. -/
  unsignedPackages : List String
  /-- Executables whose hash does not match their package. -/
  badHashes : List String
  /-- Local UUID the analyzers compute for each directory. -/
  uuids : map_t String
  deriving DecidableEq

/-- Modelled from the spec: the row `getRow(uuid, uid)` returns; an empty row
when there is none. -/
def Sim.getRow (rows : List database_row_t) (uuid uid : String) : database_row_t :=
  match rows.find? (fun r => r.m_sUUID = uuid ∧ r.m_sUID = uid) with
  | some r => r
  | none => ⟨"", "", "", "", "", "", ""⟩

/-- Modelled from the spec: `insertOrIncrement(uuid, uid, dir, time)`. -/
def Sim.insert (rows : List database_row_t) (uuid uid dir time : String) :
    List database_row_t :=
  if rows.any (fun r => r.m_sUUID = uuid ∧ r.m_sUID = uid) then
    rows.map (fun r =>
      if r.m_sUUID = uuid ∧ r.m_sUID = uid then
        { r with m_sCount := toString ((atoi r.m_sCount).toNat + 1), m_sTime := time }
      else r)
  else rows ++ [⟨uuid, uid, dir, "1", "0", "", time⟩]

/-- Modelled from the spec: `setReported(uuid, uid, message)`. -/
def Sim.setReported (rows : List database_row_t) (uuid uid message : String) :
    List database_row_t :=
  rows.map (fun r =>
    if r.m_sUUID = uuid ∧ r.m_sUID = uid then
      { r with m_sReported := "1", m_sMessage := message }
    else r)

/-- Modelled from the spec: `resolve(name)` for one capability: fails with a
plugin error if the name is unknown or of another type. -/
def Sim.resolve (plugins : map_t plugin_type_t) (ty : plugin_type_t) (name : String) (s : Sim) :
    Except CABRTException Unit × Sim :=
  if map_find plugins name = some ty then (.ok (), s)
  else (.error ⟨.EXCEP_PLUGIN, "Plugin: \x27" ++ name ++ "\x27 is not registered."⟩, s)

/-- Modelled from the spec: `loadText(name)`, failing with a load error if the
file is absent or not text. -/
def Sim.loadText (dir name : String) (s : Sim) : Except CABRTException String × Sim :=
  match map_find s.dumps dir with
  | none => (.error ⟨.EXCEP_DD_LOAD, "cannot load " ++ name⟩, s)
  | some files =>
    match files.find? (fun f => f.1 = name ∧ f.2.2 = true) with
    | some f => (.ok f.2.1, s)
    | none => (.error ⟨.EXCEP_DD_LOAD, "cannot load " ++ name⟩, s)

/-- Modelled from the spec: `saveText(name, content)`, an overwrite. -/
def Sim.saveText (dir name content : String) (s : Sim) : Except CABRTException Unit × Sim :=
  match map_find s.dumps dir with
  | none => (.error ⟨.EXCEP_DD_SAVE, "cannot save " ++ name⟩, s)
  | some files =>
    (.ok (), { s with
      dumps := map_set s.dumps dir
        (files.filter (fun f => f.1 ≠ name) ++ [(name, content, true)]) })

/-- Modelled from the spec: `typeOf(name)`, failing with a plugin error if the
name is unknown. -/
def Sim.typeOf (plugins : map_t plugin_type_t) (name : String) :
    Except CABRTException plugin_type_t :=
  match map_find plugins name with
  | some ty => .ok ty
  | none => .error ⟨.EXCEP_PLUGIN, "Plugin: \x27" ++ name ++ "\x27 is not registered."⟩

/-- Modelled from the spec: the reference collaborators, for a plugin registry
`plugins` (registered plugin names and their types) fixed at startup. -/
def simEnv (plugins : map_t plugin_type_t) : Collaborators Sim where
  GetDatabase := Sim.resolve plugins .DATABASE
  GetAnalyzer := Sim.resolve plugins .ANALYZER
  GetAction := Sim.resolve plugins .ACTION
  GetReporter := Sim.resolve plugins .REPORTER
  GetPluginType := fun name s => (Sim.typeOf plugins name, s)
  Analyzer_GetLocalUUID := fun _ dir s => (.ok ((map_find s.uuids dir).getD ""), s)
  Analyzer_GetGlobalUUID := fun _ dir s => (.ok ((map_find s.uuids dir).getD ""), s)
  Analyzer_CreateReport := fun _ _ s => (.ok (), s)
  Action_Run := fun name _ _ s =>
    if name ∈ s.failingActions then (.error ⟨.EXCEP_PLUGIN, "action failed"⟩, s)
    else (.ok (), s)
  Reporter_Report := fun name _ _ s => ((map_find s.reporterOutcome name).getD (.ok ""), s)
  Reporter_GetSettings := fun name s => (map_find s.settings name).getD []
  Reporter_SetSettings := fun name v s => { s with settings := map_set s.settings name v }
  Connect := fun s => (.ok (), s)
  DisConnect := fun s => (.ok (), s)
  Insert := fun uuid uid dir time s =>
    (.ok (), { s with rows := Sim.insert s.rows uuid uid dir time })
  GetUUIDData := fun uuid uid s => (.ok (Sim.getRow s.rows uuid uid), s)
  GetUIDData := fun uid s => (.ok (s.rows.filter (fun r => r.m_sUID = uid)), s)
  SetReported := fun uuid uid message s =>
    (.ok (), { s with rows := Sim.setReported s.rows uuid uid message })
  dd_Open := fun dir s =>
    match map_find s.dumps dir with
    | some _ => (.ok (), s)
    | none => (.error ⟨.EXCEP_DD_OPEN, "cannot open " ++ dir⟩, s)
  dd_Close := fun _ s => s
  dd_Exist := fun dir name s =>
    match map_find s.dumps dir with
    | some files => files.any (fun f => f.1 = name)
    | none => false
  dd_LoadText := Sim.loadText
  dd_SaveText := Sim.saveText
  dd_GetNextFile := fun dir s => (((map_find s.dumps dir).getD [], none), s)
  GetPackage := fun exe s => (map_find s.packages exe).getD ""
  GetDescription := fun package _ => "description of " ++ package
  GetComponent := fun exe s => packageName ((map_find s.packages exe).getD "")
  CheckFingerprint := fun package s => !(s.unsignedPackages.contains package)
  CheckHash := fun _ exe s => !(s.badHashes.contains exe)
  get_home_dir := fun uid s =>
    match s.homes.find? (fun h => h.1 = uid) with
    | some h => h.2
    | none => ""
  LoadPluginSettings := fun path s => map_find s.settingsFiles path

/-- A configuration with the key names of `CrashTypes.h` filled in and nothing
registered. -/
def simConfig : Config where
  s_setBlackList := []
  s_mapAnalyzerActionsAndReporters := []
  s_vectorActionsAndReporters := []
  g_settings_sDatabase := "SQLite3"
  g_settings_bOpenGPGCheck := false
  CD_ATT_SIZE := 256
  PLUGINS_CONF_EXTENSION := "conf"
  CD_UUID := "UUID"
  CD_UID := "UID"
  CD_MWANALYZER := "_MWAnalyzer"
  CD_MWUID := "_MWUID"
  CD_MWUUID := "_MWUUID"
  CD_MWDDD := "_MWDDD"
  CD_COMMENT := "Comment"
  CD_REPRODUCE := "How to reproduce"
  CD_EXECUTABLE := "Executable"
  CD_PACKAGE := "Package"
  CD_DESCRIPTION := "Description"
  CD_COUNT := "Count"
  CD_TIME := "Time"
  CD_REPORTED := "Reported"
  CD_MESSAGE := "Message"

/-- The plugin registry of the examples. -/
def examplePlugins : map_t plugin_type_t :=
  [("SQLite3", .DATABASE), ("CCpp", .ANALYZER), ("Kerneloops", .ANALYZER),
    ("Logger", .REPORTER), ("Mailx", .REPORTER), ("Bugzilla", .REPORTER), ("RunApp", .ACTION)]

/-- The reference collaborators of the examples. -/
def exampleEnv : Collaborators Sim := simEnv examplePlugins

/-- An empty reference state. -/
def simEmpty : Sim where
  dumps := []
  rows := []
  reporterOutcome := []
  failingActions := []
  settings := []
  homes := []
  settingsFiles := []
  packages := []
  unsignedPackages := []
  badHashes := []
  uuids := []

/-- The world a run starts in: no calls made yet, empty caller objects. -/
def simWorld (s : Sim) : World Sim where
  ext := s
  trace := []
  pCrashReport := []
  pCrashInfo := []

/-- An artifact directory of the examples: the four texts ingestion loads and
the other required files. -/
def exampleDump : List dd_file_t :=
  [("time", "1256000000", true), ("uid", "500", true), ("analyzer", "CCpp", true),
    ("executable", "/usr/bin/foo", true), ("architecture", "x86_64", true),
    ("kernel", "2.6.31", true), ("release", "Fedora release 12", true),
    ("package", "foo-1.2-3.x86_64", true), ("component", "foo", true),
    ("coredump", "", false)]

/-- A reference state in which the directory of the examples was ingested
before for user 500. -/
def recordedSim : Sim :=
  { simEmpty with
    dumps := [("/var/cache/abrt/ccpp-1", exampleDump)]
    rows := [⟨"0a1b2c", "500", "/var/cache/abrt/ccpp-1", "1", "0", "", "1256000000"⟩]
    packages := [("/usr/bin/foo", "foo-1.2-3.x86_64")]
    uuids := [("/var/cache/abrt/ccpp-1", "0a1b2c")] }

/-- A reference state holding the directory of the examples, not ingested yet. -/
def freshSim : Sim :=
  { simEmpty with
    dumps := [("/var/cache/abrt/ccpp-1", exampleDump)]
    packages := [("/usr/bin/foo", "foo-1.2-3.x86_64")]
    uuids := [("/var/cache/abrt/ccpp-1", "0a1b2c")] }

/-- A reference state holding a kernel oops: its executable is the sentinel
`kernel`, which the package inspector attributes to a kernel package. -/
def kernelSim : Sim :=
  { simEmpty with
    dumps := [("/var/cache/abrt/kerneloops-1",
      [("time", "1256000000", true), ("uid", "0", true), ("analyzer", "Kerneloops", true),
        ("executable", "kernel", true)])]
    packages := [("kernel", "kernel-2.6.31-1.fc12")]
    uuids := [("/var/cache/abrt/kerneloops-1", "deadbeef")] }

/-- A text of exactly `CD_ATT_SIZE` (256) characters. -/
def thresholdText : String := String.mk (List.replicate 256 'x')

/-- A reference state whose artifact directory holds, besides the required
files, a text file `backtrace` of exactly `CD_ATT_SIZE` characters. -/
def thresholdSim : Sim :=
  { simEmpty with
    dumps := [("/var/cache/abrt/ccpp-1", exampleDump ++ [("backtrace", thresholdText, true)])] }

/-- A crash report as `CreateCrashReport` hands it to `Report`: the package field
and the three system fields (analyzer `CCpp`, UID `500`, UUID `0a1b2c`). -/
def exampleReport : map_crash_report_t :=
  [("package", ⟨.CD_TXT, .CD_ISNOTEDITABLE, "foo-1.2-3.x86_64"⟩),
    ("_MWAnalyzer", ⟨.CD_SYS, .CD_ISNOTEDITABLE, "CCpp"⟩),
    ("_MWUID", ⟨.CD_SYS, .CD_ISNOTEDITABLE, "500"⟩),
    ("_MWUUID", ⟨.CD_SYS, .CD_ISNOTEDITABLE, "0a1b2c"⟩)]

/-- A dispatch table registered at startup: `Logger` and `Mailx` for the
analyzer `CCpp`, `Bugzilla` for `CCpp` crashes of the package `foo`. -/
def dispatchConfig : Config :=
  AddAnalyzerActionOrReporter
    (AddAnalyzerActionOrReporter (AddAnalyzerActionOrReporter simConfig "CCpp" "Logger" "")
      "CCpp" "Mailx" "")
    "CCpp:foo" "Bugzilla" "product=foo"

/-- A reference state in which the reporter `Logger` fails and the reporters
`Mailx` and `Bugzilla` succeed. -/
def dispatchSim : Sim :=
  { recordedSim with
    reporterOutcome := [("Logger", .error ⟨.EXCEP_PLUGIN, "cannot write log"⟩),
      ("Mailx", .ok "mail sent"), ("Bugzilla", .ok "bug 123 filed")] }

/-- A dispatch table with the reporter `Logger` registered twice, with different
arguments, and one action, for the analyzer `CCpp`. -/
def repeatedConfig : Config :=
  AddAnalyzerActionOrReporter
    (AddAnalyzerActionOrReporter (AddAnalyzerActionOrReporter simConfig "CCpp" "Logger" "a")
      "CCpp" "Logger" "b")
    "CCpp" "RunApp" ""

/-- A reference state in which the reporter `Logger` returns `logged`. -/
def loggedSim : Sim :=
  { recordedSim with reporterOutcome := [("Logger", .ok "logged")] }

/-- A dispatch table with the reporter `Mailx` for the analyzer `CCpp`. -/
def overrideConfig : Config := AddAnalyzerActionOrReporter simConfig "CCpp" "Mailx" ""

/-- A reference state in which user 500 has a home directory holding per-user
settings for `Mailx`, and in which the reporter `Mailx` behaves as `outcome`. -/
def overrideSim (outcome : Except CABRTException String) : Sim :=
  { recordedSim with
    reporterOutcome := [("Mailx", outcome)]
    settings := [("Mailx", [("Subject", "[abrt] crash report")])]
    homes := [(500, "/home/u")]
    settingsFiles := [("/home/u/.abrt/Mailx.conf", [("Subject", "private")])] }

/-- A reference state whose database row points at a directory the artifact
store does not hold. -/
def missingDirSim : Sim :=
  { recordedSim with dumps := [] }

/-- A reference state whose recorded directory has lost its `analyzer` file. -/
def unreadableSim : Sim :=
  { recordedSim with
    dumps := [("/var/cache/abrt/ccpp-1",
      [("time", "1256000000", true), ("uid", "500", true),
        ("executable", "/usr/bin/foo", true)])] }

/-- A reference state whose recorded directory lacks the required file
`architecture`. -/
def incompleteSim : Sim :=
  { recordedSim with
    dumps := [("/var/cache/abrt/ccpp-1",
      [("time", "1256000000", true), ("uid", "500", true), ("analyzer", "CCpp", true),
        ("executable", "/usr/bin/foo", true), ("kernel", "2.6.31", true),
        ("release", "Fedora release 12", true), ("package", "foo-1.2-3.x86_64", true),
        ("component", "foo", true)])] }

/-- The world in which the `try` block of `CreateCrashReport` starts, after the
row query made from `w` left the collaborators in state `x`. -/
def afterRowQuery (cfg : Config) (pUUID pUID : String) (row : database_row_t)
    {σ : Type} (w : World σ) (x : σ) : World σ :=
  { w with
    ext := x
    trace := w.trace ++
      [Event.GetDatabase cfg.g_settings_sDatabase (.ok ()), Event.Connect (.ok ()),
        Event.GetUUIDData pUUID pUID (.ok row), Event.DisConnect (.ok ())] }

/-- A reference state holding a new crash whose `analyzer` file names a plugin
the registry does not know. -/
def unknownAnalyzerSim : Sim :=
  { simEmpty with
    dumps := [("/var/cache/abrt/pyhook-1",
      [("time", "1256000000", true), ("uid", "500", true), ("analyzer", "Python", true),
        ("executable", "/usr/bin/foo", true)])]
    packages := [("/usr/bin/foo", "foo-1.2-3.x86_64")] }

/-- The same crash, already recorded in the database for user 500. -/
def recordedUnknownAnalyzerSim : Sim :=
  { unknownAnalyzerSim with
    rows := [⟨"77aa", "500", "/var/cache/abrt/pyhook-1", "1", "0", "", "1256000000"⟩] }

/-- A reference state holding a new crash whose directory has the four texts
ingestion loads and none of architecture, kernel, package, component, release. -/
def bareSim : Sim :=
  { simEmpty with
    dumps := [("/var/cache/abrt/ccpp-3",
      [("time", "1256000000", true), ("uid", "500", true), ("analyzer", "CCpp", true),
        ("executable", "/usr/bin/foo", true)])]
    packages := [("/usr/bin/foo", "foo-1.2-3.x86_64")]
    uuids := [("/var/cache/abrt/ccpp-3", "5e5e")] }

/-- A reference state holding a new crash whose directory lacks `executable`. -/
def noExecutableSim : Sim :=
  { simEmpty with
    dumps := [("/var/cache/abrt/ccpp-4",
      [("time", "1256000000", true), ("uid", "500", true), ("analyzer", "CCpp", true),
        ("architecture", "x86_64", true), ("kernel", "2.6.31", true),
        ("release", "Fedora release 12", true)])] }

/-- A trace entry as a `dd.SaveText` call: `(directory, file name, content)`. -/
def savedFile : Event → Option (String × String × String)
  | .dd_SaveText dir name content _ => some (dir, name, content)
  | _ => none

/-- The `dd.SaveText` calls recorded in a trace, in call order. -/
def savedFiles (t : List Event) : List (String × String × String) :=
  t.filterMap savedFile

/-- The configuration of the examples with the OpenGPG check switched on and a
blacklist. -/
def gpgConfig (blacklist : List String) : Config :=
  { simConfig with g_settings_bOpenGPGCheck := true, s_setBlackList := blacklist }

/-- A reference state holding the new crash of `/usr/bin/foo`, whose hash does
not match its package. -/
def badHashSim : Sim :=
  { freshSim with badHashes := ["/usr/bin/foo"] }

/-- A reference state holding a kernel oops, the package inspector reporting a
bad hash for the sentinel `kernel`. -/
def badHashKernelSim : Sim :=
  { kernelSim with badHashes := ["kernel"] }

/-- The per-file classification of a crash-report field, stated apart from the
loop body of `DebugDumpToCrashReport`: a binary file is a not-editable binary
reference to `<dir>/<name>`; a text file named as one of the six required
fields is not-editable text; a text file named uid, analyzer, time or
description gives no field; any other text file is editable, text below the
size threshold and attachment from it on. -/
def classification (cfg : Config) (dir : String) (f : dd_file_t) :
    Option (String × crash_data_t) :=
  if f.2.2 = false then some (f.1, ⟨.CD_BIN, .CD_ISNOTEDITABLE, dir ++ "/" ++ f.1⟩)
  else if f.1 ∈ [FILENAME_ARCHITECTURE, FILENAME_KERNEL, FILENAME_PACKAGE, FILENAME_COMPONENT,
      FILENAME_RELEASE, FILENAME_EXECUTABLE] then
    some (f.1, ⟨.CD_TXT, .CD_ISNOTEDITABLE, f.2.1⟩)
  else if f.1 ∈ [FILENAME_UID, FILENAME_ANALYZER, FILENAME_TIME, FILENAME_DESCRIPTION] then none
  else
    some (f.1, ⟨if f.2.1.length < cfg.CD_ATT_SIZE then .CD_TXT else .CD_ATT, .CD_ISEDITABLE,
      f.2.1⟩)

/-- Binding a classified file in a report; a file without field leaves it as is. -/
def bindClassified (cfg : Config) (dir : String) (r : map_crash_report_t) (f : dd_file_t) :
    map_crash_report_t :=
  match classification cfg dir f with
  | some (n, d) => map_set r n d
  | none => r

/-- The report that holds the classification of the enumerated files and
nothing else. -/
def classifiedReport (cfg : Config) (dir : String) (files : List dd_file_t) :
    map_crash_report_t :=
  files.foldl (bindClassified cfg dir) []

/-- A reference state whose artifact directory holds, besides the files of the
examples, a `description` file that the artifact store hands out as binary. -/
def binaryDescriptionSim : Sim :=
  { simEmpty with
    dumps := [("/var/cache/abrt/ccpp-1", exampleDump ++ [("description", "", false)])] }

/-- A reference state whose artifact directory holds the files of the examples
and the text files `description` and `backtrace`. -/
def completeSim : Sim :=
  { simEmpty with
    dumps := [("/var/cache/abrt/ccpp-1",
      exampleDump ++ [("description", "An example.", true), ("backtrace", "#0 main", true)])] }

/-- The crash info `GetCrashInfo` builds from a row and the three loaded texts:
the ten `add_crash_data_to_crash_info` calls on the cleared map. -/
def filledCrashInfo (cfg : Config) (row : database_row_t)
    (executable package description : String) : map_crash_info_t :=
  add_crash_data_to_crash_info
    (add_crash_data_to_crash_info
      (add_crash_data_to_crash_info
        (add_crash_data_to_crash_info
          (add_crash_data_to_crash_info
            (add_crash_data_to_crash_info
              (add_crash_data_to_crash_info
                (add_crash_data_to_crash_info
                  (add_crash_data_to_crash_info
                    (add_crash_data_to_crash_info [] cfg.CD_EXECUTABLE executable)
                    cfg.CD_PACKAGE package)
                  cfg.CD_DESCRIPTION description)
                cfg.CD_UUID row.m_sUUID)
              cfg.CD_UID row.m_sUID)
            cfg.CD_COUNT row.m_sCount)
          cfg.CD_TIME row.m_sTime)
        cfg.CD_REPORTED row.m_sReported)
      cfg.CD_MESSAGE row.m_sMessage)
    cfg.CD_MWDDD row.m_sDebugDumpDir

/-- The world in which `SaveDebugDumpToDatabase` calls `GetCrashInfo`, after the
insert and the re-read of `row` made from `w` left the collaborators in state
`x`. -/
def afterInsert (cfg : Config) (pUUID pUID pTime pDebugDumpDir : String) (row : database_row_t)
    {σ : Type} (w : World σ) (x : σ) : World σ :=
  { w with
    ext := x
    trace := w.trace ++
      [Event.GetDatabase cfg.g_settings_sDatabase (.ok ()), Event.Connect (.ok ()),
        Event.Insert pUUID pUID pDebugDumpDir pTime (.ok ()),
        Event.GetUUIDData pUUID pUID (.ok row), Event.DisConnect (.ok ())] }

/-- The reference state `completeSim` once the crash `0a1b2c` of user 500 has been
inserted. -/
def insertedSim : Sim :=
  { completeSim with
    rows := Sim.insert completeSim.rows "0a1b2c" "500" "/var/cache/abrt/ccpp-1" "1256000000" }

/-- The world of a caller whose crash info already holds an entry. -/
def usedInfoWorld (s : Sim) : World Sim where
  ext := s
  trace := []
  pCrashReport := []
  pCrashInfo := [("Executable", "/usr/bin/bar")]

/-- A reference state in which the recorded directory of the examples has lost
its `executable` file. -/
def recordedNoExecutableSim : Sim :=
  { recordedSim with
    dumps := [("/var/cache/abrt/ccpp-1",
      [("time", "1256000000", true), ("uid", "500", true), ("analyzer", "CCpp", true),
        ("architecture", "x86_64", true), ("kernel", "2.6.31", true),
        ("release", "Fedora release 12", true)])] }

/-- A reference state in which the crash `0a1b2c` of user 500 is recorded with the
directory `ccpp-0`, and a second directory `ccpp-1` holds another occurrence of
the same crash: the analyzer computes the same local UUID for both. -/
def twoDirSim : Sim :=
  { simEmpty with
    dumps := [("/var/cache/abrt/ccpp-0", exampleDump), ("/var/cache/abrt/ccpp-1", exampleDump)]
    rows := [⟨"0a1b2c", "500", "/var/cache/abrt/ccpp-0", "1", "0", "", "1255000000"⟩]
    packages := [("/usr/bin/foo", "foo-1.2-3.x86_64")]
    uuids := [("/var/cache/abrt/ccpp-0", "0a1b2c"), ("/var/cache/abrt/ccpp-1", "0a1b2c")] }

/-- The world `GetCrashInfo` leaves when every call of it returns: started from
`w`, the collaborators end in state `y`, the trace holds the row query, which
returned `row`, and the loads of the executable, package and description texts
from the directory of that row, and the crash info is the filled one. -/
def afterCrashInfo (cfg : Config) (pUUID pUID : String) (row : database_row_t)
    (executable package description : String) {σ : Type} (w : World σ) (y : σ) : World σ :=
  { w with
    ext := y
    trace := w.trace ++
      [Event.GetDatabase cfg.g_settings_sDatabase (.ok ()), Event.Connect (.ok ()),
        Event.GetUUIDData pUUID pUID (.ok row), Event.DisConnect (.ok ()),
        Event.dd_Open row.m_sDebugDumpDir (.ok ()),
        Event.dd_LoadText row.m_sDebugDumpDir FILENAME_EXECUTABLE (.ok executable),
        Event.dd_LoadText row.m_sDebugDumpDir FILENAME_PACKAGE (.ok package),
        Event.dd_LoadText row.m_sDebugDumpDir FILENAME_DESCRIPTION (.ok description),
        Event.dd_Close row.m_sDebugDumpDir]
    pCrashInfo := filledCrashInfo cfg row executable package description }

/-- A reference state in which the crash `0a1b2c` of user 500 is recorded and
already reported. -/
def reportedSim : Sim :=
  { completeSim with
    rows := [⟨"0a1b2c", "500", "/var/cache/abrt/ccpp-1", "1", "1", "bug 123 filed",
      "1256000000"⟩] }

/-- A dispatch table with the action `RunApp` for the analyzer `CCpp`. -/
def actionConfig : Config := AddAnalyzerActionOrReporter simConfig "CCpp" "RunApp" ""

/-- A reference state in which the recorded directory of the examples is
complete and the action `RunApp` fails. -/
def failingActionSim : Sim :=
  { recordedSim with failingActions := ["RunApp"] }

/-- A trace entry as the text of a `comm_layer_inner_warning` call. -/
def warningText : Event → Option String
  | .comm_layer_inner_warning msg => some msg
  | _ => none

/-- The warnings recorded in a trace, in call order. -/
def warnings (t : List Event) : List String :=
  t.filterMap warningText

/-- A trace entry as an action run that ended with a failure: the plugin name
and the failure. -/
def actionFailure : Event → Option (String × CABRTException)
  | .Action_Run name _ _ (.error e) => some (name, e)
  | _ => none

/-- The failed action runs recorded in a trace, in call order. -/
def actionFailures (t : List Event) : List (String × CABRTException) :=
  t.filterMap actionFailure

/-- A dispatch table that names, for the analyzer `CCpp`, a plugin `Ghost` the
registry does not know. -/
def ghostConfig : Config := AddAnalyzerActionOrReporter simConfig "CCpp" "Ghost" ""

/-! ## Lemmas on the execution monad and on the helpers -/

section Lemmas

variable {σ : Type}

theorem M_bind_def {α β : Type} (x : M σ α) (f : α → M σ β) : (x >>= f) = M.bind x f := rfl

theorem M_pure_def {α : Type} (a : α) : (pure a : M σ α) = M.pure a := rfl

/-- The conversion `atoi` makes: plain digits, white space and sign, the stop at
the first non-digit, the wrap-around of a value that fits a `long` but not an
`int`, and the clamp of `strtol` followed by the truncation. -/
theorem atoi_values :
    atoi "500" = 500 ∧ atoi " \t-42x" = -42 ∧ atoi "+7" = 7 ∧ atoi "" = 0 ∧
    atoi "2147483648" = -2147483648 ∧ atoi "4294967796" = 500 ∧
    atoi "99999999999999999999" = -1 := by
  refine ⟨by decide, by decide, by decide, by decide, by decide, by decide, by decide⟩

theorem map_find_map_set {V : Type} (m : map_t V) (key : String) (v : V) :
    map_find (map_set m key v) key = some v := by
  induction m with
  | nil => simp [map_set, map_find]
  | cons p m ih =>
    by_cases h : p.1 = key
    · simp [map_set, map_find, h]
    · simp [map_set, map_find, h, ih]

/-- The scan finds a row that is there. -/
theorem IsDebugDumpSaved_scan_true (d : String) (rows : List database_row_t)
    (h : ∃ r ∈ rows, r.m_sDebugDumpDir = d) : IsDebugDumpSaved_scan d rows = true := by
  induction rows with
  | nil => simp at h
  | cons row rest ih =>
    by_cases hrow : row.m_sDebugDumpDir = d
    · simp [IsDebugDumpSaved_scan, hrow]
    · simp only [IsDebugDumpSaved_scan, hrow, if_false]
      apply ih
      obtain ⟨r, hr, hd⟩ := h
      rcases List.mem_cons.mp hr with h1 | h1
      · exact absurd (h1 ▸ hd) hrow
      · exact ⟨r, h1, hd⟩

/-- The backwards scan stops at the greatest matching position not above its start. -/
theorem rfind_from_eq (s : List Char) (c : Char) (p : Nat) (hs : s[p]? = some c) :
    ∀ i, p ≤ i → (∀ k, p < k → k ≤ i → s[k]? ≠ some c) → rfind_from s c i = p := by
  intro i
  induction i with
  | zero =>
    intro hp _
    have h0 : p = 0 := Nat.le_zero.mp hp
    subst h0
    simp [rfind_from, hs]
  | succ i ih =>
    intro hp hn
    by_cases hpi : p = i + 1
    · subst hpi
      simp [rfind_from, hs]
    · have hle : p ≤ i := by omega
      have hne : s[i + 1]? ≠ some c := hn (i + 1) (by omega) (Nat.le_refl _)
      simp only [rfind_from, hne, if_false]
      exact ih hle (fun k hk1 hk2 => hn k hk1 (by omega))

theorem getElem?_split_at (a t : List Char) (c : Char) :
    (a ++ c :: t)[a.length]? = some c := by
  rw [List.getElem?_append_right (Nat.le_refl _)]
  simp

theorem getElem?_split_after (a t : List Char) (c : Char) (k : Nat) (hk : a.length < k) :
    (a ++ c :: t)[k]? = t[k - a.length - 1]? := by
  rw [List.getElem?_append_right (Nat.le_of_lt hk)]
  obtain ⟨m, hm⟩ : ∃ m, k - a.length = m + 1 := ⟨k - a.length - 1, by omega⟩
  rw [hm]
  simp

/-- The derivation on character lists: with two hyphen-free trailing segments
`b` and `c`, what is left of `a-b-c` is `a`. -/
theorem packageName_data (a b c : List Char) (hb : '-' ∉ b) (hc : '-' ∉ c)
    (hlen : (a ++ '-' :: (b ++ '-' :: c)).length < 2 ^ 64) :
    packageName (String.mk (a ++ '-' :: (b ++ '-' :: c))) = String.mk a := by
  have hL : (a ++ '-' :: (b ++ '-' :: c)).length = a.length + b.length + c.length + 2 := by
    simp; omega
  rw [hL] at hlen
  have h1 : rfind (String.mk (a ++ '-' :: (b ++ '-' :: c))) '-' npos
      = a.length + b.length + 1 := by
    unfold rfind
    simp only [hL]
    rw [if_neg (by omega)]
    have hmin : min (a.length + b.length + c.length + 2 - 1) npos
        = a.length + b.length + c.length + 1 := by
      unfold npos; omega
    rw [hmin]
    have hsplit : a ++ '-' :: (b ++ '-' :: c) = (a ++ '-' :: b) ++ '-' :: c := by simp
    apply rfind_from_eq
    · rw [hsplit]
      have := getElem?_split_at (a ++ '-' :: b) c '-'
      simpa [Nat.add_assoc] using this
    · omega
    · intro k hk1 _ hk3
      rw [hsplit, getElem?_split_after _ _ _ _ (by simp; omega)] at hk3
      exact hc (List.getElem?_mem hk3)
  have h2 : size_sub (a.length + b.length + 1) 1 = a.length + b.length := by
    unfold size_sub; omega
  have h3 : rfind (String.mk (a ++ '-' :: (b ++ '-' :: c))) '-' (a.length + b.length)
      = a.length := by
    unfold rfind
    simp only [hL]
    rw [if_neg (by omega)]
    have hmin : min (a.length + b.length + c.length + 2 - 1) (a.length + b.length)
        = a.length + b.length := by omega
    rw [hmin]
    apply rfind_from_eq
    · exact getElem?_split_at a _ '-'
    · omega
    · intro k hk1 hk2 hk3
      rw [getElem?_split_after _ _ _ _ hk1,
        List.getElem?_append_left (by omega)] at hk3
      exact hb (List.getElem?_mem hk3)
  unfold packageName
  rw [h1, h2, h3]
  simp [substr]

/-- A list holding `c` splits at the last occurrence of `c`. -/
theorem split_last (l : List Char) (c : Char) (h : c ∈ l) :
    ∃ a b, l = a ++ c :: b ∧ c ∉ b := by
  induction l with
  | nil => simp at h
  | cons x t ih =>
    by_cases ht : c ∈ t
    · obtain ⟨a, b, hab, hb⟩ := ih ht
      exact ⟨x :: a, b, by simp [hab], hb⟩
    · have hx : c = x := by
        rcases List.mem_cons.mp h with h1 | h1
        · exact h1
        · exact absurd h1 ht
      exact ⟨[], t, by simp [hx], ht⟩

/-- A list holding `c` at least twice splits at its last two occurrences. -/
theorem split_last_two (l : List Char) (c : Char) (h : 2 ≤ l.count c) :
    ∃ a b d, l = a ++ c :: (b ++ c :: d) ∧ c ∉ b ∧ c ∉ d := by
  have hmem : c ∈ l := List.count_pos_iff.mp (by omega)
  obtain ⟨a1, d, h1, hd⟩ := split_last l c hmem
  have hcount : l.count c = a1.count c + 1 := by
    rw [h1, List.count_append, List.count_cons_self, List.count_eq_zero.mpr hd]
  have hmem1 : c ∈ a1 := List.count_pos_iff.mp (by omega)
  obtain ⟨a, b, h2, hb⟩ := split_last a1 c hmem1
  exact ⟨a, b, d, by simp [h1, h2], hb, hd⟩

end Lemmas

/-! ## Ingestion: deduplication and the policy gate -/

section Claims

variable {σ : Type}

set_option maxRecDepth 100000 in
/-- Claim C1 as stated fails on two inputs.  A directory recorded for user 500
whose `executable` file cannot be loaded is not answered with `MW_IN_DB`: step 1
fails first and the result is `MW_ERROR`.  A directory `ccpp-1` whose crash is
already recorded for user 500 with another directory, `ccpp-0`, is ingested
twice: the first call increments the count of the existing row and returns
`MW_OCCURED`; the row keeps the directory `ccpp-0`, so the second call does not
find `ccpp-1` among the rows of the user, performs a second `Insert`, and the
count is incremented again. -/
theorem SaveDebugDump_same_directory_twice :
    ((exampleEnv.dd_LoadText "/var/cache/abrt/ccpp-1" FILENAME_UID recordedNoExecutableSim).1
        = .ok "500" ∧
      (exampleEnv.GetUIDData "500" recordedNoExecutableSim).1
        = .ok [⟨"0a1b2c", "500", "/var/cache/abrt/ccpp-1", "1", "0", "", "1256000000"⟩] ∧
      (SaveDebugDump simConfig exampleEnv "/var/cache/abrt/ccpp-1"
        (simWorld recordedNoExecutableSim)).1 = .ok .MW_ERROR) ∧
    ((SaveDebugDump simConfig exampleEnv "/var/cache/abrt/ccpp-1" (simWorld twoDirSim)).1
        = .ok .MW_OCCURED ∧
      insertCount
        (SaveDebugDump simConfig exampleEnv "/var/cache/abrt/ccpp-1" (simWorld twoDirSim)).2.trace
        = 1 ∧
      (SaveDebugDump simConfig exampleEnv "/var/cache/abrt/ccpp-1" (simWorld twoDirSim)).2.ext.rows
        = [⟨"0a1b2c", "500", "/var/cache/abrt/ccpp-0", "2", "0", "", "1256000000"⟩] ∧
      (SaveDebugDump simConfig exampleEnv "/var/cache/abrt/ccpp-1"
        (SaveDebugDump simConfig exampleEnv "/var/cache/abrt/ccpp-1" (simWorld twoDirSim)).2).1
        = .ok .MW_OCCURED ∧
      insertCount
        (SaveDebugDump simConfig exampleEnv "/var/cache/abrt/ccpp-1"
          (SaveDebugDump simConfig exampleEnv "/var/cache/abrt/ccpp-1"
            (simWorld twoDirSim)).2).2.trace
        = 2 ∧
      (SaveDebugDump simConfig exampleEnv "/var/cache/abrt/ccpp-1"
        (SaveDebugDump simConfig exampleEnv "/var/cache/abrt/ccpp-1"
          (simWorld twoDirSim)).2).2.ext.rows
        = [⟨"0a1b2c", "500", "/var/cache/abrt/ccpp-0", "3", "0", "", "1256000000"⟩]) := by
  refine ⟨⟨by decide, by decide, by decide⟩, by decide, by decide, by decide, by decide,
    by decide, by decide⟩

/-- Claim C1, amended. When step 1 of `SaveDebugDump` opens directory `d` and
loads its four texts (time, uid, analyzer, executable), the uid file holding
`u`, the row query for `u` goes through, and the rows the database returns for
`u` contain a row whose debugdump directory is `d`, then `SaveDebugDump` returns
`MW_IN_DB`; the calls it made are exactly the loads and the row query, so no
`Insert` was performed, and the caller's crash info is untouched. -/
theorem SaveDebugDump_already_recorded (cfg : Config) (env : Collaborators σ) (d : String)
    (w : World σ) (time u analyzer executable : String) (rows : List database_row_t)
    (x1 x2 x3 x4 x5 x6 x7 x8 x9 : σ)
    (hOpen : env.dd_Open d w.ext = (.ok (), x1))
    (hTime : env.dd_LoadText d FILENAME_TIME x1 = (.ok time, x2))
    (hUid : env.dd_LoadText d FILENAME_UID x2 = (.ok u, x3))
    (hAnalyzer : env.dd_LoadText d FILENAME_ANALYZER x3 = (.ok analyzer, x4))
    (hExecutable : env.dd_LoadText d FILENAME_EXECUTABLE x4 = (.ok executable, x5))
    (hDatabase : env.GetDatabase cfg.g_settings_sDatabase (env.dd_Close d x5) = (.ok (), x6))
    (hConnect : env.Connect x6 = (.ok (), x7))
    (hRows : env.GetUIDData u x7 = (.ok rows, x8))
    (hDisConnect : env.DisConnect x8 = (.ok (), x9))
    (hRecorded : ∃ r ∈ rows, r.m_sDebugDumpDir = d) :
    (SaveDebugDump cfg env d w).1 = .ok .MW_IN_DB ∧
    (SaveDebugDump cfg env d w).2.trace = w.trace ++
      [Event.dd_Open d (.ok ()), Event.dd_LoadText d FILENAME_TIME (.ok time),
        Event.dd_LoadText d FILENAME_UID (.ok u),
        Event.dd_LoadText d FILENAME_ANALYZER (.ok analyzer),
        Event.dd_LoadText d FILENAME_EXECUTABLE (.ok executable), Event.dd_Close d,
        Event.GetDatabase cfg.g_settings_sDatabase (.ok ()), Event.Connect (.ok ()),
        Event.GetUIDData u (.ok rows), Event.DisConnect (.ok ())] ∧
    insertCount (SaveDebugDump cfg env d w).2.trace = insertCount w.trace ∧
    (SaveDebugDump cfg env d w).2.pCrashInfo = w.pCrashInfo := by
  have hscan := IsDebugDumpSaved_scan_true d rows hRecorded
  have hrun : SaveDebugDump cfg env d w = (.ok .MW_IN_DB,
      { ext := x9
        trace := w.trace ++
          [Event.dd_Open d (.ok ()), Event.dd_LoadText d FILENAME_TIME (.ok time),
            Event.dd_LoadText d FILENAME_UID (.ok u),
            Event.dd_LoadText d FILENAME_ANALYZER (.ok analyzer),
            Event.dd_LoadText d FILENAME_EXECUTABLE (.ok executable), Event.dd_Close d,
            Event.GetDatabase cfg.g_settings_sDatabase (.ok ()), Event.Connect (.ok ()),
            Event.GetUIDData u (.ok rows), Event.DisConnect (.ok ())]
        pCrashReport := w.pCrashReport
        pCrashInfo := w.pCrashInfo }) := by
    simp [SaveDebugDump, SaveDebugDump_load, IsDebugDumpSaved, tryCatchAbrt, M_bind_def,
      M_pure_def, M.bind, M.pure, call, callUpdate, hOpen, hTime, hUid, hAnalyzer, hExecutable,
      hDatabase, hConnect, hRows, hDisConnect, hscan]
  rw [hrun]
  simp [insertCount, isInsert]

set_option maxRecDepth 100000 in
/-- Claim C1, amended, at the directory of the examples: ingested in a state
that records it, the result is `MW_IN_DB` and the trace holds no `Insert`; and
ingested twice from a state that holds no row, the first call inserts its row
and the second call returns `MW_IN_DB` without a further `Insert`. -/
theorem SaveDebugDump_already_recorded_witness :
    ((SaveDebugDump simConfig exampleEnv "/var/cache/abrt/ccpp-1" (simWorld recordedSim)).1
        = .ok .MW_IN_DB ∧
      insertCount
        (SaveDebugDump simConfig exampleEnv "/var/cache/abrt/ccpp-1"
          (simWorld recordedSim)).2.trace = 0) ∧
    ((SaveDebugDump simConfig exampleEnv "/var/cache/abrt/ccpp-1" (simWorld freshSim)).1
        = .ok .MW_OK ∧
      (SaveDebugDump simConfig exampleEnv "/var/cache/abrt/ccpp-1"
        (SaveDebugDump simConfig exampleEnv "/var/cache/abrt/ccpp-1" (simWorld freshSim)).2).1
        = .ok .MW_IN_DB ∧
      insertCount
        (SaveDebugDump simConfig exampleEnv "/var/cache/abrt/ccpp-1"
          (SaveDebugDump simConfig exampleEnv "/var/cache/abrt/ccpp-1"
            (simWorld freshSim)).2).2.trace = 1) :=
  have h := SaveDebugDump_already_recorded simConfig exampleEnv "/var/cache/abrt/ccpp-1"
    (simWorld recordedSim) "1256000000" "500" "CCpp" "/usr/bin/foo" recordedSim.rows
    recordedSim recordedSim recordedSim recordedSim recordedSim recordedSim recordedSim
    recordedSim recordedSim (by decide) (by decide) (by decide) (by decide) (by decide)
    (by decide) (by decide) (by decide) (by decide) (by decide)
  have h2 := SaveDebugDump_already_recorded simConfig exampleEnv "/var/cache/abrt/ccpp-1"
    (SaveDebugDump simConfig exampleEnv "/var/cache/abrt/ccpp-1" (simWorld freshSim)).2
    "1256000000" "500" "CCpp" "/usr/bin/foo"
    (SaveDebugDump simConfig exampleEnv "/var/cache/abrt/ccpp-1" (simWorld freshSim)).2.ext.rows
    (SaveDebugDump simConfig exampleEnv "/var/cache/abrt/ccpp-1" (simWorld freshSim)).2.ext
    (SaveDebugDump simConfig exampleEnv "/var/cache/abrt/ccpp-1" (simWorld freshSim)).2.ext
    (SaveDebugDump simConfig exampleEnv "/var/cache/abrt/ccpp-1" (simWorld freshSim)).2.ext
    (SaveDebugDump simConfig exampleEnv "/var/cache/abrt/ccpp-1" (simWorld freshSim)).2.ext
    (SaveDebugDump simConfig exampleEnv "/var/cache/abrt/ccpp-1" (simWorld freshSim)).2.ext
    (SaveDebugDump simConfig exampleEnv "/var/cache/abrt/ccpp-1" (simWorld freshSim)).2.ext
    (SaveDebugDump simConfig exampleEnv "/var/cache/abrt/ccpp-1" (simWorld freshSim)).2.ext
    (SaveDebugDump simConfig exampleEnv "/var/cache/abrt/ccpp-1" (simWorld freshSim)).2.ext
    (SaveDebugDump simConfig exampleEnv "/var/cache/abrt/ccpp-1" (simWorld freshSim)).2.ext
    (by decide) (by decide) (by decide) (by decide) (by decide)
    (by decide) (by decide) (by decide) (by decide) (by decide)
  ⟨⟨h.1, h.2.2.1⟩, by decide, h2.1, h2.2.2.1.trans (by decide)⟩

/-- Claim C3. Every NVR with at least two hyphens splits as `a-b-c` with the last
two segments `b` and `c` free of hyphens, and for every such split the
derivation `nvr.substr(0, nvr.rfind("-", nvr.rfind("-") - 1))`, shared by the
policy gate and by `Report`, returns exactly `a`, the prefix before the
second-to-last hyphen. -/
theorem packageName_strips_version_release (nvr : String)
    (hTwo : 2 ≤ nvr.data.count '-') (hlen : nvr.length < 2 ^ 64) :
    (∃ a b c : String, nvr = a ++ "-" ++ b ++ "-" ++ c ∧ '-' ∉ b.data ∧ '-' ∉ c.data) ∧
    (∀ a b c : String, nvr = a ++ "-" ++ b ++ "-" ++ c → '-' ∉ b.data → '-' ∉ c.data →
      packageName nvr = a) := by
  constructor
  · obtain ⟨a, b, c, h, hb, hc⟩ := split_last_two nvr.data '-' hTwo
    refine ⟨String.mk a, String.mk b, String.mk c, ?_, hb, hc⟩
    apply String.ext
    simp [String.data_append, h]
  · intro a b c h hb hc
    have hdata : a ++ "-" ++ b ++ "-" ++ c
        = String.mk (a.data ++ '-' :: (b.data ++ '-' :: c.data)) := by
      apply String.ext
      simp [String.data_append]
    have hlen2 : (a.data ++ '-' :: (b.data ++ '-' :: c.data)).length < 2 ^ 64 := by
      rw [h, hdata] at hlen
      exact hlen
    rw [h, hdata, packageName_data a.data b.data c.data hb hc hlen2]

/-- Claim C3, at the example of the spec: `foo-1.2-3.x86_64` gives `foo`. -/
theorem packageName_strips_version_release_witness :
    packageName "foo-1.2-3.x86_64" = "foo" :=
  (packageName_strips_version_release "foo-1.2-3.x86_64" (by decide) (by decide)).2
    "foo" "1.2" "3.x86_64" (by decide) (by decide) (by decide)

/-! ## The report pipeline: locating the record -/

/-- Claim C4. When the requested UUID is empty, or the row the database returns
for (UUID, UID) carries another UUID, `CreateCrashReport` returns
`MW_IN_DB_ERROR`; the calls it made are the row query and one warning, so the
artifact directory was not opened and no analyzer or action plugin was called,
and the caller's crash report is unmodified. -/
theorem CreateCrashReport_not_found (cfg : Config) (env : Collaborators σ)
    (pUUID pUID : String) (w : World σ) (x1 x2 x3 x4 : σ) (row : database_row_t)
    (hDatabase : env.GetDatabase cfg.g_settings_sDatabase w.ext = (.ok (), x1))
    (hConnect : env.Connect x1 = (.ok (), x2))
    (hRow : env.GetUUIDData pUUID pUID x2 = (.ok row, x3))
    (hDisConnect : env.DisConnect x3 = (.ok (), x4))
    (hMiss : pUUID = "" ∨ row.m_sUUID ≠ pUUID) :
    CreateCrashReport cfg env pUUID pUID w =
      (.ok .MW_IN_DB_ERROR,
        { ext := x4
          trace := w.trace ++
            [Event.GetDatabase cfg.g_settings_sDatabase (.ok ()), Event.Connect (.ok ()),
              Event.GetUUIDData pUUID pUID (.ok row), Event.DisConnect (.ok ()),
              Event.comm_layer_inner_warning
                ("CreateCrashReport(): UUID \x27" ++ pUUID ++ "\x27 is not in database.")]
          pCrashReport := w.pCrashReport
          pCrashInfo := w.pCrashInfo }) := by
  simp [CreateCrashReport, M_bind_def, M_pure_def, M.bind, M.pure, call, emit, hDatabase,
    hConnect, hRow, hDisConnect, hMiss]

/-- Claim C4, at the empty UUID and at a UUID the database does not hold: both
give `MW_IN_DB_ERROR`. -/
theorem CreateCrashReport_not_found_witness :
    (CreateCrashReport simConfig exampleEnv "" "500" (simWorld recordedSim)).1
      = .ok .MW_IN_DB_ERROR ∧
    (CreateCrashReport simConfig exampleEnv "ffff" "500" (simWorld recordedSim)).1
      = .ok .MW_IN_DB_ERROR :=
  ⟨congrArg Prod.fst
      (CreateCrashReport_not_found simConfig exampleEnv "" "500" (simWorld recordedSim)
        recordedSim recordedSim recordedSim recordedSim (Sim.getRow recordedSim.rows "" "500")
        (by decide) (by decide) (by decide) (by decide) (by decide)),
    congrArg Prod.fst
      (CreateCrashReport_not_found simConfig exampleEnv "ffff" "500" (simWorld recordedSim)
        recordedSim recordedSim recordedSim recordedSim
        (Sim.getRow recordedSim.rows "ffff" "500")
        (by decide) (by decide) (by decide) (by decide) (by decide))⟩

/-! ## The promotion rule of `DebugDumpToCrashReport` -/

set_option maxRecDepth 100000 in
/-- Claim C5 as stated fails at the threshold: with `CD_ATT_SIZE = 256`, the text
file `backtrace` of exactly 256 characters is emitted by `DebugDumpToCrashReport`
as an attachment (`CD_ATT`), not as text. -/
theorem DebugDumpToCrashReport_threshold_is_attachment :
    thresholdText.length = simConfig.CD_ATT_SIZE ∧
    (DebugDumpToCrashReport simConfig exampleEnv "/var/cache/abrt/ccpp-1"
      (simWorld thresholdSim)).1 = .ok () ∧
    map_find (DebugDumpToCrashReport simConfig exampleEnv "/var/cache/abrt/ccpp-1"
      (simWorld thresholdSim)).2.pCrashReport "backtrace"
      = some ⟨.CD_ATT, .CD_ISEDITABLE, thresholdText⟩ := by
  refine ⟨by decide, by decide, by decide⟩

/-- Claim C5, amended. For a text file that is neither one of the six required
fields nor uid/analyzer/time/description, the loop body of
`DebugDumpToCrashReport` emits an editable field whose kind is text (`CD_TXT`)
iff the content length is strictly below `CD_ATT_SIZE`, and attachment
(`CD_ATT`) otherwise: a content of exactly `CD_ATT_SIZE` characters, like one of
`CD_ATT_SIZE + 1`, is an attachment. -/
theorem DebugDumpToCrashReport_file_promotion (cfg : Config) (dir : String)
    (report : map_crash_report_t) (fileName content : String)
    (hRequired : fileName ∉ [FILENAME_ARCHITECTURE, FILENAME_KERNEL, FILENAME_PACKAGE,
      FILENAME_COMPONENT, FILENAME_RELEASE, FILENAME_EXECUTABLE])
    (hSuppressed : fileName ∉ [FILENAME_UID, FILENAME_ANALYZER, FILENAME_TIME,
      FILENAME_DESCRIPTION]) :
    DebugDumpToCrashReport_file cfg dir report (fileName, content, true) =
      add_crash_data_to_crash_report report fileName
        (if content.length < cfg.CD_ATT_SIZE then .CD_TXT else .CD_ATT) .CD_ISEDITABLE content ∧
    map_find (DebugDumpToCrashReport_file cfg dir report (fileName, content, true)) fileName =
      some ⟨if content.length < cfg.CD_ATT_SIZE then .CD_TXT else .CD_ATT, .CD_ISEDITABLE,
        content⟩ ∧
    (content.length = cfg.CD_ATT_SIZE →
      map_find (DebugDumpToCrashReport_file cfg dir report (fileName, content, true)) fileName =
        some ⟨.CD_ATT, .CD_ISEDITABLE, content⟩) ∧
    (content.length = cfg.CD_ATT_SIZE + 1 →
      map_find (DebugDumpToCrashReport_file cfg dir report (fileName, content, true)) fileName =
        some ⟨.CD_ATT, .CD_ISEDITABLE, content⟩) := by
  simp only [List.mem_cons, List.mem_singleton, List.not_mem_nil, or_false, not_or] at hRequired
  simp only [List.mem_cons, List.mem_singleton, List.not_mem_nil, or_false, not_or]
    at hSuppressed
  obtain ⟨h1, h2, h3, h4, h5, h6⟩ := hRequired
  obtain ⟨g1, g2, g3, g4⟩ := hSuppressed
  have hfile : DebugDumpToCrashReport_file cfg dir report (fileName, content, true) =
      add_crash_data_to_crash_report report fileName
        (if content.length < cfg.CD_ATT_SIZE then .CD_TXT else .CD_ATT) .CD_ISEDITABLE
        content := by
    by_cases hlt : content.length < cfg.CD_ATT_SIZE
    · simp [DebugDumpToCrashReport_file, h1, h2, h3, h4, h5, h6, g1, g2, g3, g4, hlt]
    · simp [DebugDumpToCrashReport_file, h1, h2, h3, h4, h5, h6, g1, g2, g3, g4, hlt]
  have hfind : map_find (DebugDumpToCrashReport_file cfg dir report (fileName, content, true))
      fileName = some ⟨if content.length < cfg.CD_ATT_SIZE then .CD_TXT else .CD_ATT,
        .CD_ISEDITABLE, content⟩ := by
    rw [hfile]
    exact map_find_map_set _ _ _
  refine ⟨hfile, hfind, ?_, ?_⟩
  · intro hlen
    rw [hfind, if_neg (by omega)]
  · intro hlen
    rw [hfind, if_neg (by omega)]

set_option maxRecDepth 100000 in
/-- Claim C5, amended, at the file `backtrace`: 255 characters stay text, 256
characters become an attachment. -/
theorem DebugDumpToCrashReport_file_promotion_witness :
    map_find (DebugDumpToCrashReport_file simConfig "/var/cache/abrt/ccpp-1" []
      ("backtrace", String.mk (List.replicate 255 'x'), true)) "backtrace" =
      some ⟨.CD_TXT, .CD_ISEDITABLE, String.mk (List.replicate 255 'x')⟩ ∧
    map_find (DebugDumpToCrashReport_file simConfig "/var/cache/abrt/ccpp-1" []
      ("backtrace", thresholdText, true)) "backtrace" =
      some ⟨.CD_ATT, .CD_ISEDITABLE, thresholdText⟩ :=
  ⟨(DebugDumpToCrashReport_file_promotion simConfig "/var/cache/abrt/ccpp-1" [] "backtrace"
      (String.mk (List.replicate 255 'x')) (by decide) (by decide)).2.1,
    (DebugDumpToCrashReport_file_promotion simConfig "/var/cache/abrt/ccpp-1" [] "backtrace"
      thresholdText (by decide) (by decide)).2.2.1 (by decide)⟩

/-! ## The dispatch loop of `Report` -/

theorem joinLines_append (a b : List (Bool × String)) :
    joinLines (a ++ b) = joinLines a ++ joinLines b := by
  induction a with
  | nil => simp [joinLines]
  | cons o t ih =>
    obtain ⟨f, m⟩ := o
    cases f
    · simpa [joinLines] using ih
    · simp [joinLines, ih, String.append_assoc]

theorem Report_override_spec (cfg : Config) (env : Collaborators σ) (pUID name : String)
    (w : World σ) :
    ∃ evs x saved,
      Report_override cfg env pUID name w =
        (.ok saved, { w with ext := x, trace := w.trace ++ evs }) ∧
      reportOutcomes evs = [] ∧ setReportedCalls evs = [] ∧ reporterCalls evs = [] := by
  by_cases hU : pUID = ""
  · exact ⟨[], w.ext, ("", []), by simp [Report_override, hU, M_pure_def, M.pure], rfl, rfl, rfl⟩
  · by_cases hH : env.get_home_dir (atoi pUID) w.ext = ""
    · refine ⟨[Event.get_home_dir (atoi pUID) ""], w.ext, ("", []), ?_, rfl, rfl, rfl⟩
      simp [Report_override, hU, hH, M_bind_def, M_pure_def, M.bind, M.pure, callRead]
    · cases hL : env.LoadPluginSettings
          (env.get_home_dir (atoi pUID) w.ext ++ "/.abrt/" ++ name ++ "." ++
            cfg.PLUGINS_CONF_EXTENSION) w.ext with
      | none =>
        refine ⟨[Event.get_home_dir (atoi pUID) (env.get_home_dir (atoi pUID) w.ext),
          Event.Reporter_GetSettings name (env.Reporter_GetSettings name w.ext),
          Event.LoadPluginSettings (env.get_home_dir (atoi pUID) w.ext ++ "/.abrt/" ++ name
            ++ "." ++ cfg.PLUGINS_CONF_EXTENSION) none], w.ext,
          (env.get_home_dir (atoi pUID) w.ext, env.Reporter_GetSettings name w.ext),
          ?_, rfl, rfl, rfl⟩
        simp [Report_override, hU, hH, hL, M_bind_def, M_pure_def, M.bind, M.pure, callRead]
      | some v =>
        refine ⟨[Event.get_home_dir (atoi pUID) (env.get_home_dir (atoi pUID) w.ext),
          Event.Reporter_GetSettings name (env.Reporter_GetSettings name w.ext),
          Event.LoadPluginSettings (env.get_home_dir (atoi pUID) w.ext ++ "/.abrt/" ++ name
            ++ "." ++ cfg.PLUGINS_CONF_EXTENSION) (some v),
          Event.Reporter_SetSettings name v], env.Reporter_SetSettings name v w.ext,
          (env.get_home_dir (atoi pUID) w.ext, env.Reporter_GetSettings name w.ext),
          ?_, rfl, rfl, rfl⟩
        simp [Report_override, hU, hH, hL, M_bind_def, M_pure_def, M.bind, M.pure, callRead,
          callUpdate]

theorem Report_entry_spec (cfg : Config) (env : Collaborators σ) (rep : map_crash_report_t)
    (pUID : String) (ii : Nat) (P : String) (ptype : String → Except CABRTException plugin_type_t)
    (acc : report_status_t × String) (e : String × String) (w : World σ) :
    ∃ evs x o,
      Report_entry cfg env rep pUID ii P acc e w =
        (.ok (recordStatus acc.1 (Report_ret_key ii P e) o, acc.2 ++ joinLines [o]),
          { w with ext := x, trace := w.trace ++ evs }) ∧
      reportOutcomes evs = [o] ∧ setReportedCalls evs = [] ∧
      ((∀ n s, (env.GetPluginType n s).1 = ptype n) →
        (∀ n s, ptype n = .ok .REPORTER → (env.GetReporter n s).1 = .ok ()) →
        reporterCalls evs = if ptype e.1 = .ok .REPORTER then [e] else []) := by
  rcases hT : env.GetPluginType e.1 w.ext with ⟨rT, x1⟩
  have hT1 : ∀ (h : ∀ n s, (env.GetPluginType n s).1 = ptype n), ptype e.1 = rT := by
    intro h
    rw [← h e.1 w.ext, hT]
  cases rT with
  | error ex =>
    refine ⟨Event.GetPluginType e.1 (.error ex) :: Report_catch_events e ex, x1,
      (false, ex.what), ?_, ?_, ?_, ?_⟩
    · simp [Report_entry, Report_try, tryCatchAbrt, M_bind_def, M_pure_def, M.bind, M.pure, call,
        emit, hT, recordStatus, flagOf, joinLines, Report_catch_events]
    · simp [reportOutcomes, entryOutcome, Report_catch_events]
    · simp [setReportedCalls, setReportedCall, Report_catch_events]
    · intro h1 _
      simp [reporterCalls, reporterCall, Report_catch_events, hT1 h1]
  | ok t =>
    by_cases ht : t = .REPORTER
    · subst ht
      rcases hR : env.GetReporter e.1 x1 with ⟨rR, x2⟩
      cases rR with
      | error ex =>
        refine ⟨[Event.GetPluginType e.1 (.ok .REPORTER), Event.GetReporter e.1 (.error ex)]
          ++ Report_catch_events e ex, x2, (false, ex.what), ?_, ?_, ?_, ?_⟩
        · simp [Report_entry, Report_try, tryCatchAbrt, M_bind_def, M_pure_def, M.bind, M.pure,
            call, emit, hT, hR, recordStatus, flagOf, joinLines, Report_catch_events]
        · simp [reportOutcomes, entryOutcome, Report_catch_events]
        · simp [setReportedCalls, setReportedCall, Report_catch_events]
        · intro h1 h2
          have := h2 e.1 x1 (hT1 h1)
          rw [hR] at this
          simp at this
      | ok u =>
        obtain ⟨evs1, x3, saved, hO, hO1, hO2, hO3⟩ := Report_override_spec cfg env pUID e.1
          { w with ext := x2, trace := w.trace ++
            [Event.GetPluginType e.1 (.ok .REPORTER), Event.GetReporter e.1 (.ok ())] }
        rcases hC : env.Reporter_Report e.1 rep e.2 x3 with ⟨rC, x4⟩
        simp only [reportOutcomes, setReportedCalls, reporterCalls] at hO1 hO2 hO3
        cases rC with
        | error ex =>
          refine ⟨[Event.GetPluginType e.1 (.ok .REPORTER), Event.GetReporter e.1 (.ok ())]
            ++ evs1 ++ [Event.Reporter_Report e.1 e.2 (.error ex)] ++ Report_catch_events e ex,
            x4, (false, ex.what), ?_, ?_, ?_, ?_⟩
          · simp [Report_entry, Report_try, tryCatchAbrt, M_bind_def, M_pure_def, M.bind, M.pure,
              call, emit, hT, hR, hO, hC, recordStatus, flagOf, joinLines, Report_catch_events]
          · simp [reportOutcomes, entryOutcome, Report_catch_events, hO1]
          · simp [setReportedCalls, setReportedCall, Report_catch_events, hO2]
          · intro h1 _
            simp [reporterCalls, reporterCall, Report_catch_events, hO3, ← hT1 h1]
        | ok res =>
          by_cases hS : saved.1 = ""
          · refine ⟨[Event.GetPluginType e.1 (.ok .REPORTER), Event.GetReporter e.1 (.ok ())]
              ++ evs1 ++ [Event.Reporter_Report e.1 e.2 (.ok res)],
              x4, (true, res), ?_, ?_, ?_, ?_⟩
            · simp [Report_entry, Report_try, tryCatchAbrt, M_bind_def, M_pure_def, M.bind, M.pure,
                call, emit, hT, hR, hO, hC, hS, recordStatus, flagOf, joinLines]
            · simp [reportOutcomes, entryOutcome, hO1]
            · simp [setReportedCalls, setReportedCall, hO2]
            · intro h1 _
              simp [reporterCalls, reporterCall, hO3, ← hT1 h1]
          · refine ⟨[Event.GetPluginType e.1 (.ok .REPORTER), Event.GetReporter e.1 (.ok ())]
              ++ evs1 ++ [Event.Reporter_Report e.1 e.2 (.ok res),
                Event.Reporter_SetSettings e.1 saved.2],
              env.Reporter_SetSettings e.1 saved.2 x4, (true, res), ?_, ?_, ?_, ?_⟩
            · simp [Report_entry, Report_try, tryCatchAbrt, M_bind_def, M_pure_def, M.bind, M.pure,
                call, callUpdate, emit, hT, hR, hO, hC, hS, recordStatus, flagOf, joinLines]
            · simp [reportOutcomes, entryOutcome, hO1]
            · simp [setReportedCalls, setReportedCall, hO2]
            · intro h1 _
              simp [reporterCalls, reporterCall, hO3, ← hT1 h1]
    · refine ⟨[Event.GetPluginType e.1 (.ok t)], x1, (true, ""), ?_, ?_, ?_, ?_⟩
      · simp [Report_entry, Report_try, tryCatchAbrt, M_bind_def, M_pure_def, M.bind, M.pure, call,
          emit, hT, ht, recordStatus, flagOf, joinLines]
      · simp [reportOutcomes, entryOutcome, ht]
      · simp [setReportedCalls, setReportedCall]
      · intro h1 _
        simp [reporterCalls, reporterCall, hT1 h1, ht]

theorem Report_entries_spec (cfg : Config) (env : Collaborators σ) (rep : map_crash_report_t)
    (pUID : String) (ii : Nat) (P : String) (ptype : String → Except CABRTException plugin_type_t)
    (entries : vector_pair_string_string_t) :
    ∀ (acc : report_status_t × String) (w : World σ), ∃ evs x,
      Report_entries cfg env rep pUID ii P entries acc w =
        (.ok (statusFold acc.1 ((entries.map (Report_ret_key ii P)).zip (reportOutcomes evs)),
            acc.2 ++ joinLines (reportOutcomes evs)),
          { w with ext := x, trace := w.trace ++ evs }) ∧
      (reportOutcomes evs).length = entries.length ∧ setReportedCalls evs = [] ∧
      ((∀ n s, (env.GetPluginType n s).1 = ptype n) →
        (∀ n s, ptype n = .ok .REPORTER → (env.GetReporter n s).1 = .ok ()) →
        reporterCalls evs = entries.filter (fun e => decide (ptype e.1 = .ok .REPORTER))) := by
  induction entries with
  | nil =>
    intro acc w
    refine ⟨[], w.ext, ?_, rfl, rfl, fun _ _ => rfl⟩
    simp [Report_entries, M_pure_def, M.pure, reportOutcomes, statusFold, joinLines]
  | cons e rest ih =>
    intro acc w
    obtain ⟨evs1, x1, o, h1, h2, h3, h4⟩ := Report_entry_spec cfg env rep pUID ii P ptype acc e w
    obtain ⟨evs2, x2, g1, g2, g3, g4⟩ :=
      ih (recordStatus acc.1 (Report_ret_key ii P e) o, acc.2 ++ joinLines [o])
        { w with ext := x1, trace := w.trace ++ evs1 }
    have hout : reportOutcomes (evs1 ++ evs2) = o :: reportOutcomes evs2 := by
      simp only [reportOutcomes, List.filterMap_append] at h2 ⊢
      rw [h2]
      rfl
    refine ⟨evs1 ++ evs2, x2, ?_, ?_, ?_, ?_⟩
    · simp only [Report_entries, M_bind_def, M.bind, h1, g1, hout]
      simp [statusFold, List.append_assoc, joinLines_append, String.append_assoc]
      have := joinLines_append [o] (reportOutcomes evs2)
      rw [← this]
      rfl
    · rw [hout]
      simp [g2]
    · simp only [setReportedCalls, List.filterMap_append] at h3 g3 ⊢
      rw [h3, g3]
      rfl
    · intro k1 k2
      have a1 := h4 k1 k2
      have a2 := g4 k1 k2
      simp only [reporterCalls, List.filterMap_append] at a1 a2 ⊢
      rw [a1, a2]
      by_cases hp : ptype e.1 = .ok .REPORTER
      · simp [hp, List.filter_cons]
      · simp [hp, List.filter_cons]

theorem Report_pass_spec (cfg : Config) (env : Collaborators σ) (rep : map_crash_report_t)
    (pUID : String) (ii : Nat) (P : String) (ptype : String → Except CABRTException plugin_type_t)
    (key : String) (acc : report_status_t × String) (w : World σ) :
    ∃ evs x,
      Report_pass cfg env rep pUID ii P key acc w =
        (.ok (statusFold acc.1
              (((entriesOf cfg key).map (Report_ret_key ii P)).zip (reportOutcomes evs)),
            acc.2 ++ joinLines (reportOutcomes evs)),
          { w with ext := x, trace := w.trace ++ evs }) ∧
      (reportOutcomes evs).length = (entriesOf cfg key).length ∧ setReportedCalls evs = [] ∧
      ((∀ n s, (env.GetPluginType n s).1 = ptype n) →
        (∀ n s, ptype n = .ok .REPORTER → (env.GetReporter n s).1 = .ok ()) →
        reporterCalls evs =
          (entriesOf cfg key).filter (fun e => decide (ptype e.1 = .ok .REPORTER))) := by
  cases hfind : map_find cfg.s_mapAnalyzerActionsAndReporters key with
  | none =>
    have hnil : entriesOf cfg key = [] := by simp [entriesOf, hfind]
    have := Report_entries_spec cfg env rep pUID ii P ptype [] acc w
    simpa [Report_pass, hfind, hnil, Report_entries] using this
  | some entries =>
    have hsome : entriesOf cfg key = entries := by simp [entriesOf, hfind]
    have := Report_entries_spec cfg env rep pUID ii P ptype entries acc w
    simpa [Report_pass, hfind, hsome] using this

theorem Report_spec (cfg : Config) (env : Collaborators σ) (rep : map_crash_report_t)
    (pUID : String) (ptype : String → Except CABRTException plugin_type_t) (w : World σ)
    (a u uu p : crash_data_t)
    (hA : map_find rep cfg.CD_MWANALYZER = some a) (hU : map_find rep cfg.CD_MWUID = some u)
    (hUU : map_find rep cfg.CD_MWUUID = some uu) (hP : map_find rep FILENAME_PACKAGE = some p)
    (hDatabase : ∀ s, (env.GetDatabase cfg.g_settings_sDatabase s).1 = .ok ())
    (hConnect : ∀ s, (env.Connect s).1 = .ok ())
    (hSetReported : ∀ uuid uid m s, (env.SetReported uuid uid m s).1 = .ok ())
    (hDisConnect : ∀ s, (env.DisConnect s).1 = .ok ()) :
    ∃ evs x,
      Report cfg env rep pUID w =
        (.ok (statusFold []
            ((Report_keys cfg a.CD_CONTENT (packageName p.CD_CONTENT)).zip (reportOutcomes evs))),
          { w with ext := x, trace := w.trace ++ evs }) ∧
      (reportOutcomes evs).length
        = (Report_keys cfg a.CD_CONTENT (packageName p.CD_CONTENT)).length ∧
      setReportedCalls evs = [(uu.CD_CONTENT, u.CD_CONTENT, joinLines (reportOutcomes evs))] ∧
      ((∀ n s, (env.GetPluginType n s).1 = ptype n) →
        (∀ n s, ptype n = .ok .REPORTER → (env.GetReporter n s).1 = .ok ()) →
        reporterCalls evs =
          (entriesOf cfg a.CD_CONTENT).filter (fun e => decide (ptype e.1 = .ok .REPORTER)) ++
          (entriesOf cfg (a.CD_CONTENT ++ (":" ++ packageName p.CD_CONTENT))).filter
            (fun e => decide (ptype e.1 = .ok .REPORTER))) := by
  obtain ⟨evs0, x0, h0, l0, s0, r0⟩ := Report_pass_spec cfg env rep pUID 0
    (packageName p.CD_CONTENT) ptype a.CD_CONTENT ([], "") w
  obtain ⟨evs1, x1, h1, l1, s1, r1⟩ := Report_pass_spec cfg env rep pUID 1
    (packageName p.CD_CONTENT) ptype (a.CD_CONTENT ++ (":" ++ packageName p.CD_CONTENT))
    (statusFold []
        (((entriesOf cfg a.CD_CONTENT).map (Report_ret_key 0 (packageName p.CD_CONTENT))).zip
          (reportOutcomes evs0)),
      "" ++ joinLines (reportOutcomes evs0))
    { w with ext := x0, trace := w.trace ++ evs0 }
  dsimp only at h0 h1
  obtain ⟨y1, hy1⟩ : ∃ y, env.GetDatabase cfg.g_settings_sDatabase x1 = (.ok (), y) :=
    ⟨_, Prod.ext (hDatabase x1) rfl⟩
  obtain ⟨y2, hy2⟩ : ∃ y, env.Connect y1 = (.ok (), y) := ⟨_, Prod.ext (hConnect y1) rfl⟩
  obtain ⟨y3, hy3⟩ : ∃ y, env.SetReported uu.CD_CONTENT u.CD_CONTENT
      ("" ++ joinLines (reportOutcomes evs0) ++ joinLines (reportOutcomes evs1)) y2
      = (.ok (), y) := ⟨_, Prod.ext (hSetReported _ _ _ y2) rfl⟩
  obtain ⟨y4, hy4⟩ : ∃ y, env.DisConnect y3 = (.ok (), y) := ⟨_, Prod.ext (hDisConnect y3) rfl⟩
  have hdb : reportOutcomes [Event.GetDatabase cfg.g_settings_sDatabase (.ok ()),
      Event.Connect (.ok ()),
      Event.SetReported uu.CD_CONTENT u.CD_CONTENT
        ("" ++ joinLines (reportOutcomes evs0) ++ joinLines (reportOutcomes evs1)) (.ok ()),
      Event.DisConnect (.ok ())] = [] := rfl
  have hout : reportOutcomes (evs0 ++ evs1 ++
      [Event.GetDatabase cfg.g_settings_sDatabase (.ok ()), Event.Connect (.ok ()),
        Event.SetReported uu.CD_CONTENT u.CD_CONTENT
          ("" ++ joinLines (reportOutcomes evs0) ++ joinLines (reportOutcomes evs1)) (.ok ()),
        Event.DisConnect (.ok ())]) = reportOutcomes evs0 ++ reportOutcomes evs1 := by
    simp only [reportOutcomes, List.filterMap_append] at hdb ⊢
    rw [hdb, List.append_nil]
  refine ⟨evs0 ++ evs1 ++
      [Event.GetDatabase cfg.g_settings_sDatabase (.ok ()), Event.Connect (.ok ()),
        Event.SetReported uu.CD_CONTENT u.CD_CONTENT
          ("" ++ joinLines (reportOutcomes evs0) ++ joinLines (reportOutcomes evs1)) (.ok ()),
        Event.DisConnect (.ok ())], y4, ?_, ?_, ?_, ?_⟩
  · rw [hout]
    simp only [Report, hA, hU, hUU, hP, M_bind_def, M_pure_def, M.bind, M.pure, h0, h1, call, hy1,
      hy2, hy3, hy4]
    have hz : ((entriesOf cfg a.CD_CONTENT).map
        (Report_ret_key 0 (packageName p.CD_CONTENT))).length = (reportOutcomes evs0).length := by
      simp [l0]
    simp [Report_keys, List.zip_append hz, statusFold, List.append_assoc]
  · rw [hout]
    simp [Report_keys, l0, l1]
  · rw [hout]
    simp only [setReportedCalls, List.filterMap_append] at s0 s1 ⊢
    rw [s0, s1]
    simp [setReportedCall, joinLines_append]
  · intro k1 k2
    have a0 := r0 k1 k2
    have a1 := r1 k1 k2
    simp only [reporterCalls, List.filterMap_append] at a0 a1 ⊢
    rw [a0, a1]
    simp [reporterCall]

theorem map_find_map_push_back {V : Type} (m : map_t (List V)) (k k' : String) (x : V) :
    map_find (map_push_back m k x) k' =
      if k = k' then some ((map_find m k).getD [] ++ [x]) else map_find m k' := by
  induction m with
  | nil =>
    by_cases h : k = k'
    · simp [map_push_back, map_find, h]
    · simp [map_push_back, map_find, h]
  | cons q m ih =>
    by_cases hq : q.1 = k
    · by_cases h : k = k'
      · simp [map_push_back, map_find, hq, h]
      · simp [map_push_back, map_find, hq, h]
    · by_cases h : k = k'
      · subst h
        simp [map_push_back, map_find, hq, ih]
      · by_cases hq2 : q.1 = k'
        · have hk : ¬ k' = k := fun hk => h hk.symm
          simp [map_push_back, map_find, hq, h, hq2, hk]
        · simp [map_push_back, map_find, hq, h, hq2, ih]

theorem map_find_recordStatus (m : report_status_t) (k k' : String) (o : Bool × String) :
    map_find (recordStatus m k o) k' =
      if k = k' then some ((map_find m k).getD [] ++ [flagOf o.1, o.2]) else map_find m k' := by
  unfold recordStatus
  rw [map_find_map_push_back]
  by_cases h : k = k'
  · simp [h, map_find_map_push_back]
  · simp [h, map_find_map_push_back]

theorem map_find_statusFold (l : List (String × Bool × String)) :
    ∀ (m : report_status_t) (k : String),
      map_find (statusFold m l) k =
        if recordedUnder k l = [] then map_find m k
        else some ((map_find m k).getD [] ++ recordedUnder k l) := by
  induction l with
  | nil => intro m k; simp [statusFold, recordedUnder]
  | cons q l ih =>
    intro m k
    have hstep : statusFold m (q :: l) = statusFold (recordStatus m q.1 q.2) l := rfl
    rw [hstep, ih, map_find_recordStatus]
    by_cases hq : q.1 = k
    · subst hq
      by_cases hr : recordedUnder q.1 l = []
      · simp [recordedUnder, hr]
      · simp [recordedUnder, hr]
    · simp [recordedUnder, hq]

theorem recordedUnder_length (k : String) (l : List (String × Bool × String)) :
    (recordedUnder k l).length = 2 * (l.map Prod.fst).count k := by
  induction l with
  | nil => rfl
  | cons q l ih =>
    by_cases hq : q.1 = k
    · simp [recordedUnder, hq, ih]
      omega
    · have : (q.1 == k) = false := by simpa using hq
      simp [recordedUnder, hq, ih, List.count_cons, this]

theorem recordedUnder_ne_nil (k : String) (l : List (String × Bool × String))
    (h : k ∈ l.map Prod.fst) : recordedUnder k l ≠ [] := by
  intro hnil
  have hlen := recordedUnder_length k l
  rw [hnil] at hlen
  have hpos : 0 < (l.map Prod.fst).count k := List.count_pos_iff.mpr h
  simp at hlen
  omega

theorem entriesOf_AddAnalyzerActionOrReporter (cfg : Config) (A name args : String) :
    entriesOf (AddAnalyzerActionOrReporter cfg A name args) A = entriesOf cfg A ++ [(name, args)] := by
  simp [entriesOf, AddAnalyzerActionOrReporter, map_find_map_push_back]

theorem Sim.resolve_of_typeOf (plugins : map_t plugin_type_t) (ty : plugin_type_t)
    (name : String) (s : Sim) (h : Sim.typeOf plugins name = .ok ty) :
    (Sim.resolve plugins ty name s).1 = .ok () := by
  unfold Sim.typeOf at h
  unfold Sim.resolve
  cases hfind : map_find plugins name with
  | none => simp [hfind] at h
  | some t =>
    simp only [hfind] at h
    have ht : t = ty := by injection h
    simp [ht]

/-- Claim C6. For a crash report with the system fields and a package field,
analyzer identity `A` and derived package name `P`: when the plugin registry
answers type queries as the function `ptype`, resolves every Reporter-typed
name, and the final database update goes through, the `reporter->Report` calls
`Report` makes are exactly the Reporter-typed entries registered under `A`
followed by those registered under `A:P`, each once and in registration order,
whatever the individual reporters return or raise; and the returned status
mapping has the key `name` for each such entry of scope `A` and the key
`name (P)` for each such entry of scope `A:P`. -/
theorem Report_dispatches_both_scopes (cfg : Config) (env : Collaborators σ)
    (rep : map_crash_report_t) (pUID : String)
    (ptype : String → Except CABRTException plugin_type_t) (w : World σ)
    (a u uu p : crash_data_t)
    (hA : map_find rep cfg.CD_MWANALYZER = some a) (hU : map_find rep cfg.CD_MWUID = some u)
    (hUU : map_find rep cfg.CD_MWUUID = some uu) (hP : map_find rep FILENAME_PACKAGE = some p)
    (hDatabase : ∀ s, (env.GetDatabase cfg.g_settings_sDatabase s).1 = .ok ())
    (hConnect : ∀ s, (env.Connect s).1 = .ok ())
    (hSetReported : ∀ uuid uid m s, (env.SetReported uuid uid m s).1 = .ok ())
    (hDisConnect : ∀ s, (env.DisConnect s).1 = .ok ())
    (hType : ∀ n s, (env.GetPluginType n s).1 = ptype n)
    (hReporter : ∀ n s, ptype n = .ok .REPORTER → (env.GetReporter n s).1 = .ok ()) :
    ∃ evs ret,
      (Report cfg env rep pUID w).1 = .ok ret ∧
      (Report cfg env rep pUID w).2.trace = w.trace ++ evs ∧
      reporterCalls evs =
        (entriesOf cfg a.CD_CONTENT).filter (fun e => decide (ptype e.1 = .ok .REPORTER)) ++
        (entriesOf cfg (a.CD_CONTENT ++ (":" ++ packageName p.CD_CONTENT))).filter
          (fun e => decide (ptype e.1 = .ok .REPORTER)) ∧
      (∀ e ∈ entriesOf cfg a.CD_CONTENT, ptype e.1 = .ok .REPORTER →
        map_find ret e.1 ≠ none) ∧
      (∀ e ∈ entriesOf cfg (a.CD_CONTENT ++ (":" ++ packageName p.CD_CONTENT)),
        ptype e.1 = .ok .REPORTER →
        map_find ret (e.1 ++ (" (" ++ packageName p.CD_CONTENT ++ ")")) ≠ none) := by
  obtain ⟨evs, x, hrun, hlen, _, hcalls⟩ := Report_spec cfg env rep pUID ptype w a u uu p hA hU
    hUU hP hDatabase hConnect hSetReported hDisConnect
  have hkeys : ((Report_keys cfg a.CD_CONTENT (packageName p.CD_CONTENT)).zip
      (reportOutcomes evs)).map Prod.fst
      = Report_keys cfg a.CD_CONTENT (packageName p.CD_CONTENT) :=
    List.map_fst_zip _ _ (Nat.le_of_eq hlen.symm)
  have hfound : ∀ k, k ∈ Report_keys cfg a.CD_CONTENT (packageName p.CD_CONTENT) →
      map_find (statusFold [] ((Report_keys cfg a.CD_CONTENT (packageName p.CD_CONTENT)).zip
        (reportOutcomes evs))) k ≠ none := by
    intro k hk
    rw [map_find_statusFold]
    have := recordedUnder_ne_nil k _ (hkeys ▸ hk)
    simp [this]
  refine ⟨evs, _, congrArg Prod.fst hrun, ?_, hcalls hType hReporter, ?_, ?_⟩
  · rw [hrun]
  · intro e he _
    apply hfound
    simp only [Report_keys, List.mem_append, List.mem_map]
    exact Or.inl ⟨e, he, by simp [Report_ret_key]⟩
  · intro e he _
    apply hfound
    simp only [Report_keys, List.mem_append, List.mem_map]
    exact Or.inr ⟨e, he, by simp [Report_ret_key]⟩

/-- Claim C6, with `Logger` (failing) and `Mailx` registered for `CCpp` and
`Bugzilla` for `CCpp:foo`: all three reporters are called, in that order. -/
theorem Report_dispatches_both_scopes_witness :
    ∃ evs ret,
      (Report dispatchConfig exampleEnv exampleReport "" (simWorld dispatchSim)).1 = .ok ret ∧
      (Report dispatchConfig exampleEnv exampleReport "" (simWorld dispatchSim)).2.trace
        = [] ++ evs ∧
      reporterCalls evs = [("Logger", ""), ("Mailx", "")] ++ [("Bugzilla", "product=foo")] ∧
      (∀ e ∈ entriesOf dispatchConfig "CCpp",
        Sim.typeOf examplePlugins e.1 = .ok .REPORTER → map_find ret e.1 ≠ none) ∧
      (∀ e ∈ entriesOf dispatchConfig ("CCpp" ++ (":" ++ packageName "foo-1.2-3.x86_64")),
        Sim.typeOf examplePlugins e.1 = .ok .REPORTER →
        map_find ret (e.1 ++ (" (" ++ packageName "foo-1.2-3.x86_64" ++ ")")) ≠ none) :=
  Report_dispatches_both_scopes dispatchConfig exampleEnv exampleReport ""
    (Sim.typeOf examplePlugins) (simWorld dispatchSim)
    ⟨.CD_SYS, .CD_ISNOTEDITABLE, "CCpp"⟩ ⟨.CD_SYS, .CD_ISNOTEDITABLE, "500"⟩
    ⟨.CD_SYS, .CD_ISNOTEDITABLE, "0a1b2c"⟩ ⟨.CD_TXT, .CD_ISNOTEDITABLE, "foo-1.2-3.x86_64"⟩
    (by decide) (by decide) (by decide) (by decide) (fun _ => rfl) (fun _ => rfl)
    (fun _ _ _ _ => rfl) (fun _ => rfl) (fun _ _ => rfl)
    (fun n s h => Sim.resolve_of_typeOf examplePlugins .REPORTER n s h)

/-- Claim C8 as stated fails on two counts: with `Logger` registered twice and
the action `RunApp` once for the analyzer, the value under `Logger` has four
elements, and the key `RunApp` exists although only `Logger` was executed as a
reporter. -/
theorem Report_status_not_one_pair_per_reporter :
    (Report repeatedConfig exampleEnv exampleReport "" (simWorld loggedSim)).1
      = .ok [("Logger", ["1", "logged", "1", "logged"]), ("RunApp", ["1", ""])] ∧
    reporterCalls (Report repeatedConfig exampleEnv exampleReport "" (simWorld loggedSim)).2.trace
      = [("Logger", "a"), ("Logger", "b")] := by
  refine ⟨by decide, by decide⟩

/-- Claim C8, amended. For a crash report with the system fields and a package
field, when the database calls go through: the status mapping `Report` returns
holds, under each key, the (flag, message) pairs of the dispatch entries
processed under that result key, one pair per entry in processing order, so
twice as many elements as entries use the key: the pair is `("0", failure
description)` when processing the entry raised a failure and `("1", result)`
otherwise, the result being the reporter's return message, or the empty string
when the plugin type is not `REPORTER`.  A key exists exactly when some processed
entry, reporter or not, has it as result key. -/
theorem Report_status_pairs (cfg : Config) (env : Collaborators σ)
    (rep : map_crash_report_t) (pUID : String) (w : World σ) (a u uu p : crash_data_t)
    (hA : map_find rep cfg.CD_MWANALYZER = some a) (hU : map_find rep cfg.CD_MWUID = some u)
    (hUU : map_find rep cfg.CD_MWUUID = some uu) (hP : map_find rep FILENAME_PACKAGE = some p)
    (hDatabase : ∀ s, (env.GetDatabase cfg.g_settings_sDatabase s).1 = .ok ())
    (hConnect : ∀ s, (env.Connect s).1 = .ok ())
    (hSetReported : ∀ uuid uid m s, (env.SetReported uuid uid m s).1 = .ok ())
    (hDisConnect : ∀ s, (env.DisConnect s).1 = .ok ()) :
    ∃ evs ret,
      (Report cfg env rep pUID w).1 = .ok ret ∧
      (Report cfg env rep pUID w).2.trace = w.trace ++ evs ∧
      (reportOutcomes evs).length
        = (Report_keys cfg a.CD_CONTENT (packageName p.CD_CONTENT)).length ∧
      (∀ k, map_find ret k =
        if recordedUnder k ((Report_keys cfg a.CD_CONTENT (packageName p.CD_CONTENT)).zip
            (reportOutcomes evs)) = [] then none
        else some (recordedUnder k
          ((Report_keys cfg a.CD_CONTENT (packageName p.CD_CONTENT)).zip (reportOutcomes evs)))) ∧
      (∀ k, map_find ret k ≠ none ↔
        k ∈ Report_keys cfg a.CD_CONTENT (packageName p.CD_CONTENT)) ∧
      (∀ k v, map_find ret k = some v →
        v.length = 2 * (Report_keys cfg a.CD_CONTENT (packageName p.CD_CONTENT)).count k) := by
  obtain ⟨evs, x, hrun, hlen, _, _⟩ := Report_spec cfg env rep pUID
    (fun _ => .ok .REPORTER) w a u uu p hA hU hUU hP hDatabase hConnect hSetReported hDisConnect
  have hkeys : ((Report_keys cfg a.CD_CONTENT (packageName p.CD_CONTENT)).zip
      (reportOutcomes evs)).map Prod.fst
      = Report_keys cfg a.CD_CONTENT (packageName p.CD_CONTENT) :=
    List.map_fst_zip _ _ (Nat.le_of_eq hlen.symm)
  have hform : ∀ k, map_find (statusFold []
        ((Report_keys cfg a.CD_CONTENT (packageName p.CD_CONTENT)).zip (reportOutcomes evs))) k =
      if recordedUnder k ((Report_keys cfg a.CD_CONTENT (packageName p.CD_CONTENT)).zip
          (reportOutcomes evs)) = [] then none
      else some (recordedUnder k
        ((Report_keys cfg a.CD_CONTENT (packageName p.CD_CONTENT)).zip (reportOutcomes evs))) := by
    intro k
    rw [map_find_statusFold]
    simp [map_find]
  refine ⟨evs, _, congrArg Prod.fst hrun, ?_, hlen, hform, ?_, ?_⟩
  · rw [hrun]
  · intro k
    rw [hform k]
    constructor
    · intro hne
      by_contra hk
      have hcount : (Report_keys cfg a.CD_CONTENT (packageName p.CD_CONTENT)).count k = 0 :=
        List.count_eq_zero.mpr hk
      have hl := recordedUnder_length k
        ((Report_keys cfg a.CD_CONTENT (packageName p.CD_CONTENT)).zip (reportOutcomes evs))
      rw [hkeys, hcount] at hl
      have hnil := List.length_eq_zero.mp hl
      simp [hnil] at hne
    · intro hk
      have := recordedUnder_ne_nil k _ (hkeys ▸ hk)
      simp [this]
  · intro k v hv
    rw [hform k] at hv
    have hl := recordedUnder_length k
      ((Report_keys cfg a.CD_CONTENT (packageName p.CD_CONTENT)).zip (reportOutcomes evs))
    rw [hkeys] at hl
    by_cases hnil : recordedUnder k ((Report_keys cfg a.CD_CONTENT
        (packageName p.CD_CONTENT)).zip (reportOutcomes evs)) = []
    · simp [hnil] at hv
    · simp only [hnil, if_false, Option.some.injEq] at hv
      rw [← hv, hl]

/-- Claim C8, amended, with `Logger` registered twice and `RunApp` once: the
status mapping is as the theorem describes. -/
theorem Report_status_pairs_witness :
    ∃ evs ret,
      (Report repeatedConfig exampleEnv exampleReport "" (simWorld loggedSim)).1 = .ok ret ∧
      (Report repeatedConfig exampleEnv exampleReport "" (simWorld loggedSim)).2.trace
        = [] ++ evs ∧
      (reportOutcomes evs).length
        = (Report_keys repeatedConfig "CCpp" (packageName "foo-1.2-3.x86_64")).length ∧
      (∀ k, map_find ret k =
        if recordedUnder k ((Report_keys repeatedConfig "CCpp"
            (packageName "foo-1.2-3.x86_64")).zip (reportOutcomes evs)) = [] then none
        else some (recordedUnder k
          ((Report_keys repeatedConfig "CCpp" (packageName "foo-1.2-3.x86_64")).zip
            (reportOutcomes evs)))) ∧
      (∀ k, map_find ret k ≠ none ↔
        k ∈ Report_keys repeatedConfig "CCpp" (packageName "foo-1.2-3.x86_64")) ∧
      (∀ k v, map_find ret k = some v →
        v.length = 2 * (Report_keys repeatedConfig "CCpp"
          (packageName "foo-1.2-3.x86_64")).count k) :=
  Report_status_pairs repeatedConfig exampleEnv exampleReport "" (simWorld loggedSim)
    ⟨.CD_SYS, .CD_ISNOTEDITABLE, "CCpp"⟩ ⟨.CD_SYS, .CD_ISNOTEDITABLE, "500"⟩
    ⟨.CD_SYS, .CD_ISNOTEDITABLE, "0a1b2c"⟩ ⟨.CD_TXT, .CD_ISNOTEDITABLE, "foo-1.2-3.x86_64"⟩
    (by decide) (by decide) (by decide) (by decide) (fun _ => rfl) (fun _ => rfl)
    (fun _ _ _ _ => rfl) (fun _ => rfl)

/-! ## The settings override around a reporter call -/

set_option maxRecDepth 100000 in
/-- Claim C9 at a failing input: user 500 has a home directory with per-user
settings for `Mailx`.  When the reporter returns, the settings of `Mailx` after
`Report` are those it had before; when the reporter raises a failure, the
handler records the failure and the per-user settings stay in place. -/
theorem Report_settings_not_restored_on_failure :
    exampleEnv.Reporter_GetSettings "Mailx" (overrideSim (.ok "mail sent"))
      = [("Subject", "[abrt] crash report")] ∧
    exampleEnv.Reporter_GetSettings "Mailx"
      (Report overrideConfig exampleEnv exampleReport "500"
        (simWorld (overrideSim (.ok "mail sent")))).2.ext
      = [("Subject", "[abrt] crash report")] ∧
    exampleEnv.Reporter_GetSettings "Mailx"
      (overrideSim (.error ⟨.EXCEP_PLUGIN, "cannot send mail"⟩))
      = [("Subject", "[abrt] crash report")] ∧
    (Report overrideConfig exampleEnv exampleReport "500"
      (simWorld (overrideSim (.error ⟨.EXCEP_PLUGIN, "cannot send mail"⟩)))).1
      = .ok [("Mailx", ["0", "cannot send mail"])] ∧
    exampleEnv.Reporter_GetSettings "Mailx"
      (Report overrideConfig exampleEnv exampleReport "500"
        (simWorld (overrideSim (.error ⟨.EXCEP_PLUGIN, "cannot send mail"⟩)))).2.ext
      = [("Subject", "private")] := by
  refine ⟨by decide, by decide, by decide, by decide, by decide⟩

/-! ## The failure mapping of `CreateCrashReport` -/

/-- The handler inside the loop of `RunAnalyzerActions` catches every typed
failure of its entry: the iteration returns. -/
theorem RunAnalyzerActions_entry_ok (env : Collaborators σ) (dir : String)
    (it_a : String × String) (w : World σ) :
    (RunAnalyzerActions_entry env dir it_a w).1 = .ok () := by
  rcases h1 : env.GetPluginType it_a.1 w.ext with ⟨r1, y1⟩
  cases r1 with
  | error e =>
    simp [RunAnalyzerActions_entry, tryCatchAbrt, M_bind_def, M_pure_def, M.bind, M.pure, call,
      emit, h1]
  | ok t =>
  by_cases ht : t = .ACTION
  · rcases h2 : env.GetAction it_a.1 y1 with ⟨r2, y2⟩
    cases r2 with
    | error e =>
      simp [RunAnalyzerActions_entry, tryCatchAbrt, M_bind_def, M_pure_def, M.bind, M.pure,
        call, emit, h1, h2, ht]
    | ok _ =>
    rcases h3 : env.Action_Run it_a.1 dir it_a.2 y2 with ⟨r3, y3⟩
    cases r3 with
    | error e =>
      simp [RunAnalyzerActions_entry, tryCatchAbrt, M_bind_def, M_pure_def, M.bind, M.pure,
        call, emit, h1, h2, h3, ht]
    | ok _ =>
      simp [RunAnalyzerActions_entry, tryCatchAbrt, M_bind_def, M_pure_def, M.bind, M.pure,
        call, emit, h1, h2, h3, ht]
  · simp [RunAnalyzerActions_entry, tryCatchAbrt, M_bind_def, M_pure_def, M.bind, M.pure, call,
      emit, h1, ht]

/-- The loop of `RunAnalyzerActions` returns, whatever its entries do. -/
theorem RunAnalyzerActions_loop_ok (env : Collaborators σ) (dir : String)
    (entries : vector_pair_string_string_t) :
    ∀ w : World σ, (RunAnalyzerActions_loop env dir entries w).1 = .ok () := by
  induction entries with
  | nil => intro w; rfl
  | cons it_a rest ih =>
    intro w
    have h := RunAnalyzerActions_entry_ok env dir it_a w
    rcases hr : RunAnalyzerActions_entry env dir it_a w with ⟨r, w1⟩
    rw [hr] at h
    simp only at h
    subst h
    simp only [RunAnalyzerActions_loop, M_bind_def, M.bind, hr]
    exact ih w1

/-- No typed failure leaves `RunAnalyzerActions`. -/
theorem RunAnalyzerActions_ok (cfg : Config) (env : Collaborators σ) (analyzer dir : String)
    (w : World σ) : (RunAnalyzerActions cfg env analyzer dir w).1 = .ok () := by
  unfold RunAnalyzerActions
  cases map_find cfg.s_mapAnalyzerActionsAndReporters analyzer with
  | none => rfl
  | some entries => exact RunAnalyzerActions_loop_ok env dir entries w

/-- The check of `DebugDumpToCrashReport`: when the directory opens and one of
the six required files does not exist, the function raises `EXCEP_ERROR`. -/
theorem DebugDumpToCrashReport_missing (cfg : Config) (env : Collaborators σ) (dir : String)
    (w : World σ) (y : σ) (n : String)
    (hOpen : env.dd_Open dir w.ext = (.ok (), y))
    (hn : n ∈ [FILENAME_ARCHITECTURE, FILENAME_KERNEL, FILENAME_PACKAGE, FILENAME_COMPONENT,
      FILENAME_RELEASE, FILENAME_EXECUTABLE])
    (hMissing : env.dd_Exist dir n y = false) :
    (DebugDumpToCrashReport cfg env dir w).1 = .error (.thrown ⟨.EXCEP_ERROR,
      "DebugDumpToCrashReport(): One or more of important file(s)\x27re missing."⟩) := by
  cases h1 : env.dd_Exist dir FILENAME_ARCHITECTURE y <;>
  cases h2 : env.dd_Exist dir FILENAME_KERNEL y <;>
  cases h3 : env.dd_Exist dir FILENAME_PACKAGE y <;>
  cases h4 : env.dd_Exist dir FILENAME_COMPONENT y <;>
  cases h5 : env.dd_Exist dir FILENAME_RELEASE y <;>
  cases h6 : env.dd_Exist dir FILENAME_EXECUTABLE y <;>
  first
  | (simp [DebugDumpToCrashReport, orElse, dd_notExist, throwAbrt, M_bind_def, M_pure_def,
      M.bind, M.pure, call, callRead, callUpdate, hOpen, h1, h2, h3, h4, h5, h6]
     done)
  | (simp only [List.mem_cons, List.mem_singleton, List.not_mem_nil, or_false] at hn
     rcases hn with rfl | rfl | rfl | rfl | rfl | rfl <;> simp_all)

set_option maxRecDepth 100000 in
/-- Claim C10 as stated fails on each of its cases: for a record found in the
database, a failure to open the artifact directory (`EXCEP_DD_OPEN`) gives
`MW_ERROR`, a failure to load the analyzer text (`EXCEP_DD_LOAD`) gives
`MW_FILE_ERROR`, and the missing-required-file failure of
`DebugDumpToCrashReport` (`EXCEP_ERROR`) gives `MW_CORRUPTED`; and a plugin
failure (`EXCEP_PLUGIN`) raised inside `RunAnalyzerActions`, by an action that
fails or by the lookup of a dispatch entry the registry does not know, is
caught and logged there, never reaches the handler of `CreateCrashReport`, and
the result is `MW_OK`. -/
theorem CreateCrashReport_failure_codes :
    ((CreateCrashReport_try simConfig exampleEnv (Sim.getRow missingDirSim.rows "0a1b2c" "500")
        "0a1b2c" "500" (simWorld missingDirSim)).1
        = .error (.thrown ⟨.EXCEP_DD_OPEN, "cannot open /var/cache/abrt/ccpp-1"⟩) ∧
      (CreateCrashReport simConfig exampleEnv "0a1b2c" "500" (simWorld missingDirSim)).1
        = .ok .MW_ERROR) ∧
    ((CreateCrashReport_try simConfig exampleEnv (Sim.getRow unreadableSim.rows "0a1b2c" "500")
        "0a1b2c" "500" (simWorld unreadableSim)).1
        = .error (.thrown ⟨.EXCEP_DD_LOAD, "cannot load analyzer"⟩) ∧
      (CreateCrashReport simConfig exampleEnv "0a1b2c" "500" (simWorld unreadableSim)).1
        = .ok .MW_FILE_ERROR) ∧
    ((CreateCrashReport_try simConfig exampleEnv (Sim.getRow incompleteSim.rows "0a1b2c" "500")
        "0a1b2c" "500" (simWorld incompleteSim)).1
        = .error (.thrown ⟨.EXCEP_ERROR,
            "DebugDumpToCrashReport(): One or more of important file(s)\x27re missing."⟩) ∧
      (CreateCrashReport simConfig exampleEnv "0a1b2c" "500" (simWorld incompleteSim)).1
        = .ok .MW_CORRUPTED) ∧
    (actionFailures
        (CreateCrashReport actionConfig exampleEnv "0a1b2c" "500"
          (simWorld failingActionSim)).2.trace
        = [("RunApp", ⟨.EXCEP_PLUGIN, "action failed"⟩)] ∧
      warnings
        (CreateCrashReport actionConfig exampleEnv "0a1b2c" "500"
          (simWorld failingActionSim)).2.trace
        = ["RunAnalyzerActions(): action failed"] ∧
      (CreateCrashReport actionConfig exampleEnv "0a1b2c" "500" (simWorld failingActionSim)).1
        = .ok .MW_OK) ∧
    ((exampleEnv.GetPluginType "Ghost" recordedSim).1
        = .error ⟨.EXCEP_PLUGIN, "Plugin: \x27Ghost\x27 is not registered."⟩ ∧
      warnings
        (CreateCrashReport ghostConfig exampleEnv "0a1b2c" "500" (simWorld recordedSim)).2.trace
        = ["RunAnalyzerActions(): Plugin: \x27Ghost\x27 is not registered."] ∧
      (CreateCrashReport ghostConfig exampleEnv "0a1b2c" "500" (simWorld recordedSim)).1
        = .ok .MW_OK) := by
  refine ⟨⟨by decide, by decide⟩, ⟨by decide, by decide⟩, ⟨by decide, by decide⟩,
    ⟨by decide!, by decide!, by decide!⟩, by decide, by decide!, by decide!⟩

/-- Claim C10, amended. For a record found by `CreateCrashReport` (non-empty UUID,
row with that UUID):
a typed failure `e` that leaves the `try` block is logged and mapped by its
type: `EXCEP_DD_OPEN` gives `MW_ERROR`, `EXCEP_DD_LOAD` gives `MW_FILE_ERROR`,
`EXCEP_PLUGIN` gives `MW_PLUGIN_ERROR`, and every other type gives
`MW_CORRUPTED`;
a failure of type `EXCEP_DD_OPEN` to open the directory of the row gives
`MW_ERROR`;
a failure of type `EXCEP_DD_LOAD` to load the analyzer text gives
`MW_FILE_ERROR`;
a failure of type `EXCEP_PLUGIN` to look the analyzer up gives
`MW_PLUGIN_ERROR`;
no failure leaves `RunAnalyzerActions`, so a failure raised inside it is not
mapped at all;
and when the steps up to `RunAnalyzerActions` return, the directory opens again
and one of the six required files does not exist, the result is
`MW_CORRUPTED`. -/
theorem CreateCrashReport_failure_mapping (cfg : Config) (env : Collaborators σ)
    (pUUID pUID : String) (w : World σ) (x1 x2 x3 x4 : σ) (row : database_row_t)
    (hDatabase : env.GetDatabase cfg.g_settings_sDatabase w.ext = (.ok (), x1))
    (hConnect : env.Connect x1 = (.ok (), x2))
    (hRow : env.GetUUIDData pUUID pUID x2 = (.ok row, x3))
    (hDisConnect : env.DisConnect x3 = (.ok (), x4))
    (hUUID : pUUID ≠ "") (hFound : row.m_sUUID = pUUID) :
    (∀ (e : CABRTException) (w' : World σ),
      CreateCrashReport_try cfg env row pUUID pUID (afterRowQuery cfg pUUID pUID row w x4)
        = (.error (.thrown e), w') →
      CreateCrashReport cfg env pUUID pUID w =
        (.ok (match e.type with
            | .EXCEP_DD_OPEN => .MW_ERROR
            | .EXCEP_DD_LOAD => .MW_FILE_ERROR
            | .EXCEP_PLUGIN => .MW_PLUGIN_ERROR
            | .EXCEP_DD_SAVE => .MW_CORRUPTED
            | .EXCEP_ERROR => .MW_CORRUPTED),
          { w' with
            trace := w'.trace ++
              [Event.comm_layer_inner_warning ("CreateCrashReport(): " ++ e.what)] })) ∧
    (∀ (e : CABRTException) (y : σ),
      env.dd_Open row.m_sDebugDumpDir x4 = (.error e, y) → e.type = .EXCEP_DD_OPEN →
      (CreateCrashReport cfg env pUUID pUID w).1 = .ok .MW_ERROR) ∧
    (∀ (e : CABRTException) (y y' : σ),
      env.dd_Open row.m_sDebugDumpDir x4 = (.ok (), y) →
      env.dd_LoadText row.m_sDebugDumpDir FILENAME_ANALYZER y = (.error e, y') →
      e.type = .EXCEP_DD_LOAD →
      (CreateCrashReport cfg env pUUID pUID w).1 = .ok .MW_FILE_ERROR) ∧
    (∀ (analyzer : String) (e : CABRTException) (y y' y'' : σ),
      env.dd_Open row.m_sDebugDumpDir x4 = (.ok (), y) →
      env.dd_LoadText row.m_sDebugDumpDir FILENAME_ANALYZER y = (.ok analyzer, y') →
      env.GetAnalyzer analyzer (env.dd_Close row.m_sDebugDumpDir y') = (.error e, y'') →
      e.type = .EXCEP_PLUGIN →
      (CreateCrashReport cfg env pUUID pUID w).1 = .ok .MW_PLUGIN_ERROR) ∧
    (∀ (analyzer dir : String) (w0 : World σ),
      (RunAnalyzerActions cfg env analyzer dir w0).1 = .ok ()) ∧
    (∀ (found : String × String) (wD : World σ) (y : σ) (n : String),
      CreateCrashReport_analyze cfg env row (afterRowQuery cfg pUUID pUID row w x4)
        = (.ok found, wD) →
      env.dd_Open row.m_sDebugDumpDir wD.ext = (.ok (), y) →
      n ∈ [FILENAME_ARCHITECTURE, FILENAME_KERNEL, FILENAME_PACKAGE, FILENAME_COMPONENT,
        FILENAME_RELEASE, FILENAME_EXECUTABLE] →
      env.dd_Exist row.m_sDebugDumpDir n y = false →
      (CreateCrashReport cfg env pUUID pUID w).1 = .ok .MW_CORRUPTED) := by
  refine ⟨?_, ?_, ?_, ?_, fun analyzer dir w0 => RunAnalyzerActions_ok cfg env analyzer dir w0,
    ?_⟩
  · intro e w' hThrow
    unfold afterRowQuery at hThrow
    have hcatch : CreateCrashReport_catch e = (match e.type with
        | .EXCEP_DD_OPEN => .MW_ERROR
        | .EXCEP_DD_LOAD => .MW_FILE_ERROR
        | .EXCEP_PLUGIN => .MW_PLUGIN_ERROR
        | .EXCEP_DD_SAVE => .MW_CORRUPTED
        | .EXCEP_ERROR => .MW_CORRUPTED) := by
      unfold CreateCrashReport_catch
      cases e.type <;> simp
    simp [CreateCrashReport, tryCatchAbrt, M_bind_def, M_pure_def, M.bind, M.pure, call, emit,
      hDatabase, hConnect, hRow, hDisConnect, hUUID, hFound, hThrow, hcatch]
  · intro e y hOpen ht
    simp [CreateCrashReport, CreateCrashReport_try, CreateCrashReport_analyze,
      CreateCrashReport_catch, tryCatchAbrt, M_bind_def, M_pure_def, M.bind, M.pure, call, emit,
      hDatabase, hConnect, hRow, hDisConnect, hUUID, hFound, hOpen, ht]
  · intro e y y' hOpen hLoad ht
    simp [CreateCrashReport, CreateCrashReport_try, CreateCrashReport_analyze,
      CreateCrashReport_catch, tryCatchAbrt, M_bind_def, M_pure_def, M.bind, M.pure, call, emit,
      hDatabase, hConnect, hRow, hDisConnect, hUUID, hFound, hOpen, hLoad, ht]
  · intro analyzer e y y' y'' hOpen hLoad hAnalyzer ht
    simp [CreateCrashReport, CreateCrashReport_try, CreateCrashReport_analyze, CreateReport,
      CreateCrashReport_catch, tryCatchAbrt, M_bind_def, M_pure_def, M.bind, M.pure, call,
      callUpdate, emit, hDatabase, hConnect, hRow, hDisConnect, hUUID, hFound, hOpen, hLoad,
      hAnalyzer, ht]
  · intro found wD y n hAnalyze hOpen hn hMissing
    unfold afterRowQuery at hAnalyze
    have hD := DebugDumpToCrashReport_missing cfg env row.m_sDebugDumpDir wD y n hOpen hn
      hMissing
    rcases hr : DebugDumpToCrashReport cfg env row.m_sDebugDumpDir wD with ⟨r, wE⟩
    rw [hr] at hD
    simp only at hD
    subst hD
    simp [CreateCrashReport, CreateCrashReport_try, CreateCrashReport_catch, tryCatchAbrt,
      M_bind_def, M_pure_def, M.bind, M.pure, call, emit, hDatabase, hConnect, hRow,
      hDisConnect, hUUID, hFound, hAnalyze, hr]

set_option maxRecDepth 100000 in
/-- Claim C10, amended, at five runs: a recorded directory that lacks
`architecture` (the missing-required-file failure leaves the `try` block and
gives `MW_CORRUPTED`), a row whose directory is gone (`MW_ERROR`), a recorded
directory without `analyzer` file (`MW_FILE_ERROR`), a recorded directory whose
analyzer is not registered (`MW_PLUGIN_ERROR`), and a complete directory with a
failing action (`RunAnalyzerActions` returns). -/
theorem CreateCrashReport_failure_mapping_witness :
    ((CreateCrashReport simConfig exampleEnv "0a1b2c" "500" (simWorld incompleteSim)).1
        = .ok .MW_CORRUPTED ∧
      (CreateCrashReport simConfig exampleEnv "0a1b2c" "500" (simWorld incompleteSim)).1
        = .ok .MW_CORRUPTED) ∧
    (CreateCrashReport simConfig exampleEnv "0a1b2c" "500" (simWorld missingDirSim)).1
      = .ok .MW_ERROR ∧
    (CreateCrashReport simConfig exampleEnv "0a1b2c" "500" (simWorld unreadableSim)).1
      = .ok .MW_FILE_ERROR ∧
    (CreateCrashReport simConfig exampleEnv "77aa" "500" (simWorld recordedUnknownAnalyzerSim)).1
      = .ok .MW_PLUGIN_ERROR ∧
    (RunAnalyzerActions actionConfig exampleEnv "CCpp" "/var/cache/abrt/ccpp-1"
      (simWorld failingActionSim)).1 = .ok () :=
  have hI := CreateCrashReport_failure_mapping simConfig exampleEnv "0a1b2c" "500"
    (simWorld incompleteSim) incompleteSim incompleteSim incompleteSim incompleteSim
    (Sim.getRow incompleteSim.rows "0a1b2c" "500")
    (by decide) (by decide) (by decide) (by decide) (by decide) (by decide)
  have hM := CreateCrashReport_failure_mapping simConfig exampleEnv "0a1b2c" "500"
    (simWorld missingDirSim) missingDirSim missingDirSim missingDirSim missingDirSim
    (Sim.getRow missingDirSim.rows "0a1b2c" "500")
    (by decide) (by decide) (by decide) (by decide) (by decide) (by decide)
  have hU := CreateCrashReport_failure_mapping simConfig exampleEnv "0a1b2c" "500"
    (simWorld unreadableSim) unreadableSim unreadableSim unreadableSim unreadableSim
    (Sim.getRow unreadableSim.rows "0a1b2c" "500")
    (by decide) (by decide) (by decide) (by decide) (by decide) (by decide)
  have hP := CreateCrashReport_failure_mapping simConfig exampleEnv "77aa" "500"
    (simWorld recordedUnknownAnalyzerSim) recordedUnknownAnalyzerSim recordedUnknownAnalyzerSim
    recordedUnknownAnalyzerSim recordedUnknownAnalyzerSim
    (Sim.getRow recordedUnknownAnalyzerSim.rows "77aa" "500")
    (by decide) (by decide) (by decide) (by decide) (by decide) (by decide)
  have hA := CreateCrashReport_failure_mapping actionConfig exampleEnv "0a1b2c" "500"
    (simWorld failingActionSim) failingActionSim failingActionSim failingActionSim
    failingActionSim (Sim.getRow failingActionSim.rows "0a1b2c" "500")
    (by decide) (by decide) (by decide) (by decide) (by decide) (by decide)
  ⟨⟨congrArg Prod.fst
      (hI.1
        ⟨.EXCEP_ERROR,
          "DebugDumpToCrashReport(): One or more of important file(s)\x27re missing."⟩
        (CreateCrashReport_try simConfig exampleEnv
          (Sim.getRow incompleteSim.rows "0a1b2c" "500") "0a1b2c" "500"
          (afterRowQuery simConfig "0a1b2c" "500"
            (Sim.getRow incompleteSim.rows "0a1b2c" "500")
            (simWorld incompleteSim) incompleteSim)).2
        (Prod.ext (by decide) rfl)),
      hI.2.2.2.2.2 ("CCpp", "0a1b2c")
        (CreateCrashReport_analyze simConfig exampleEnv
          (Sim.getRow incompleteSim.rows "0a1b2c" "500")
          (afterRowQuery simConfig "0a1b2c" "500"
            (Sim.getRow incompleteSim.rows "0a1b2c" "500")
            (simWorld incompleteSim) incompleteSim)).2
        incompleteSim FILENAME_ARCHITECTURE
        (Prod.ext (by decide) rfl) (by decide) (by decide) (by decide)⟩,
    hM.2.1 ⟨.EXCEP_DD_OPEN, "cannot open /var/cache/abrt/ccpp-1"⟩ missingDirSim
      (by decide) (by decide),
    hU.2.2.1 ⟨.EXCEP_DD_LOAD, "cannot load analyzer"⟩ unreadableSim unreadableSim
      (by decide) (by decide) (by decide),
    hP.2.2.2.1 "Python" ⟨.EXCEP_PLUGIN, "Plugin: \x27Python\x27 is not registered."⟩
      recordedUnknownAnalyzerSim recordedUnknownAnalyzerSim recordedUnknownAnalyzerSim
      (by decide) (by decide) (by decide) (by decide),
    hA.2.2.2.2.1 "CCpp" "/var/cache/abrt/ccpp-1" (simWorld failingActionSim)⟩

/-! ## Failures that leave `SaveDebugDump` -/

/-- Claim C11 at a failing input: a new crash whose `analyzer` file names the
unregistered plugin `Python`.  `SaveDebugDump` passes the policy gate, then the
plugin lookup of `GetLocalUUID` raises `EXCEP_PLUGIN` outside every `try` block
and the failure leaves `SaveDebugDump`; no result value is returned.  For the
same directory once recorded, `CreateCrashReport` catches the same lookup
failure and returns `MW_PLUGIN_ERROR`. -/
theorem SaveDebugDump_plugin_failure_escapes :
    (SaveDebugDump simConfig exampleEnv "/var/cache/abrt/pyhook-1"
      (simWorld unknownAnalyzerSim)).1
      = .error (.thrown ⟨.EXCEP_PLUGIN, "Plugin: \x27Python\x27 is not registered."⟩) ∧
    (CreateCrashReport simConfig exampleEnv "77aa" "500"
      (simWorld recordedUnknownAnalyzerSim)).1 = .ok .MW_PLUGIN_ERROR := by
  refine ⟨by decide, by decide⟩

/-! ## Required files at ingestion -/

/-- Claim C12 as stated fails on both counts: a directory without architecture,
kernel, package, component and release is ingested with `MW_OK` and one
`Insert`; a directory without executable is rejected with `MW_ERROR`, not
`MW_CORRUPTED`. -/
theorem SaveDebugDump_required_files_not_checked :
    ((∀ name ∈ [FILENAME_ARCHITECTURE, FILENAME_KERNEL, FILENAME_PACKAGE, FILENAME_COMPONENT,
          FILENAME_RELEASE],
        exampleEnv.dd_Exist "/var/cache/abrt/ccpp-3" name bareSim = false) ∧
      (SaveDebugDump simConfig exampleEnv "/var/cache/abrt/ccpp-3" (simWorld bareSim)).1
        = .ok .MW_OK ∧
      insertCount
        (SaveDebugDump simConfig exampleEnv "/var/cache/abrt/ccpp-3" (simWorld bareSim)).2.trace
        = 1) ∧
    (exampleEnv.dd_Exist "/var/cache/abrt/ccpp-4" FILENAME_EXECUTABLE noExecutableSim = false ∧
      (SaveDebugDump simConfig exampleEnv "/var/cache/abrt/ccpp-4" (simWorld noExecutableSim)).1
        = .ok .MW_ERROR) := by
  refine ⟨⟨by decide, by decide, by decide⟩, by decide, by decide⟩

/-- Claim C12, amended. For every artifact directory whose executable text cannot
be loaded (the time, uid and analyzer texts loading), `SaveDebugDump` fails with
a result of its load handler, `MW_ERROR` or `MW_FILE_ERROR`, and performs no
`Insert`. -/
theorem SaveDebugDump_executable_absent (cfg : Config) (env : Collaborators σ) (d : String)
    (w : World σ) (time u analyzer : String) (e : CABRTException) (x1 x2 x3 x4 x5 : σ)
    (hOpen : env.dd_Open d w.ext = (.ok (), x1))
    (hTime : env.dd_LoadText d FILENAME_TIME x1 = (.ok time, x2))
    (hUid : env.dd_LoadText d FILENAME_UID x2 = (.ok u, x3))
    (hAnalyzer : env.dd_LoadText d FILENAME_ANALYZER x3 = (.ok analyzer, x4))
    (hExecutable : env.dd_LoadText d FILENAME_EXECUTABLE x4 = (.error e, x5)) :
    ((SaveDebugDump cfg env d w).1 = .ok .MW_ERROR ∨
      (SaveDebugDump cfg env d w).1 = .ok .MW_FILE_ERROR) ∧
    insertCount (SaveDebugDump cfg env d w).2.trace = insertCount w.trace := by
  by_cases hType : e.type = .EXCEP_DD_SAVE
  · have hrun : SaveDebugDump cfg env d w = (.ok .MW_FILE_ERROR,
        { ext := env.dd_Close d x5
          trace := w.trace ++
            [Event.dd_Open d (.ok ()), Event.dd_LoadText d FILENAME_TIME (.ok time),
              Event.dd_LoadText d FILENAME_UID (.ok u),
              Event.dd_LoadText d FILENAME_ANALYZER (.ok analyzer),
              Event.dd_LoadText d FILENAME_EXECUTABLE (.error e),
              Event.comm_layer_inner_warning ("SaveDebugDump(): " ++ e.what), Event.dd_Close d]
          pCrashReport := w.pCrashReport
          pCrashInfo := w.pCrashInfo }) := by
      simp [SaveDebugDump, SaveDebugDump_load, tryCatchAbrt, M_bind_def, M_pure_def, M.bind,
        M.pure, call, callUpdate, emit, hOpen, hTime, hUid, hAnalyzer, hExecutable, hType]
    rw [hrun]
    simp [insertCount, isInsert]
  · have hrun : SaveDebugDump cfg env d w = (.ok .MW_ERROR,
        { ext := x5
          trace := w.trace ++
            [Event.dd_Open d (.ok ()), Event.dd_LoadText d FILENAME_TIME (.ok time),
              Event.dd_LoadText d FILENAME_UID (.ok u),
              Event.dd_LoadText d FILENAME_ANALYZER (.ok analyzer),
              Event.dd_LoadText d FILENAME_EXECUTABLE (.error e),
              Event.comm_layer_inner_warning ("SaveDebugDump(): " ++ e.what)]
          pCrashReport := w.pCrashReport
          pCrashInfo := w.pCrashInfo }) := by
      simp [SaveDebugDump, SaveDebugDump_load, tryCatchAbrt, M_bind_def, M_pure_def, M.bind,
        M.pure, call, callUpdate, emit, hOpen, hTime, hUid, hAnalyzer, hExecutable, hType]
    rw [hrun]
    simp [insertCount, isInsert]

/-- Claim C12, amended, at a directory without `executable`: the result is one of
the two handler results and the trace holds no `Insert`. -/
theorem SaveDebugDump_executable_absent_witness :
    ((SaveDebugDump simConfig exampleEnv "/var/cache/abrt/ccpp-4" (simWorld noExecutableSim)).1
        = .ok .MW_ERROR ∨
      (SaveDebugDump simConfig exampleEnv "/var/cache/abrt/ccpp-4" (simWorld noExecutableSim)).1
        = .ok .MW_FILE_ERROR) ∧
    insertCount
      (SaveDebugDump simConfig exampleEnv "/var/cache/abrt/ccpp-4"
        (simWorld noExecutableSim)).2.trace = insertCount (simWorld noExecutableSim).trace :=
  SaveDebugDump_executable_absent simConfig exampleEnv "/var/cache/abrt/ccpp-4"
    (simWorld noExecutableSim) "1256000000" "500" "CCpp"
    ⟨.EXCEP_DD_LOAD, "cannot load executable"⟩ noExecutableSim noExecutableSim noExecutableSim
    noExecutableSim noExecutableSim (by decide) (by decide) (by decide) (by decide) (by decide)

/-! ## The OpenGPG check of the policy gate -/

/-- When the first half of the policy gate leaves with a result, that result is
the result of the gate. -/
theorem SavePackageDescriptionToDebugDump_of_gate_inl (cfg : Config) (env : Collaborators σ)
    (exe dir : String) (w w1 : World σ) (res : mw_result_t)
    (hGate : SavePackageDescriptionToDebugDump_gate cfg env exe w = (.ok (.inl res), w1)) :
    SavePackageDescriptionToDebugDump cfg env exe dir w = (.ok res, w1) := by
  simp [SavePackageDescriptionToDebugDump, M_bind_def, M_pure_def, M.bind, M.pure, hGate]

/-- When the first half of the policy gate passes, the gate ends with `MW_OK`,
`MW_FILE_ERROR` or `MW_ERROR`. -/
theorem SavePackageDescriptionToDebugDump_of_gate_inr (cfg : Config) (env : Collaborators σ)
    (exe dir : String) (w w1 : World σ) (p : String × String)
    (hGate : SavePackageDescriptionToDebugDump_gate cfg env exe w = (.ok (.inr p), w1)) :
    (SavePackageDescriptionToDebugDump cfg env exe dir w).1 = .ok .MW_OK ∨
    (SavePackageDescriptionToDebugDump cfg env exe dir w).1 = .ok .MW_FILE_ERROR ∨
    (SavePackageDescriptionToDebugDump cfg env exe dir w).1 = .ok .MW_ERROR := by
  obtain ⟨package, pkgName⟩ := p
  rcases h1 : env.dd_Open dir w1.ext with ⟨r1, y1⟩
  cases r1 with
  | error e =>
    by_cases ht : e.type = .EXCEP_DD_SAVE <;>
      simp [SavePackageDescriptionToDebugDump, M_bind_def, M_pure_def, M.bind, M.pure, hGate,
        callRead, call, callUpdate, emit, tryCatchAbrt, h1, ht]
  | ok _ =>
    rcases h2 : env.dd_SaveText dir FILENAME_PACKAGE package y1 with ⟨r2, y2⟩
    cases r2 with
    | error e =>
      by_cases ht : e.type = .EXCEP_DD_SAVE <;>
        simp [SavePackageDescriptionToDebugDump, M_bind_def, M_pure_def, M.bind, M.pure, hGate,
          callRead, call, callUpdate, emit, tryCatchAbrt, h1, h2, ht]
    | ok _ =>
      rcases h3 : env.dd_SaveText dir FILENAME_DESCRIPTION (env.GetDescription pkgName w1.ext) y2
        with ⟨r3, y3⟩
      cases r3 with
      | error e =>
        by_cases ht : e.type = .EXCEP_DD_SAVE <;>
          simp [SavePackageDescriptionToDebugDump, M_bind_def, M_pure_def, M.bind, M.pure, hGate,
            callRead, call, callUpdate, emit, tryCatchAbrt, h1, h2, h3, ht]
      | ok _ =>
        rcases h4 : env.dd_SaveText dir FILENAME_COMPONENT (env.GetComponent exe w1.ext) y3
          with ⟨r4, y4⟩
        cases r4 with
        | error e =>
          by_cases ht : e.type = .EXCEP_DD_SAVE <;>
            simp [SavePackageDescriptionToDebugDump, M_bind_def, M_pure_def, M.bind, M.pure,
              hGate, callRead, call, callUpdate, emit, tryCatchAbrt, h1, h2, h3, h4, ht]
        | ok _ =>
          simp [SavePackageDescriptionToDebugDump, M_bind_def, M_pure_def, M.bind, M.pure,
            hGate, callRead, call, callUpdate, emit, tryCatchAbrt, h1, h2, h3, h4]

/-- With the OpenGPG check switched off, the first half of the policy gate
completes, and not with `MW_GPG_ERROR`. -/
theorem SavePackageDescriptionToDebugDump_gate_no_gpg (cfg : Config) (env : Collaborators σ)
    (exe : String) (w : World σ) (hFlag : cfg.g_settings_bOpenGPGCheck = false) :
    ∃ g, (SavePackageDescriptionToDebugDump_gate cfg env exe w).1 = .ok g ∧
      g ≠ .inl .MW_GPG_ERROR := by
  by_cases hk : exe = "kernel"
  · exact ⟨.inr ("kernel", "kernel"),
      by simp [SavePackageDescriptionToDebugDump_gate, hk, M_pure_def, M.pure], by simp⟩
  · by_cases hn : packageName (env.GetPackage exe w.ext) = ""
    · refine ⟨.inl .MW_PACKAGE_ERROR, ?_, by simp⟩
      simp [SavePackageDescriptionToDebugDump_gate, hk, hn, M_bind_def, M_pure_def, M.bind,
        M.pure, callRead, emit]
    · by_cases hb : packageName (env.GetPackage exe w.ext) ∈ cfg.s_setBlackList
      · refine ⟨.inl .MW_BLACKLISTED, ?_, by simp⟩
        simp [SavePackageDescriptionToDebugDump_gate, hk, hn, hb, M_bind_def, M_pure_def, M.bind,
          M.pure, callRead, emit]
      · refine ⟨.inr (env.GetPackage exe w.ext, packageName (env.GetPackage exe w.ext)),
          ?_, by simp⟩
        simp [SavePackageDescriptionToDebugDump_gate, hk, hn, hb, hFlag, M_bind_def, M_pure_def,
          M.bind, M.pure, callRead, emit]

/-- Claim C13 as stated fails in its second half: with the OpenGPG check on and a
bad hash reported for the executable, a kernel oops passes the gate with `MW_OK`
and the three files are written, and an executable of a blacklisted package is
rejected as `MW_BLACKLISTED`, not as `MW_GPG_ERROR`. -/
theorem SavePackageDescriptionToDebugDump_bad_hash_not_reached :
    (exampleEnv.CheckHash "kernel" "kernel" badHashKernelSim = false ∧
      (SavePackageDescriptionToDebugDump (gpgConfig []) exampleEnv "kernel"
        "/var/cache/abrt/kerneloops-1" (simWorld badHashKernelSim)).1 = .ok .MW_OK ∧
      savedFiles (SavePackageDescriptionToDebugDump (gpgConfig []) exampleEnv "kernel"
        "/var/cache/abrt/kerneloops-1" (simWorld badHashKernelSim)).2.trace
        = [("/var/cache/abrt/kerneloops-1", "package", "kernel"),
            ("/var/cache/abrt/kerneloops-1", "description", "description of kernel"),
            ("/var/cache/abrt/kerneloops-1", "component", "kernel")]) ∧
    (exampleEnv.CheckHash "foo" "/usr/bin/foo" badHashSim = false ∧
      (SavePackageDescriptionToDebugDump (gpgConfig ["foo"]) exampleEnv "/usr/bin/foo"
        "/var/cache/abrt/ccpp-1" (simWorld badHashSim)).1 = .ok .MW_BLACKLISTED) := by
  refine ⟨⟨by decide, by decide, by decide⟩, by decide, by decide⟩

/-- Claim C13, amended. With the OpenGPG check off, the policy gate never returns
`MW_GPG_ERROR`, whatever the executable, the package inspector, the blacklist
and the artifact store do.  With the check on, for an executable other than the
sentinel `kernel` whose derived package name is not empty and not blacklisted,
a bad hash reported by the package inspector makes the gate return
`MW_GPG_ERROR`; it has then written no file and left the collaborators as they
were. -/
theorem SavePackageDescriptionToDebugDump_gpg (cfg : Config) (env : Collaborators σ)
    (exe dir : String) (w : World σ) :
    (cfg.g_settings_bOpenGPGCheck = false →
      (SavePackageDescriptionToDebugDump cfg env exe dir w).1 ≠ .ok .MW_GPG_ERROR) ∧
    (cfg.g_settings_bOpenGPGCheck = true → exe ≠ "kernel" →
      packageName (env.GetPackage exe w.ext) ≠ "" →
      packageName (env.GetPackage exe w.ext) ∉ cfg.s_setBlackList →
      env.CheckHash (packageName (env.GetPackage exe w.ext)) exe w.ext = false →
      (SavePackageDescriptionToDebugDump cfg env exe dir w).1 = .ok .MW_GPG_ERROR ∧
      (SavePackageDescriptionToDebugDump cfg env exe dir w).2.ext = w.ext ∧
      savedFiles (SavePackageDescriptionToDebugDump cfg env exe dir w).2.trace
        = savedFiles w.trace) := by
  constructor
  · intro hFlag
    obtain ⟨g, hg, hne⟩ := SavePackageDescriptionToDebugDump_gate_no_gpg cfg env exe w hFlag
    have hGate : SavePackageDescriptionToDebugDump_gate cfg env exe w
        = (.ok g, (SavePackageDescriptionToDebugDump_gate cfg env exe w).2) := Prod.ext hg rfl
    cases g with
    | inl res =>
      rw [SavePackageDescriptionToDebugDump_of_gate_inl cfg env exe dir w _ res hGate]
      intro h
      apply hne
      simp only [Except.ok.injEq] at h
      rw [h]
    | inr p =>
      rcases SavePackageDescriptionToDebugDump_of_gate_inr cfg env exe dir w _ p hGate
        with h | h | h <;> rw [h] <;> simp
  · intro hFlag hk hn hb hHash
    by_cases hf : env.CheckFingerprint (packageName (env.GetPackage exe w.ext)) w.ext = true
    · simp [SavePackageDescriptionToDebugDump, SavePackageDescriptionToDebugDump_gate, hk, hn,
        hb, hFlag, hf, hHash, M_bind_def, M_pure_def, M.bind, M.pure, callRead, emit, savedFiles,
        savedFile]
    · simp [SavePackageDescriptionToDebugDump, SavePackageDescriptionToDebugDump_gate, hk, hn,
        hb, hFlag, hf, M_bind_def, M_pure_def, M.bind, M.pure, callRead, emit, savedFiles,
        savedFile]

/-- Claim C13, amended, at the crash of `/usr/bin/foo`: with the check off the result
is not `MW_GPG_ERROR`; with the check on and a bad hash it is, and no file is
written. -/
theorem SavePackageDescriptionToDebugDump_gpg_witness :
    (SavePackageDescriptionToDebugDump simConfig exampleEnv "/usr/bin/foo"
      "/var/cache/abrt/ccpp-1" (simWorld badHashSim)).1 ≠ .ok .MW_GPG_ERROR ∧
    (SavePackageDescriptionToDebugDump (gpgConfig []) exampleEnv "/usr/bin/foo"
      "/var/cache/abrt/ccpp-1" (simWorld badHashSim)).1 = .ok .MW_GPG_ERROR ∧
    savedFiles (SavePackageDescriptionToDebugDump (gpgConfig []) exampleEnv "/usr/bin/foo"
      "/var/cache/abrt/ccpp-1" (simWorld badHashSim)).2.trace = [] :=
  ⟨(SavePackageDescriptionToDebugDump_gpg simConfig exampleEnv "/usr/bin/foo"
      "/var/cache/abrt/ccpp-1" (simWorld badHashSim)).1 (by decide),
    ((SavePackageDescriptionToDebugDump_gpg (gpgConfig []) exampleEnv "/usr/bin/foo"
      "/var/cache/abrt/ccpp-1" (simWorld badHashSim)).2 (by decide) (by decide) (by decide)
      (by decide) (by decide)).1,
    ((SavePackageDescriptionToDebugDump_gpg (gpgConfig []) exampleEnv "/usr/bin/foo"
      "/var/cache/abrt/ccpp-1" (simWorld badHashSim)).2 (by decide) (by decide) (by decide)
      (by decide) (by decide)).2.2⟩

/-! ## The crash report built from the artifact directory -/

theorem map_find_map_set_ne {V : Type} (m : map_t V) (k k' : String) (v : V) (h : k ≠ k') :
    map_find (map_set m k v) k' = map_find m k' := by
  induction m with
  | nil => simp [map_set, map_find, h]
  | cons q m ih =>
    by_cases hq : q.1 = k
    · simp [map_set, map_find, hq, h]
    · by_cases hq2 : q.1 = k'
      · have hk : ¬ k' = k := fun hk => h hk.symm
        simp [map_set, map_find, hq, hq2, hk]
      · simp [map_set, map_find, hq, hq2, ih]

/-- The loop body of `DebugDumpToCrashReport` binds the classified file. -/
theorem DebugDumpToCrashReport_file_eq (cfg : Config) (dir : String) (r : map_crash_report_t)
    (f : dd_file_t) :
    DebugDumpToCrashReport_file cfg dir r f = bindClassified cfg dir r f := by
  obtain ⟨name, content, isText⟩ := f
  cases isText with
  | false => simp [DebugDumpToCrashReport_file, bindClassified, classification,
      add_crash_data_to_crash_report]
  | true =>
    by_cases h6 : name = FILENAME_ARCHITECTURE ∨ name = FILENAME_KERNEL ∨
        name = FILENAME_PACKAGE ∨ name = FILENAME_COMPONENT ∨ name = FILENAME_RELEASE ∨
        name = FILENAME_EXECUTABLE
    · simp [DebugDumpToCrashReport_file, bindClassified, classification,
        add_crash_data_to_crash_report, h6]
    · by_cases h4 : name = FILENAME_UID ∨ name = FILENAME_ANALYZER ∨ name = FILENAME_TIME ∨
          name = FILENAME_DESCRIPTION
      · have h4' : ¬ (¬ name = FILENAME_UID ∧ ¬ name = FILENAME_ANALYZER ∧
            ¬ name = FILENAME_TIME ∧ ¬ name = FILENAME_DESCRIPTION) := by
          intro hc
          rcases h4 with h | h | h | h
          · exact hc.1 h
          · exact hc.2.1 h
          · exact hc.2.2.1 h
          · exact hc.2.2.2 h
        simp [DebugDumpToCrashReport_file, bindClassified, classification,
          add_crash_data_to_crash_report, h6, h4, h4']
      · have h4' : ¬ name = FILENAME_UID ∧ ¬ name = FILENAME_ANALYZER ∧
            ¬ name = FILENAME_TIME ∧ ¬ name = FILENAME_DESCRIPTION := by
          simpa [not_or] using h4
        by_cases hlt : content.length < cfg.CD_ATT_SIZE
        · simp [DebugDumpToCrashReport_file, bindClassified, classification,
            add_crash_data_to_crash_report, h6, h4, h4', hlt]
        · simp [DebugDumpToCrashReport_file, bindClassified, classification,
            add_crash_data_to_crash_report, h6, h4, h4', hlt]

theorem foldl_DebugDumpToCrashReport_file (cfg : Config) (dir : String)
    (files : List dd_file_t) (r : map_crash_report_t) :
    files.foldl (DebugDumpToCrashReport_file cfg dir) r
      = files.foldl (bindClassified cfg dir) r := by
  induction files generalizing r with
  | nil => rfl
  | cons f rest ih => simp [List.foldl, DebugDumpToCrashReport_file_eq, ih]

/-- A classified file is bound under its own name. -/
theorem classification_name (cfg : Config) (dir : String) (f : dd_file_t) (n : String)
    (d : crash_data_t) (h : classification cfg dir f = some (n, d)) : n = f.1 := by
  unfold classification at h
  split at h
  · simp at h; exact h.1.symm
  · split at h
    · simp at h; exact h.1.symm
    · split at h
      · simp at h
      · simp at h; exact h.1.symm

/-- Every field of the folded report was there before or is the classification
of a file. -/
theorem foldl_bindClassified_sound (cfg : Config) (dir : String) (files : List dd_file_t) :
    ∀ (r : map_crash_report_t) (n : String) (d : crash_data_t),
      map_find (files.foldl (bindClassified cfg dir) r) n = some d →
      map_find r n = some d ∨ ∃ f ∈ files, classification cfg dir f = some (n, d) := by
  induction files with
  | nil => intro r n d h; exact Or.inl h
  | cons f rest ih =>
    intro r n d h
    rcases ih (bindClassified cfg dir r f) n d h with h1 | ⟨g, hg, hc⟩
    · cases hcl : classification cfg dir f with
      | none =>
        left
        simpa [bindClassified, hcl] using h1
      | some p =>
        obtain ⟨m, e⟩ := p
        by_cases hm : m = n
        · subst hm
          have : e = d := by
            simpa [bindClassified, hcl, map_find_map_set] using h1
          right
          exact ⟨f, List.mem_cons_self _ _, by rw [hcl, this]⟩
        · left
          simpa [bindClassified, hcl, map_find_map_set_ne _ _ _ _ hm] using h1
    · exact Or.inr ⟨g, List.mem_cons_of_mem _ hg, hc⟩

/-- Every classified file has a field in the folded report, and fields stay. -/
theorem foldl_bindClassified_complete (cfg : Config) (dir : String) (files : List dd_file_t) :
    ∀ (r : map_crash_report_t) (n : String),
      (map_find r n ≠ none ∨ ∃ f ∈ files, ∃ d, classification cfg dir f = some (n, d)) →
      map_find (files.foldl (bindClassified cfg dir) r) n ≠ none := by
  induction files with
  | nil =>
    intro r n h
    rcases h with h | ⟨f, hf, _⟩
    · exact h
    · simp at hf
  | cons f rest ih =>
    intro r n h
    apply ih
    rcases h with h | ⟨g, hg, d, hc⟩
    · left
      cases hcl : classification cfg dir f with
      | none => simpa [bindClassified, hcl] using h
      | some p =>
        obtain ⟨m, e⟩ := p
        by_cases hm : m = n
        · subst hm
          simp [bindClassified, hcl, map_find_map_set]
        · simpa [bindClassified, hcl, map_find_map_set_ne _ _ _ _ hm] using h
    · rcases List.mem_cons.mp hg with h1 | h1
      · subst h1
        left
        simp [bindClassified, hc, map_find_map_set]
      · exact Or.inr ⟨g, h1, d, hc⟩


/-- Claim C14 as stated fails for the four suppressed names: a `description` file
that the artifact store hands out as binary gives a binary-reference field named
`description` in the report. -/
theorem DebugDumpToCrashReport_binary_description_reported :
    (DebugDumpToCrashReport simConfig exampleEnv "/var/cache/abrt/ccpp-1"
      (simWorld binaryDescriptionSim)).1 = .ok () ∧
    map_find (DebugDumpToCrashReport simConfig exampleEnv "/var/cache/abrt/ccpp-1"
      (simWorld binaryDescriptionSim)).2.pCrashReport FILENAME_DESCRIPTION
      = some ⟨.CD_BIN, .CD_ISNOTEDITABLE, "/var/cache/abrt/ccpp-1/description"⟩ := by
  refine ⟨by decide, by decide⟩

/-- Claim C14, amended. For every artifact directory containing the six required
files whose enumeration hands out `files`, the crash report built by
`DebugDumpToCrashReport` is the per-file classification of `files`, bound in
enumeration order: a binary file is a not-editable binary reference to
`<dir>/<name>`, whatever its name; a text file named as a required field is
not-editable text whatever its size; a text file named uid, analyzer, time or
description gives no field; any other text file is an editable text or
attachment field.  Nothing else is in the report: every field is the
classification of an enumerated file, every classified file has a field, and a
field named uid, analyzer, time or description appears only for a binary file
of that name. -/
theorem DebugDumpToCrashReport_classifies (cfg : Config) (env : Collaborators σ)
    (dir : String) (w : World σ) (files : List dd_file_t) (x1 x2 : σ)
    (hOpen : env.dd_Open dir w.ext = (.ok (), x1))
    (hArchitecture : env.dd_Exist dir FILENAME_ARCHITECTURE x1 = true)
    (hKernel : env.dd_Exist dir FILENAME_KERNEL x1 = true)
    (hPackage : env.dd_Exist dir FILENAME_PACKAGE x1 = true)
    (hComponent : env.dd_Exist dir FILENAME_COMPONENT x1 = true)
    (hRelease : env.dd_Exist dir FILENAME_RELEASE x1 = true)
    (hExecutable : env.dd_Exist dir FILENAME_EXECUTABLE x1 = true)
    (hFiles : env.dd_GetNextFile dir x1 = ((files, none), x2)) :
    DebugDumpToCrashReport cfg env dir w =
      (.ok (),
        { ext := env.dd_Close dir x2
          trace := w.trace ++
            [Event.dd_Open dir (.ok ()), Event.dd_Exist dir FILENAME_ARCHITECTURE true,
              Event.dd_Exist dir FILENAME_KERNEL true, Event.dd_Exist dir FILENAME_PACKAGE true,
              Event.dd_Exist dir FILENAME_COMPONENT true,
              Event.dd_Exist dir FILENAME_RELEASE true,
              Event.dd_Exist dir FILENAME_EXECUTABLE true,
              Event.dd_GetNextFile dir (files, none), Event.dd_Close dir]
          pCrashReport := classifiedReport cfg dir files
          pCrashInfo := w.pCrashInfo }) ∧
    (∀ n d, map_find (classifiedReport cfg dir files) n = some d →
      ∃ f ∈ files, classification cfg dir f = some (n, d)) ∧
    (∀ f ∈ files, ∀ n d, classification cfg dir f = some (n, d) →
      map_find (classifiedReport cfg dir files) n ≠ none) ∧
    (∀ n ∈ [FILENAME_UID, FILENAME_ANALYZER, FILENAME_TIME, FILENAME_DESCRIPTION],
      (∀ f ∈ files, f.1 = n → f.2.2 = true) →
      map_find (classifiedReport cfg dir files) n = none) := by
  have hsound : ∀ n d, map_find (classifiedReport cfg dir files) n = some d →
      ∃ f ∈ files, classification cfg dir f = some (n, d) := by
    intro n d h
    rcases foldl_bindClassified_sound cfg dir files [] n d h with h1 | h1
    · simp [map_find] at h1
    · exact h1
  refine ⟨?_, hsound, ?_, ?_⟩
  · simp [DebugDumpToCrashReport, orElse, dd_notExist, M_bind_def, M_pure_def, M.bind, M.pure,
      call, callRead, callTotal, callUpdate, modifyCrashReport, hOpen, hArchitecture, hKernel,
      hPackage, hComponent, hRelease, hExecutable, hFiles, classifiedReport,
      foldl_DebugDumpToCrashReport_file]
  · intro f hf n d hc
    exact foldl_bindClassified_complete cfg dir files [] n (Or.inr ⟨f, hf, d, hc⟩)
  · intro n hn hText
    cases hfind : map_find (classifiedReport cfg dir files) n with
    | none => rfl
    | some d =>
      exfalso
      obtain ⟨f, hf, hc⟩ := hsound n d hfind
      have hname : n = f.1 := classification_name cfg dir f n d hc
      have htext : f.2.2 = true := hText f hf hname.symm
      have hn' : f.1 ∈ [FILENAME_UID, FILENAME_ANALYZER, FILENAME_TIME, FILENAME_DESCRIPTION] :=
        hname ▸ hn
      unfold classification at hc
      rw [if_neg (by simp [htext])] at hc
      split at hc
      · rename_i h6
        simp only [List.mem_cons, List.mem_singleton, List.not_mem_nil, or_false] at h6 hn'
        rcases hn' with h | h | h | h <;> rw [h] at h6 <;> revert h6 <;> decide
      all_goals contradiction


/-- Claim C14, amended, at a directory with the files of the examples and the
texts `description` and `backtrace`: the report is the classification of the
files, and it has no field named `description`. -/
theorem DebugDumpToCrashReport_classifies_witness :
    (DebugDumpToCrashReport simConfig exampleEnv "/var/cache/abrt/ccpp-1"
      (simWorld completeSim)).2.pCrashReport
      = classifiedReport simConfig "/var/cache/abrt/ccpp-1"
          (exampleDump ++ [("description", "An example.", true), ("backtrace", "#0 main", true)]) ∧
    map_find (classifiedReport simConfig "/var/cache/abrt/ccpp-1"
      (exampleDump ++ [("description", "An example.", true), ("backtrace", "#0 main", true)]))
      FILENAME_DESCRIPTION = none :=
  have h := DebugDumpToCrashReport_classifies simConfig exampleEnv "/var/cache/abrt/ccpp-1"
    (simWorld completeSim)
    (exampleDump ++ [("description", "An example.", true), ("backtrace", "#0 main", true)])
    completeSim completeSim (by decide) (by decide) (by decide) (by decide) (by decide)
    (by decide) (by decide) (by decide)
  ⟨congrArg (fun r => r.2.pCrashReport) h.1,
    h.2.2.2 FILENAME_DESCRIPTION (by decide) (by decide)⟩

/-! ## The result of `SaveDebugDumpToDatabase` -/

/-- When `GetCrashInfo` returns `MW_OK`, each of its calls returned: the row query
gave a row, the three texts were loaded from the directory of that row, and the
crash info is the one filled from that row and those texts. -/
theorem GetCrashInfo_ok_filled (cfg : Config) (env : Collaborators σ) (pUUID pUID : String)
    (w w' : World σ) (h : GetCrashInfo cfg env pUUID pUID w = (.ok .MW_OK, w')) :
    ∃ (row : database_row_t) (executable package description : String)
      (y1 y2 y3 y4 y5 y6 y7 y8 : σ),
      env.GetDatabase cfg.g_settings_sDatabase w.ext = (.ok (), y1) ∧
      env.Connect y1 = (.ok (), y2) ∧
      env.GetUUIDData pUUID pUID y2 = (.ok row, y3) ∧
      env.DisConnect y3 = (.ok (), y4) ∧
      env.dd_Open row.m_sDebugDumpDir y4 = (.ok (), y5) ∧
      env.dd_LoadText row.m_sDebugDumpDir FILENAME_EXECUTABLE y5 = (.ok executable, y6) ∧
      env.dd_LoadText row.m_sDebugDumpDir FILENAME_PACKAGE y6 = (.ok package, y7) ∧
      env.dd_LoadText row.m_sDebugDumpDir FILENAME_DESCRIPTION y7 = (.ok description, y8) ∧
      w' = afterCrashInfo cfg pUUID pUID row executable package description w
        (env.dd_Close row.m_sDebugDumpDir y8) := by
  rcases h1 : env.GetDatabase cfg.g_settings_sDatabase w.ext with ⟨r1, y1⟩
  cases r1 with
  | error e =>
    simp [GetCrashInfo, M_bind_def, M_pure_def, M.bind, M.pure, modifyCrashInfo, call, h1] at h
  | ok _ =>
  rcases h2 : env.Connect y1 with ⟨r2, y2⟩
  cases r2 with
  | error e =>
    simp [GetCrashInfo, M_bind_def, M_pure_def, M.bind, M.pure, modifyCrashInfo, call, h1, h2]
      at h
  | ok _ =>
  rcases h3 : env.GetUUIDData pUUID pUID y2 with ⟨r3, y3⟩
  cases r3 with
  | error e =>
    simp [GetCrashInfo, M_bind_def, M_pure_def, M.bind, M.pure, modifyCrashInfo, call, h1, h2,
      h3] at h
  | ok row =>
  rcases h4 : env.DisConnect y3 with ⟨r4, y4⟩
  cases r4 with
  | error e =>
    simp [GetCrashInfo, M_bind_def, M_pure_def, M.bind, M.pure, modifyCrashInfo, call, h1, h2,
      h3, h4] at h
  | ok _ =>
  rcases h5 : env.dd_Open row.m_sDebugDumpDir y4 with ⟨r5, y5⟩
  cases r5 with
  | error e =>
    by_cases ht : e.type = .EXCEP_DD_LOAD <;>
      simp [GetCrashInfo, M_bind_def, M_pure_def, M.bind, M.pure, modifyCrashInfo, call,
        callUpdate, emit, tryCatchAbrt, h1, h2, h3, h4, h5, ht] at h
  | ok _ =>
  rcases h6 : env.dd_LoadText row.m_sDebugDumpDir FILENAME_EXECUTABLE y5 with ⟨r6, y6⟩
  cases r6 with
  | error e =>
    by_cases ht : e.type = .EXCEP_DD_LOAD <;>
      simp [GetCrashInfo, M_bind_def, M_pure_def, M.bind, M.pure, modifyCrashInfo, call,
        callUpdate, emit, tryCatchAbrt, h1, h2, h3, h4, h5, h6, ht] at h
  | ok executable =>
  rcases h7 : env.dd_LoadText row.m_sDebugDumpDir FILENAME_PACKAGE y6 with ⟨r7, y7⟩
  cases r7 with
  | error e =>
    by_cases ht : e.type = .EXCEP_DD_LOAD <;>
      simp [GetCrashInfo, M_bind_def, M_pure_def, M.bind, M.pure, modifyCrashInfo, call,
        callUpdate, emit, tryCatchAbrt, h1, h2, h3, h4, h5, h6, h7, ht] at h
  | ok package =>
  rcases h8 : env.dd_LoadText row.m_sDebugDumpDir FILENAME_DESCRIPTION y7 with ⟨r8, y8⟩
  cases r8 with
  | error e =>
    by_cases ht : e.type = .EXCEP_DD_LOAD <;>
      simp [GetCrashInfo, M_bind_def, M_pure_def, M.bind, M.pure, modifyCrashInfo, call,
        callUpdate, emit, tryCatchAbrt, h1, h2, h3, h4, h5, h6, h7, h8, ht] at h
  | ok description =>
    refine ⟨row, executable, package, description, y1, y2, y3, y4, y5, y6, y7, y8,
      by first | exact h1 | rfl, h2, h3, h4, h5, h6, h7, h8, ?_⟩
    simp [GetCrashInfo, M_bind_def, M_pure_def, M.bind, M.pure, modifyCrashInfo, call,
      callUpdate, emit, tryCatchAbrt, h1, h2, h3, h4, h5, h6, h7, h8] at h
    rw [← h]
    simp [afterCrashInfo, filledCrashInfo]


/-- Claim C15 as stated fails in its last two parts: for a first occurrence that is
not reported (count `1`, reported `0`) whose `description` text cannot be
loaded, `SaveDebugDumpToDatabase` returns the result of the info fetch,
`MW_FILE_ERROR`, not `MW_OK`, and the caller's crash info, which held an entry,
is left empty. -/
theorem SaveDebugDumpToDatabase_fetch_failure :
    Sim.getRow (Sim.insert freshSim.rows "0a1b2c" "500" "/var/cache/abrt/ccpp-1" "1256000000")
      "0a1b2c" "500"
      = ⟨"0a1b2c", "500", "/var/cache/abrt/ccpp-1", "1", "0", "", "1256000000"⟩ ∧
    (SaveDebugDumpToDatabase simConfig exampleEnv "0a1b2c" "500" "1256000000"
      "/var/cache/abrt/ccpp-1" (usedInfoWorld freshSim)).1 = .ok .MW_FILE_ERROR ∧
    (usedInfoWorld freshSim).pCrashInfo = [("Executable", "/usr/bin/bar")] ∧
    (SaveDebugDumpToDatabase simConfig exampleEnv "0a1b2c" "500" "1256000000"
      "/var/cache/abrt/ccpp-1" (usedInfoWorld freshSim)).2.pCrashInfo = [] := by
  refine ⟨by decide, by decide, by decide, by decide⟩

/-- Claim C15, amended. For every row re-read after the insert in
`SaveDebugDumpToDatabase`, the info fetch returning `res`: if the row's reported
flag is `1` the result is `MW_REPORTED`, whatever the count and whatever `res`;
otherwise, if the row's count is not `1`, in particular if it reads as a number
greater than 1, the result is `MW_OCCURED`; otherwise the result is `res`, the
result of the info fetch.  When that is `MW_OK`, every call of the fetch
returned: its own row query gave a row `row2`, the executable, package and
description texts were loaded from the directory of `row2`, and the function
leaves the world of `afterCrashInfo`: the trace of exactly these calls and the
crash info filled from `row2` and the three loaded texts. -/
theorem SaveDebugDumpToDatabase_result (cfg : Config) (env : Collaborators σ)
    (pUUID pUID pTime pDebugDumpDir : String) (w : World σ) (x1 x2 x3 x4 x5 : σ)
    (row : database_row_t) (res : mw_result_t) (w' : World σ)
    (hDatabase : env.GetDatabase cfg.g_settings_sDatabase w.ext = (.ok (), x1))
    (hConnect : env.Connect x1 = (.ok (), x2))
    (hInsert : env.Insert pUUID pUID pDebugDumpDir pTime x2 = (.ok (), x3))
    (hRow : env.GetUUIDData pUUID pUID x3 = (.ok row, x4))
    (hDisConnect : env.DisConnect x4 = (.ok (), x5))
    (hInfo : GetCrashInfo cfg env pUUID pUID
      (afterInsert cfg pUUID pUID pTime pDebugDumpDir row w x5) = (.ok res, w')) :
    (row.m_sReported = "1" →
      (SaveDebugDumpToDatabase cfg env pUUID pUID pTime pDebugDumpDir w).1
        = .ok .MW_REPORTED) ∧
    (row.m_sReported ≠ "1" → row.m_sCount ≠ "1" →
      (SaveDebugDumpToDatabase cfg env pUUID pUID pTime pDebugDumpDir w).1
        = .ok .MW_OCCURED) ∧
    (row.m_sReported ≠ "1" → 1 < atoi row.m_sCount →
      (SaveDebugDumpToDatabase cfg env pUUID pUID pTime pDebugDumpDir w).1
        = .ok .MW_OCCURED) ∧
    (row.m_sReported ≠ "1" → row.m_sCount = "1" →
      (SaveDebugDumpToDatabase cfg env pUUID pUID pTime pDebugDumpDir w).1 = .ok res ∧
      (res = .MW_OK →
        ∃ (row2 : database_row_t) (executable package description : String)
          (y1 y2 y3 y4 y5 y6 y7 y8 : σ),
          env.GetDatabase cfg.g_settings_sDatabase x5 = (.ok (), y1) ∧
          env.Connect y1 = (.ok (), y2) ∧
          env.GetUUIDData pUUID pUID y2 = (.ok row2, y3) ∧
          env.DisConnect y3 = (.ok (), y4) ∧
          env.dd_Open row2.m_sDebugDumpDir y4 = (.ok (), y5) ∧
          env.dd_LoadText row2.m_sDebugDumpDir FILENAME_EXECUTABLE y5 = (.ok executable, y6) ∧
          env.dd_LoadText row2.m_sDebugDumpDir FILENAME_PACKAGE y6 = (.ok package, y7) ∧
          env.dd_LoadText row2.m_sDebugDumpDir FILENAME_DESCRIPTION y7
            = (.ok description, y8) ∧
          (SaveDebugDumpToDatabase cfg env pUUID pUID pTime pDebugDumpDir w).2
            = afterCrashInfo cfg pUUID pUID row2 executable package description
                (afterInsert cfg pUUID pUID pTime pDebugDumpDir row w x5)
                (env.dd_Close row2.m_sDebugDumpDir y8) ∧
          (SaveDebugDumpToDatabase cfg env pUUID pUID pTime pDebugDumpDir w).2.pCrashInfo
            = filledCrashInfo cfg row2 executable package description)) := by
  have hInfo' := hInfo
  unfold afterInsert at hInfo'
  have hOccured : row.m_sReported ≠ "1" → row.m_sCount ≠ "1" →
      (SaveDebugDumpToDatabase cfg env pUUID pUID pTime pDebugDumpDir w).1
        = .ok .MW_OCCURED := by
    intro hr hc
    simp [SaveDebugDumpToDatabase, M_bind_def, M_pure_def, M.bind, M.pure, call, emit,
      hDatabase, hConnect, hInsert, hRow, hDisConnect, hInfo', hr, hc]
  refine ⟨?_, hOccured, ?_, ?_⟩
  · intro hr
    simp [SaveDebugDumpToDatabase, M_bind_def, M_pure_def, M.bind, M.pure, call, emit,
      hDatabase, hConnect, hInsert, hRow, hDisConnect, hInfo', hr]
  · intro hr hn
    apply hOccured hr
    intro hc
    rw [hc] at hn
    revert hn
    decide
  · intro hr hc
    have hrun : SaveDebugDumpToDatabase cfg env pUUID pUID pTime pDebugDumpDir w
        = (.ok res, w') := by
      simp [SaveDebugDumpToDatabase, M_bind_def, M_pure_def, M.bind, M.pure, call, emit,
        hDatabase, hConnect, hInsert, hRow, hDisConnect, hInfo', hr, hc]
    rw [hrun]
    refine ⟨rfl, ?_⟩
    intro hok
    rw [hok] at hInfo
    obtain ⟨row2, executable, package, description, y1, y2, y3, y4, y5, y6, y7, y8,
      h1, h2, h3, h4, h5, h6, h7, h8, hw⟩ := GetCrashInfo_ok_filled cfg env pUUID pUID _ w' hInfo
    exact ⟨row2, executable, package, description, y1, y2, y3, y4, y5, y6, y7, y8,
      h1, h2, h3, h4, h5, h6, h7, h8, hw, by rw [hw]; rfl⟩

set_option maxRecDepth 100000 in
/-- Claim C15, amended, at three runs.  At the first ingestion of the directory
of the examples the row read back has count `1` and is not reported, the info
fetch succeeds, and the result is `MW_OK` with the crash info filled from the
row of the crash and the texts of its directory.  At a crash recorded with
another directory the row read back has count `2` and the result is
`MW_OCCURED`, the info fetch having failed.  At a crash already reported the row read back has count `2` and
reported `1`, and the result is `MW_REPORTED`. -/
theorem SaveDebugDumpToDatabase_result_witness :
    ((SaveDebugDumpToDatabase simConfig exampleEnv "0a1b2c" "500" "1256000000"
        "/var/cache/abrt/ccpp-1" (simWorld completeSim)).1 = .ok .MW_OK ∧
      (∃ (row2 : database_row_t) (executable package description : String)
          (y1 y2 y3 y4 y5 y6 y7 y8 : Sim),
          exampleEnv.GetDatabase simConfig.g_settings_sDatabase insertedSim = (.ok (), y1) ∧
          exampleEnv.Connect y1 = (.ok (), y2) ∧
          exampleEnv.GetUUIDData "0a1b2c" "500" y2 = (.ok row2, y3) ∧
          exampleEnv.DisConnect y3 = (.ok (), y4) ∧
          exampleEnv.dd_Open row2.m_sDebugDumpDir y4 = (.ok (), y5) ∧
          exampleEnv.dd_LoadText row2.m_sDebugDumpDir FILENAME_EXECUTABLE y5
            = (.ok executable, y6) ∧
          exampleEnv.dd_LoadText row2.m_sDebugDumpDir FILENAME_PACKAGE y6 = (.ok package, y7) ∧
          exampleEnv.dd_LoadText row2.m_sDebugDumpDir FILENAME_DESCRIPTION y7
            = (.ok description, y8) ∧
          (SaveDebugDumpToDatabase simConfig exampleEnv "0a1b2c" "500" "1256000000"
            "/var/cache/abrt/ccpp-1" (simWorld completeSim)).2
            = afterCrashInfo simConfig "0a1b2c" "500" row2 executable package description
                (afterInsert simConfig "0a1b2c" "500" "1256000000" "/var/cache/abrt/ccpp-1"
                  (Sim.getRow insertedSim.rows "0a1b2c" "500") (simWorld completeSim)
                  insertedSim)
                (exampleEnv.dd_Close row2.m_sDebugDumpDir y8) ∧
          (SaveDebugDumpToDatabase simConfig exampleEnv "0a1b2c" "500" "1256000000"
            "/var/cache/abrt/ccpp-1" (simWorld completeSim)).2.pCrashInfo
            = filledCrashInfo simConfig row2 executable package description) ∧
      (SaveDebugDumpToDatabase simConfig exampleEnv "0a1b2c" "500" "1256000000"
        "/var/cache/abrt/ccpp-1" (simWorld completeSim)).2.pCrashInfo
        = filledCrashInfo simConfig
            ⟨"0a1b2c", "500", "/var/cache/abrt/ccpp-1", "1", "0", "", "1256000000"⟩
            "/usr/bin/foo" "foo-1.2-3.x86_64" "An example.") ∧
    (Sim.getRow (exampleEnv.Insert "0a1b2c" "500" "/var/cache/abrt/ccpp-1" "1256000000"
        twoDirSim).2.rows "0a1b2c" "500"
        = ⟨"0a1b2c", "500", "/var/cache/abrt/ccpp-0", "2", "0", "", "1256000000"⟩ ∧
      (SaveDebugDumpToDatabase simConfig exampleEnv "0a1b2c" "500" "1256000000"
        "/var/cache/abrt/ccpp-1" (simWorld twoDirSim)).1 = .ok .MW_OCCURED) ∧
    (Sim.getRow (exampleEnv.Insert "0a1b2c" "500" "/var/cache/abrt/ccpp-1" "1256000000"
        reportedSim).2.rows "0a1b2c" "500"
        = ⟨"0a1b2c", "500", "/var/cache/abrt/ccpp-1", "2", "1", "bug 123 filed",
            "1256000000"⟩ ∧
      (SaveDebugDumpToDatabase simConfig exampleEnv "0a1b2c" "500" "1256000000"
        "/var/cache/abrt/ccpp-1" (simWorld reportedSim)).1 = .ok .MW_REPORTED) :=
  have h := (SaveDebugDumpToDatabase_result simConfig exampleEnv "0a1b2c" "500" "1256000000"
    "/var/cache/abrt/ccpp-1" (simWorld completeSim) completeSim completeSim insertedSim
    insertedSim insertedSim (Sim.getRow insertedSim.rows "0a1b2c" "500") .MW_OK
    (GetCrashInfo simConfig exampleEnv "0a1b2c" "500"
      (afterInsert simConfig "0a1b2c" "500" "1256000000" "/var/cache/abrt/ccpp-1"
        (Sim.getRow insertedSim.rows "0a1b2c" "500") (simWorld completeSim) insertedSim)).2
    (by decide) (by decide) (by decide) (by decide) (by decide)
    (Prod.ext (by decide) rfl)).2.2.2 (by decide) (by decide)
  have h2 := (SaveDebugDumpToDatabase_result simConfig exampleEnv "0a1b2c" "500" "1256000000"
    "/var/cache/abrt/ccpp-1" (simWorld twoDirSim) twoDirSim twoDirSim
    (exampleEnv.Insert "0a1b2c" "500" "/var/cache/abrt/ccpp-1" "1256000000" twoDirSim).2
    (exampleEnv.Insert "0a1b2c" "500" "/var/cache/abrt/ccpp-1" "1256000000" twoDirSim).2
    (exampleEnv.Insert "0a1b2c" "500" "/var/cache/abrt/ccpp-1" "1256000000" twoDirSim).2
    (Sim.getRow (exampleEnv.Insert "0a1b2c" "500" "/var/cache/abrt/ccpp-1" "1256000000"
      twoDirSim).2.rows "0a1b2c" "500") .MW_FILE_ERROR
    (GetCrashInfo simConfig exampleEnv "0a1b2c" "500"
      (afterInsert simConfig "0a1b2c" "500" "1256000000" "/var/cache/abrt/ccpp-1"
        (Sim.getRow (exampleEnv.Insert "0a1b2c" "500" "/var/cache/abrt/ccpp-1" "1256000000"
          twoDirSim).2.rows "0a1b2c" "500") (simWorld twoDirSim)
        (exampleEnv.Insert "0a1b2c" "500" "/var/cache/abrt/ccpp-1" "1256000000" twoDirSim).2)).2
    (by decide) (by decide) (by decide) (by decide) (by decide)
    (Prod.ext (by decide) rfl)).2.2.1 (by decide) (by decide)
  have h3 := (SaveDebugDumpToDatabase_result simConfig exampleEnv "0a1b2c" "500" "1256000000"
    "/var/cache/abrt/ccpp-1" (simWorld reportedSim) reportedSim reportedSim
    (exampleEnv.Insert "0a1b2c" "500" "/var/cache/abrt/ccpp-1" "1256000000" reportedSim).2
    (exampleEnv.Insert "0a1b2c" "500" "/var/cache/abrt/ccpp-1" "1256000000" reportedSim).2
    (exampleEnv.Insert "0a1b2c" "500" "/var/cache/abrt/ccpp-1" "1256000000" reportedSim).2
    (Sim.getRow (exampleEnv.Insert "0a1b2c" "500" "/var/cache/abrt/ccpp-1" "1256000000"
      reportedSim).2.rows "0a1b2c" "500") .MW_OK
    (GetCrashInfo simConfig exampleEnv "0a1b2c" "500"
      (afterInsert simConfig "0a1b2c" "500" "1256000000" "/var/cache/abrt/ccpp-1"
        (Sim.getRow (exampleEnv.Insert "0a1b2c" "500" "/var/cache/abrt/ccpp-1" "1256000000"
          reportedSim).2.rows "0a1b2c" "500") (simWorld reportedSim)
        (exampleEnv.Insert "0a1b2c" "500" "/var/cache/abrt/ccpp-1" "1256000000" reportedSim).2)).2
    (by decide) (by decide) (by decide) (by decide) (by decide)
    (Prod.ext (by decide) rfl)).1 (by decide)
  ⟨⟨h.1, h.2 rfl, by decide⟩, ⟨by decide, h2⟩, by decide, h3⟩

end Claims

end Abrt
